import Mathlib

/-!
# Anti-fraud decisioning engine: embedding and verified properties

Shallow embedding of the Go packages `internal/models`, `internal/rules` and
`internal/services`.

Modelling conventions

* Go `int` is the 64-bit two's-complement integer: values are `Int`, and every
  addition performed by the code is wrapped with `wrapInt64`.
* Go `float64` values are rationals (`Float64 := ℚ`): finite floats are rationals
  and comparisons on them are exact.  In the rules, whose floats are only compared
  with thresholds, arithmetic is taken without rounding.  The fraud rate returned
  by `GetTransactionAnalytics` is computed with IEEE-754 rounding to nearest
  (`roundToFloat64`) after each conversion and operation.  NaN and the infinities
  are not represented.
* The functions of Go's `math` package are a parameter (`MathFuncs`), and
  `calculateDistance` is generic in the number field; `realMath` instantiates it
  at the real numbers for the properties stated over real arithmetic.
* Go `time.Time` is an instant (nanoseconds since the zero time) together with
  the zone offset used by `Hour()`.  Every call of `time.Now()` receives its own
  explicit clock reading.
* Go maps are total functions into `Option`.
* A Go `(value, error)` pair is a Lean pair whose second component is
  `Option Error`; a nil pointer is `none`.
-/

namespace AntiFraud

/-! ## Machine integers, floats, time -/

/-- Two's-complement wrap of an integer into the range of Go's 64-bit `int`. -/
def wrapInt64 (x : Int) : Int := (x + 2 ^ 63) % 2 ^ 64 - 2 ^ 63

/-- Go `float64`: a finite float is the rational it denotes; rounding, where the code's
result depends on it, is applied explicitly with `roundToFloat64`. -/
abbrev Float64 := ℚ

/-- Go conversion `int(f)` of a float: truncation toward zero. -/
def truncToInt (f : Float64) : Int := Int.tdiv f.num f.den

/-- Go `math.Mod(x, y)`: remainder of the truncated quotient (sign of `x`). -/
def mathMod (x y : Float64) : Float64 := x - y * (truncToInt (x / y) : ℚ)

/-- Floor of the binary logarithm of a positive natural number, by repeated halving;
`fuel` bounds the number of halvings, and any `fuel ≥ n` is enough. -/
def log2Fuel : Nat → Nat → Nat
  | 0, _ => 0
  | fuel + 1, n => if 2 ≤ n then log2Fuel fuel (n / 2) + 1 else 0

/-- The power `2 ^ e` for an integer exponent, as a rational. -/
def pow2 (e : Int) : ℚ :=
  if 0 ≤ e then ((2 ^ e.toNat : Nat) : ℚ) else 1 / ((2 ^ (-e).toNat : Nat) : ℚ)

/-- Binary exponent of a positive rational `a`: the `e` with `2 ^ e ≤ a < 2 ^ (e + 1)`. -/
def floorLog2 (a : ℚ) : Int :=
  let e0 : Int := (log2Fuel a.num.natAbs a.num.natAbs : Int) - (log2Fuel a.den a.den : Int)
  if pow2 e0 ≤ a then e0 else e0 - 1

/-- Rounding of a rational to the nearest integer, a tie going to the even one. -/
def roundHalfEven (y : ℚ) : Int :=
  if y - ⌊y⌋ < 1 / 2 then ⌊y⌋
  else if 1 / 2 < y - ⌊y⌋ then ⌊y⌋ + 1
  else if ⌊y⌋ % 2 = 0 then ⌊y⌋ else ⌊y⌋ + 1

/-- IEEE-754 binary64 rounding of an exact value, to nearest with ties to even: the
value is rounded to a multiple of the spacing of the floats around it, which is
`2 ^ (e - 52)` for the binary exponent `e` of `|x|` (53-bit significand) and
`2 ^ (-1074)` in the subnormal range.  Overflow to an infinity (magnitudes from
`2 ^ 1024`) is not represented. -/
def roundToFloat64 (x : ℚ) : Float64 :=
  if x = 0 then 0
  else
    let quantum := pow2 (max (floorLog2 |x| - 52) (-1074))
    (roundHalfEven (x / quantum) : ℚ) * quantum

/-- Go conversion `float64(n)` of an `int`: the nearest `float64`. -/
def float64OfInt (n : Int) : Float64 := roundToFloat64 (n : ℚ)

/-- Go `x / y` on `float64` operands, `y` non-zero: the exact quotient, rounded. -/
def float64Div (x y : Float64) : Float64 := roundToFloat64 (x / y)

/-- Go `x * y` on `float64` operands: the exact product, rounded. -/
def float64Mul (x y : Float64) : Float64 := roundToFloat64 (x * y)

/-- Go `time.Duration`: a count of nanoseconds. -/
abbrev Duration := Int

/-- Smallest `time.Duration`. -/
def minDuration : Duration := -(2 ^ 63)

/-- Largest `time.Duration`. -/
def maxDuration : Duration := 2 ^ 63 - 1

/-- Go constant `time.Minute`. -/
def Minute : Duration := 60000000000

/-- Go constant `time.Hour`. -/
def Hour : Duration := 3600000000000

/-- Go `Duration.Hours()`: the duration as a floating-point number of hours. -/
def Duration.Hours (d : Duration) : Float64 := (d : ℚ) / 3600000000000

/-- Go `Duration.Milliseconds()`: integer millisecond count (truncated). -/
def Duration.Milliseconds (d : Duration) : Int := Int.tdiv d 1000000

/-- Go `time.Time`: `nanos` is the number of nanoseconds since the zero time
(January 1, year 1, 00:00:00 UTC); `zoneOffset` is the offset, in seconds east of
UTC, of the location the time is presented in. -/
structure Time where
  nanos : Int
  zoneOffset : Int
deriving DecidableEq, Repr

/-- Go zero value `time.Time{}`. -/
def Time.zero : Time := { nanos := 0, zoneOffset := 0 }

/-- Go `Time.IsZero()`. -/
def Time.IsZero (t : Time) : Bool := decide (t.nanos = 0)

/-- Go `t.After(u)`. -/
def Time.After (t u : Time) : Bool := decide (t.nanos > u.nanos)

/-- Go `t.Sub(u)`: the difference, saturated to the range of `Duration`. -/
def Time.Sub (t u : Time) : Duration :=
  if t.nanos - u.nanos < minDuration then minDuration
  else if t.nanos - u.nanos > maxDuration then maxDuration
  else t.nanos - u.nanos

/-- Go `t.Hour()`: hour of the day, in `0..23`, in the time's location. -/
def Time.Hour (t : Time) : Int := ((t.nanos / 1000000000 + t.zoneOffset) % 86400) / 3600

/-- Go `time.Since(t)`, where `now` is the reading returned by `time.Now()`. -/
def timeSince (now t : Time) : Duration := now.Sub t

/-- Go `error`: only its message is kept. -/
abbrev Error := String

/-! ## package models -/

/-- Go `models.Location`. -/
structure Location where
  Country : String
  City : String
  Latitude : Float64
  Longitude : Float64
  IPAddress : String
deriving DecidableEq

/-- Go `models.DeviceInfo`. -/
structure DeviceInfo where
  DeviceID : String
  DeviceType : String
  OS : String
  Browser : String
  UserAgent : String
  Fingerprint : String
deriving DecidableEq

/-- Go `models.Transaction`. -/
structure Transaction where
  ID : String
  UserID : String
  Amount : Float64
  Currency : String
  Merchant : String
  Location : Location
  DeviceInfo : DeviceInfo
  Timestamp : Time
  CardLast4 : String
  CardType : String
  Description : String
deriving DecidableEq

/-- Go `models.RiskLevel`, a string type. -/
abbrev RiskLevel := String

/-- Go constant `models.RiskLevelLow`. -/
def RiskLevelLow : RiskLevel := "LOW"

/-- Go constant `models.RiskLevelMedium`. -/
def RiskLevelMedium : RiskLevel := "MEDIUM"

/-- Go constant `models.RiskLevelHigh`. -/
def RiskLevelHigh : RiskLevel := "HIGH"

/-- Go `models.Decision`, a string type. -/
abbrev Decision := String

/-- Go constant `models.DecisionApproved`. -/
def DecisionApproved : Decision := "APPROVED"

/-- Go constant `models.DecisionReview`. -/
def DecisionReview : Decision := "REVIEW"

/-- Go constant `models.DecisionBlocked`. -/
def DecisionBlocked : Decision := "BLOCKED"

/-- A value stored in a Go `map[string]interface{}` of details. -/
inductive DetailValue where
  | str (s : String)
  | float (f : Float64)
  | int (i : Int)
deriving DecidableEq

/-- Go `map[string]interface{}` literal, as its key/value pairs in source order. -/
abbrev Details := List (String × DetailValue)

/-- Go `models.FraudAnalysisResult`. -/
structure FraudAnalysisResult where
  TransactionID : String
  RiskScore : Int
  RiskLevel : RiskLevel
  Decision : Decision
  Reasons : List String
  RulesTriggered : List String
  Details : Details
  AnalyzedAt : Time
  ProcessingTime : Int
deriving DecidableEq

/-- Go `models.FraudIncident`. -/
structure FraudIncident where
  IncidentID : String
  TransactionID : String
  DetectedAt : Time
  ConfirmedFraud : Bool
  Amount : Float64
  Description : String
deriving DecidableEq

/-- Go `models.UserProfile`. -/
structure UserProfile where
  UserID : String
  AvgTransactionValue : Float64
  TotalTransactions : Int
  FirstTransactionAt : Time
  LastTransactionAt : Time
  CommonLocations : List Location
  CommonMerchants : List String
  FraudHistory : List FraudIncident
  TrustedDevices : List String
deriving DecidableEq

/-- Go `models.BlacklistEntry`; `ExpiresAt` is a pointer, `none` when nil.  The Go
field `Type` is named `EntryType` here (`Type` is reserved). -/
structure BlacklistEntry where
  ID : String
  EntryType : String
  Value : String
  Reason : String
  AddedAt : Time
  ExpiresAt : Option Time
  IsActive : Bool
deriving DecidableEq

/-! ## package rules -/

/-- Go `rules.RuleResult`. -/
structure RuleResult where
  RuleID : String
  RuleName : String
  Triggered : Bool
  Score : Int
  Description : String
  Details : Details
deriving DecidableEq

/-- Go interface `rules.FraudRule`, as the record of its methods.  The first
argument of `Evaluate` is the reading `time.Now()` returns during the call. -/
structure FraudRule where
  Evaluate : Time → Transaction → Option UserProfile → RuleResult
  GetID : String
  GetName : String
  GetWeight : Int
  IsEnabled : Bool

/-- Go `rules.HighAmountRule`. -/
structure HighAmountRule where
  ID : String
  Name : String
  Enabled : Bool
  Weight : Int
  Threshold : Float64
deriving DecidableEq

/-- Go zero value `HighAmountRule{}`. -/
def HighAmountRule.zeroValue : HighAmountRule :=
  { ID := "", Name := "", Enabled := false, Weight := 0, Threshold := 0 }

/-- Go `(*HighAmountRule).GetID`. -/
def HighAmountRule.GetID (r : HighAmountRule) : String :=
  if r.ID = "" then "high_amount_rule" else r.ID

/-- Go `(*HighAmountRule).GetName`. -/
def HighAmountRule.GetName (r : HighAmountRule) : String :=
  if r.Name = "" then "High Amount Transaction" else r.Name

/-- Go `(*HighAmountRule).GetWeight`. -/
def HighAmountRule.GetWeight (r : HighAmountRule) : Int :=
  if r.Weight = 0 then 25 else r.Weight

/-- Go `(*HighAmountRule).IsEnabled`. -/
def HighAmountRule.IsEnabled (_r : HighAmountRule) : Bool := true

/-- Go `(*HighAmountRule).Evaluate`. -/
def HighAmountRule.Evaluate (r : HighAmountRule) (transaction : Transaction)
    (_profile : Option UserProfile) : RuleResult :=
  let threshold : Float64 := if r.Threshold > 0 then r.Threshold else 10000
  let triggered : Bool := decide (transaction.Amount > threshold)
  let score : Int :=
    if triggered then
      let factor : Float64 := transaction.Amount / threshold
      if factor > 5 then r.GetWeight
      else if factor > 3 then truncToInt ((r.GetWeight : ℚ) * 0.8)
      else truncToInt ((r.GetWeight : ℚ) * 0.6)
    else 0
  { RuleID := r.GetID
    RuleName := r.GetName
    Triggered := triggered
    Score := score
    Description := "Transação com valor acima do limite normal"
    Details := [("amount", DetailValue.float transaction.Amount),
                ("threshold", DetailValue.float threshold)] }

/-- Go `(*VelocityRule).GetID`. -/
def VelocityRule.GetID : String := "velocity_rule"

/-- Go `(*VelocityRule).GetName`. -/
def VelocityRule.GetName : String := "Transaction Velocity"

/-- Go `(*VelocityRule).IsEnabled`. -/
def VelocityRule.IsEnabled : Bool := true

/-- Go `(*VelocityRule).GetWeight`. -/
def VelocityRule.GetWeight : Int := 20

/-- Go `(*VelocityRule).Evaluate`. -/
def VelocityRule.Evaluate (transaction : Transaction) (profile : Option UserProfile) :
    RuleResult :=
  let triggered : Bool :=
    match profile with
    | some p =>
      if p.LastTransactionAt.After Time.zero then
        let timeDiff : Duration := transaction.Timestamp.Sub p.LastTransactionAt
        decide (timeDiff < 5 * Minute)
      else false
    | none => false
  { RuleID := VelocityRule.GetID
    RuleName := VelocityRule.GetName
    Triggered := triggered
    Score := if triggered then VelocityRule.GetWeight else 0
    Description := "Múltiplas transações em curto período"
    Details := [] }

/-- The functions of Go's `math` package used by `calculateDistance`; they are
library code outside the repository and are taken as a parameter. -/
structure MathFuncs (F : Type) where
  Sin : F → F
  Cos : F → F
  Sqrt : F → F
  Atan2 : F → F → F
  Pi : F

/-- Go `degToRad`. -/
def degToRad {F : Type} [Field F] (m : MathFuncs F) (deg : F) : F := deg * (m.Pi / 180)

/-- Go `calculateDistance`: Haversine distance in km. -/
def calculateDistance {F : Type} [Field F] (m : MathFuncs F) (lat1 lon1 lat2 lon2 : F) : F :=
  let earthRadius : F := 6371
  let dLat := degToRad m (lat2 - lat1)
  let dLon := degToRad m (lon2 - lon1)
  let a := m.Sin (dLat / 2) * m.Sin (dLat / 2) +
    m.Cos (degToRad m lat1) * m.Cos (degToRad m lat2) *
      m.Sin (dLon / 2) * m.Sin (dLon / 2)
  let c := 2 * m.Atan2 (m.Sqrt a) (m.Sqrt (1 - a))
  earthRadius * c

/-- Go `(*GeoVelocityRule).GetID`. -/
def GeoVelocityRule.GetID : String := "geo_velocity_rule"

/-- Go `(*GeoVelocityRule).GetName`. -/
def GeoVelocityRule.GetName : String := "Geographical Velocity"

/-- Go `(*GeoVelocityRule).IsEnabled`. -/
def GeoVelocityRule.IsEnabled : Bool := true

/-- Go `(*GeoVelocityRule).GetWeight`. -/
def GeoVelocityRule.GetWeight : Int := 30

/-- Go `(*GeoVelocityRule).Evaluate`. -/
def GeoVelocityRule.Evaluate (m : MathFuncs Float64) (transaction : Transaction)
    (profile : Option UserProfile) : RuleResult :=
  let triggered : Bool :=
    match profile with
    | some p =>
      if h : p.CommonLocations.length > 0 then
        let lastLocation := p.CommonLocations.get ⟨p.CommonLocations.length - 1, by omega⟩
        let distance := calculateDistance m lastLocation.Latitude lastLocation.Longitude
          transaction.Location.Latitude transaction.Location.Longitude
        let timeDiff : Float64 := (transaction.Timestamp.Sub p.LastTransactionAt).Hours
        if timeDiff > 0 then
          let speed := distance / timeDiff
          decide (speed > 900 ∧ distance > 100)
        else false
      else false
    | none => false
  { RuleID := GeoVelocityRule.GetID
    RuleName := GeoVelocityRule.GetName
    Triggered := triggered
    Score := if triggered then GeoVelocityRule.GetWeight else 0
    Description := "Mudança geográfica impossível detectada"
    Details := [] }

/-- Go `(*UnusualHourRule).GetID`. -/
def UnusualHourRule.GetID : String := "unusual_hour_rule"

/-- Go `(*UnusualHourRule).GetName`. -/
def UnusualHourRule.GetName : String := "Unusual Hour Transaction"

/-- Go `(*UnusualHourRule).IsEnabled`. -/
def UnusualHourRule.IsEnabled : Bool := true

/-- Go `(*UnusualHourRule).GetWeight`. -/
def UnusualHourRule.GetWeight : Int := 10

/-- Go `(*UnusualHourRule).Evaluate`. -/
def UnusualHourRule.Evaluate (transaction : Transaction) (_profile : Option UserProfile) :
    RuleResult :=
  let hour := transaction.Timestamp.Hour
  let triggered : Bool := decide (hour ≥ 23 ∨ hour ≤ 5)
  { RuleID := UnusualHourRule.GetID
    RuleName := UnusualHourRule.GetName
    Triggered := triggered
    Score := if triggered then UnusualHourRule.GetWeight else 0
    Description := "Transação realizada em horário incomum"
    Details := [("hour", DetailValue.int hour)] }

/-- Go `(*NewUserRule).GetID`. -/
def NewUserRule.GetID : String := "new_user_rule"

/-- Go `(*NewUserRule).GetName`. -/
def NewUserRule.GetName : String := "New User High Transaction"

/-- Go `(*NewUserRule).IsEnabled`. -/
def NewUserRule.IsEnabled : Bool := true

/-- Go `(*NewUserRule).GetWeight`. -/
def NewUserRule.GetWeight : Int := 15

/-- Go `(*NewUserRule).Evaluate`; `now` is the reading of `time.Now()` taken by
`time.Since`. -/
def NewUserRule.Evaluate (now : Time) (transaction : Transaction)
    (profile : Option UserProfile) : RuleResult :=
  let triggered : Bool :=
    match profile with
    | some p =>
      let accountAge : Float64 := (timeSince now p.FirstTransactionAt).Hours / 24
      decide (accountAge < 7 ∧ transaction.Amount > 5000)
    | none => decide (transaction.Amount > 3000)
  { RuleID := NewUserRule.GetID
    RuleName := NewUserRule.GetName
    Triggered := triggered
    Score := if triggered then NewUserRule.GetWeight else 0
    Description := "Novo usuário com transação de valor elevado"
    Details := [] }

/-- Go `(*RoundAmountRule).GetID`. -/
def RoundAmountRule.GetID : String := "round_amount_rule"

/-- Go `(*RoundAmountRule).GetName`. -/
def RoundAmountRule.GetName : String := "Suspicious Round Amount"

/-- Go `(*RoundAmountRule).IsEnabled`. -/
def RoundAmountRule.IsEnabled : Bool := true

/-- Go `(*RoundAmountRule).GetWeight`. -/
def RoundAmountRule.GetWeight : Int := 5

/-- Go `(*RoundAmountRule).Evaluate`. -/
def RoundAmountRule.Evaluate (transaction : Transaction) (_profile : Option UserProfile) :
    RuleResult :=
  let amount := transaction.Amount
  let triggered : Bool := decide (amount ≥ 5000 ∧ mathMod amount 1000 = 0)
  { RuleID := RoundAmountRule.GetID
    RuleName := RoundAmountRule.GetName
    Triggered := triggered
    Score := if triggered then RoundAmountRule.GetWeight else 0
    Description := "Valor redondo suspeito"
    Details := [("amount", DetailValue.float amount)] }

/-- Go `(*MultipleFailedAttemptsRule).GetID`. -/
def MultipleFailedAttemptsRule.GetID : String := "multiple_failed_attempts_rule"

/-- Go `(*MultipleFailedAttemptsRule).GetName`. -/
def MultipleFailedAttemptsRule.GetName : String := "Multiple Failed Attempts"

/-- Go `(*MultipleFailedAttemptsRule).IsEnabled`. -/
def MultipleFailedAttemptsRule.IsEnabled : Bool := true

/-- Go `(*MultipleFailedAttemptsRule).GetWeight`. -/
def MultipleFailedAttemptsRule.GetWeight : Int := 25

/-- Go `(*MultipleFailedAttemptsRule).Evaluate`. -/
def MultipleFailedAttemptsRule.Evaluate (_transaction : Transaction)
    (_profile : Option UserProfile) : RuleResult :=
  { RuleID := MultipleFailedAttemptsRule.GetID
    RuleName := MultipleFailedAttemptsRule.GetName
    Triggered := false
    Score := 0
    Description := "Múltiplas tentativas falhadas detectadas"
    Details := [] }

/-- How `*HighAmountRule` implements the interface `FraudRule`. -/
def HighAmountRule.toFraudRule (r : HighAmountRule) : FraudRule :=
  { Evaluate := fun _now transaction profile => r.Evaluate transaction profile
    GetID := r.GetID
    GetName := r.GetName
    GetWeight := r.GetWeight
    IsEnabled := r.IsEnabled }

/-- How `*VelocityRule` implements the interface `FraudRule`. -/
def VelocityRule.toFraudRule : FraudRule :=
  { Evaluate := fun _now transaction profile => VelocityRule.Evaluate transaction profile
    GetID := VelocityRule.GetID
    GetName := VelocityRule.GetName
    GetWeight := VelocityRule.GetWeight
    IsEnabled := VelocityRule.IsEnabled }

/-- How `*GeoVelocityRule` implements the interface `FraudRule`. -/
def GeoVelocityRule.toFraudRule (m : MathFuncs Float64) : FraudRule :=
  { Evaluate := fun _now transaction profile => GeoVelocityRule.Evaluate m transaction profile
    GetID := GeoVelocityRule.GetID
    GetName := GeoVelocityRule.GetName
    GetWeight := GeoVelocityRule.GetWeight
    IsEnabled := GeoVelocityRule.IsEnabled }

/-- How `*UnusualHourRule` implements the interface `FraudRule`. -/
def UnusualHourRule.toFraudRule : FraudRule :=
  { Evaluate := fun _now transaction profile => UnusualHourRule.Evaluate transaction profile
    GetID := UnusualHourRule.GetID
    GetName := UnusualHourRule.GetName
    GetWeight := UnusualHourRule.GetWeight
    IsEnabled := UnusualHourRule.IsEnabled }

/-- How `*NewUserRule` implements the interface `FraudRule`. -/
def NewUserRule.toFraudRule : FraudRule :=
  { Evaluate := fun now transaction profile => NewUserRule.Evaluate now transaction profile
    GetID := NewUserRule.GetID
    GetName := NewUserRule.GetName
    GetWeight := NewUserRule.GetWeight
    IsEnabled := NewUserRule.IsEnabled }

/-- How `*RoundAmountRule` implements the interface `FraudRule`. -/
def RoundAmountRule.toFraudRule : FraudRule :=
  { Evaluate := fun _now transaction profile => RoundAmountRule.Evaluate transaction profile
    GetID := RoundAmountRule.GetID
    GetName := RoundAmountRule.GetName
    GetWeight := RoundAmountRule.GetWeight
    IsEnabled := RoundAmountRule.IsEnabled }

/-- How `*MultipleFailedAttemptsRule` implements the interface `FraudRule`. -/
def MultipleFailedAttemptsRule.toFraudRule : FraudRule :=
  { Evaluate := fun _now transaction profile =>
      MultipleFailedAttemptsRule.Evaluate transaction profile
    GetID := MultipleFailedAttemptsRule.GetID
    GetName := MultipleFailedAttemptsRule.GetName
    GetWeight := MultipleFailedAttemptsRule.GetWeight
    IsEnabled := MultipleFailedAttemptsRule.IsEnabled }

/-- Go `rules.RuleEngine`. -/
structure RuleEngine where
  rules : List FraudRule

/-- Go `(*RuleEngine).RegisterRule`: appends the rule. -/
def RuleEngine.RegisterRule (e : RuleEngine) (rule : FraudRule) : RuleEngine :=
  { rules := e.rules ++ [rule] }

/-- Go `NewRuleEngine`: registers the seven rules, each as its zero value. -/
def NewRuleEngine (m : MathFuncs Float64) : RuleEngine :=
  let engine : RuleEngine := { rules := [] }
  let engine := engine.RegisterRule HighAmountRule.zeroValue.toFraudRule
  let engine := engine.RegisterRule VelocityRule.toFraudRule
  let engine := engine.RegisterRule (GeoVelocityRule.toFraudRule m)
  let engine := engine.RegisterRule UnusualHourRule.toFraudRule
  let engine := engine.RegisterRule NewUserRule.toFraudRule
  let engine := engine.RegisterRule RoundAmountRule.toFraudRule
  let engine := engine.RegisterRule MultipleFailedAttemptsRule.toFraudRule
  engine

/-- Go `(*RuleEngine).Evaluate`: the loop over `e.rules`, as a left fold whose
accumulator is the slice `results`. -/
def RuleEngine.Evaluate (e : RuleEngine) (now : Time) (transaction : Transaction)
    (profile : Option UserProfile) : List RuleResult :=
  e.rules.foldl
    (fun results rule =>
      if !rule.IsEnabled then results
      else
        let result := rule.Evaluate now transaction profile
        if result.Triggered then results ++ [result] else results)
    []

/-- Go `(*RuleEngine).CalculateTotalScore`: the accumulation `totalScore += result.Score`
is 64-bit integer addition. -/
def RuleEngine.CalculateTotalScore (_e : RuleEngine) (results : List RuleResult) : Int :=
  let totalScore := results.foldl (fun totalScore result => wrapInt64 (totalScore + result.Score)) 0
  if totalScore > 100 then 100 else totalScore

/-- Go `rules.GetRiskLevel`. -/
def GetRiskLevel (score : Int) : RiskLevel :=
  if score ≤ 30 then RiskLevelLow
  else if score ≤ 70 then RiskLevelMedium
  else RiskLevelHigh

/-- Go `rules.GetDecision`: a switch with a default case. -/
def GetDecision (riskLevel : RiskLevel) : Decision :=
  if riskLevel = RiskLevelLow then DecisionApproved
  else if riskLevel = RiskLevelMedium then DecisionReview
  else if riskLevel = RiskLevelHigh then DecisionBlocked
  else DecisionReview

/-! ## package services -/

/-- Go interface `services.ProfileStore`, as seen by the service: the read method
at the current store state.  It returns the Go pair `(*UserProfile, error)`. -/
structure ProfileStore where
  GetUserProfile : String → Option UserProfile × Option Error

/-- Go interface `services.BlacklistStore`, as seen by the service: the lookup
method at the current store state.  Its first argument is the reading `time.Now()`
returns during the call; it returns the Go pair `(bool, error)`. -/
structure BlacklistStore where
  IsBlacklisted : Time → String → String → Bool × Option Error

/-- Go `services.InMemoryProfileStore`: the map `profiles`. -/
structure InMemoryProfileStore where
  profiles : String → Option UserProfile

/-- Go `NewInMemoryProfileStore`: an empty map. -/
def NewInMemoryProfileStore : InMemoryProfileStore := { profiles := fun _ => none }

/-- Go `(*InMemoryProfileStore).GetUserProfile`. -/
def InMemoryProfileStore.GetUserProfile (s : InMemoryProfileStore) (userID : String) :
    Option UserProfile × Option Error :=
  match s.profiles userID with
  | none => (none, some ("profile not found for user " ++ userID))
  | some profile => (some profile, none)

/-- Go `(*InMemoryProfileStore).UpdateUserProfile`: returns the store after the
write and the (always nil) error. -/
def InMemoryProfileStore.UpdateUserProfile (s : InMemoryProfileStore) (profile : UserProfile) :
    InMemoryProfileStore × Option Error :=
  ({ profiles := fun k => if k = profile.UserID then some profile else s.profiles k }, none)

/-- How `*InMemoryProfileStore` implements the interface `ProfileStore`. -/
def InMemoryProfileStore.toProfileStore (s : InMemoryProfileStore) : ProfileStore :=
  { GetUserProfile := s.GetUserProfile }

/-- Go `services.InMemoryBlacklistStore`: the two-level map `entries`. -/
structure InMemoryBlacklistStore where
  entries : String → Option (String → Option BlacklistEntry)

/-- Go `NewInMemoryBlacklistStore`: an empty map. -/
def NewInMemoryBlacklistStore : InMemoryBlacklistStore := { entries := fun _ => none }

/-- Go `(*InMemoryBlacklistStore).IsBlacklisted`; `now` is the reading of
`time.Now()` in the expiry test. -/
def InMemoryBlacklistStore.IsBlacklisted (s : InMemoryBlacklistStore) (now : Time)
    (entryType value : String) : Bool × Option Error :=
  match s.entries entryType with
  | none => (false, none)
  | some typeEntries =>
    match typeEntries value with
    | none => (false, none)
    | some entry =>
      if !entry.IsActive then (false, none)
      else
        match entry.ExpiresAt with
        | some expiresAt => if now.After expiresAt then (false, none) else (true, none)
        | none => (true, none)

/-- Go `(*InMemoryBlacklistStore).Add`: returns the store after the write and the
(always nil) error. -/
def InMemoryBlacklistStore.Add (s : InMemoryBlacklistStore) (entry : BlacklistEntry) :
    InMemoryBlacklistStore × Option Error :=
  let typeEntries : String → Option BlacklistEntry :=
    match s.entries entry.EntryType with
    | none => fun _ => none
    | some existing => existing
  ({ entries := fun t =>
      if t = entry.EntryType then
        some (fun v => if v = entry.Value then some entry else typeEntries v)
      else s.entries t }, none)

/-- How `*InMemoryBlacklistStore` implements the interface `BlacklistStore`. -/
def InMemoryBlacklistStore.toBlacklistStore (s : InMemoryBlacklistStore) : BlacklistStore :=
  { IsBlacklisted := s.IsBlacklisted }

/-- Go `services.FraudDetectionService`. -/
structure FraudDetectionService where
  ruleEngine : RuleEngine
  profileStore : ProfileStore
  blacklistStore : BlacklistStore

/-- Go `NewFraudDetectionService`. -/
def NewFraudDetectionService (m : MathFuncs Float64) (profileStore : ProfileStore)
    (blacklistStore : BlacklistStore) : FraudDetectionService :=
  { ruleEngine := NewRuleEngine m
    profileStore := profileStore
    blacklistStore := blacklistStore }

/-- The readings returned by the calls of `time.Now()` that one run of
`AnalyzeTransaction` can make, one field per call site:
`start` for `startTime := time.Now()`, `stamp` for the timestamp default,
`lookupUser`, `lookupCard`, `lookupIP`, `lookupDevice` for the call inside each of
the four blacklist lookups, `since` for `time.Since` in `NewUserRule.Evaluate`,
`analyzedAt` for the field `AnalyzedAt`, `finish` for `time.Since(startTime)`. -/
structure Clock where
  start : Time
  stamp : Time
  lookupUser : Time
  lookupCard : Time
  lookupIP : Time
  lookupDevice : Time
  since : Time
  analyzedAt : Time
  finish : Time

/-- The first statement group of `AnalyzeTransaction`: a zero timestamp is
replaced by the current time (the Go code writes it through the pointer). -/
def stampTimestamp (clk : Clock) (transaction : Transaction) : Transaction :=
  if transaction.Timestamp.IsZero then { transaction with Timestamp := clk.stamp }
  else transaction

/-- Go `(*FraudDetectionService).checkBlacklist`.  A lookup skipped by its
`if field != ""` guard continues like a lookup that returned `(false, nil)`. -/
def FraudDetectionService.checkBlacklist (s : FraudDetectionService) (clk : Clock)
    (transaction : Transaction) : Bool × Option Error :=
  match s.blacklistStore.IsBlacklisted clk.lookupUser "user" transaction.UserID with
  | (_, some err) => (false, some err)
  | (true, none) => (true, none)
  | (false, none) =>
    match (if transaction.CardLast4 ≠ "" then
        s.blacklistStore.IsBlacklisted clk.lookupCard "card" transaction.CardLast4
      else (false, none)) with
    | (_, some err) => (false, some err)
    | (true, none) => (true, none)
    | (false, none) =>
      match (if transaction.Location.IPAddress ≠ "" then
          s.blacklistStore.IsBlacklisted clk.lookupIP "ip" transaction.Location.IPAddress
        else (false, none)) with
      | (_, some err) => (false, some err)
      | (true, none) => (true, none)
      | (false, none) =>
        match (if transaction.DeviceInfo.DeviceID ≠ "" then
            s.blacklistStore.IsBlacklisted clk.lookupDevice "device"
              transaction.DeviceInfo.DeviceID
          else (false, none)) with
        | (_, some err) => (false, some err)
        | (true, none) => (true, none)
        | (false, none) => (false, none)

/-- Go `(*FraudDetectionService).createBlockedResult`. -/
def FraudDetectionService.createBlockedResult (_s : FraudDetectionService) (clk : Clock)
    (transaction : Transaction) (reason : String) (startTime : Time) : FraudAnalysisResult :=
  { TransactionID := transaction.ID
    RiskScore := 100
    RiskLevel := RiskLevelHigh
    Decision := DecisionBlocked
    Reasons := [reason]
    RulesTriggered := ["Blacklist Check"]
    AnalyzedAt := clk.analyzedAt
    ProcessingTime := (timeSince clk.finish startTime).Milliseconds
    Details := [("blocked_reason", DetailValue.str reason)] }

/-- The loop of `AnalyzeTransaction` that extracts `reasons` and `rulesTriggered`
from the rule results, as a left fold over the pair of slices. -/
def extractReasons (ruleResults : List RuleResult) : List String × List String :=
  ruleResults.foldl
    (fun acc result =>
      if result.Triggered then (acc.1 ++ [result.Description], acc.2 ++ [result.RuleName])
      else acc)
    ([], [])

/-- Go `(*FraudDetectionService).AnalyzeTransaction`: returns the Go pair
`(*FraudAnalysisResult, error)`. -/
def FraudDetectionService.AnalyzeTransaction (s : FraudDetectionService) (clk : Clock)
    (transaction : Transaction) : Option FraudAnalysisResult × Option Error :=
  let startTime := clk.start
  let transaction := stampTimestamp clk transaction
  match s.checkBlacklist clk transaction with
  | (_, some err) => (none, some err)
  | (true, none) =>
    (some (s.createBlockedResult clk transaction "Entidade na lista negra" startTime), none)
  | (false, none) =>
    let profile : Option UserProfile :=
      match s.profileStore.GetUserProfile transaction.UserID with
      | (_, some _) => none
      | (profile, none) => profile
    let ruleResults := s.ruleEngine.Evaluate clk.since transaction profile
    let totalScore := s.ruleEngine.CalculateTotalScore ruleResults
    let riskLevel := GetRiskLevel totalScore
    let decision := GetDecision riskLevel
    let extracted := extractReasons ruleResults
    (some
      { TransactionID := transaction.ID
        RiskScore := totalScore
        RiskLevel := riskLevel
        Decision := decision
        Reasons := extracted.1
        RulesTriggered := extracted.2
        AnalyzedAt := clk.analyzedAt
        ProcessingTime := (timeSince clk.finish startTime).Milliseconds
        Details := [("user_id", DetailValue.str transaction.UserID),
                    ("amount", DetailValue.float transaction.Amount),
                    ("merchant", DetailValue.str transaction.Merchant)] }, none)

/-- Go `services.TransactionAnalytics`. -/
structure TransactionAnalytics where
  UserID : String
  TotalTransactions : Int
  AverageAmount : Float64
  FraudCount : Int
  FraudRate : Float64
  LastTransactionAt : Time
deriving DecidableEq

/-- Go `(*FraudDetectionService).GetTransactionAnalytics`: returns the Go pair
`(*TransactionAnalytics, error)`.  The fraud rate is the Go expression
`float64(fraudCount) / float64(profile.TotalTransactions) * 100`, evaluated left to
right in `float64`: both conversions, the quotient and the product are rounded. -/
def FraudDetectionService.GetTransactionAnalytics (s : FraudDetectionService)
    (userID : String) : Option TransactionAnalytics × Option Error :=
  match s.profileStore.GetUserProfile userID with
  | (_, some err) => (none, some err)
  | (none, none) =>
    (some
      { UserID := userID
        TotalTransactions := 0
        AverageAmount := 0
        FraudCount := 0
        FraudRate := 0
        LastTransactionAt := Time.zero }, none)
  | (some profile, none) =>
    let fraudCount : Int := profile.FraudHistory.length
    let fraudRate : Float64 :=
      if profile.TotalTransactions > 0 then
        float64Mul
          (float64Div (float64OfInt fraudCount) (float64OfInt profile.TotalTransactions)) 100
      else 0
    (some
      { UserID := userID
        TotalTransactions := profile.TotalTransactions
        AverageAmount := profile.AvgTransactionValue
        FraudCount := fraudCount
        FraudRate := fraudRate
        LastTransactionAt := profile.LastTransactionAt }, none)

/-! ## Specification-level definitions -/

/-- The rule engine's evaluation as the specification words it: the results of the
enabled rules, in registration order, filtered by their `Triggered` flag. -/
def EvaluateSpec (e : RuleEngine) (now : Time) (transaction : Transaction)
    (profile : Option UserProfile) : List RuleResult :=
  ((e.rules.filter (fun rule => rule.IsEnabled)).map
    (fun rule => rule.Evaluate now transaction profile)).filter (fun result => result.Triggered)

/-- Mathematical (unbounded) sum of the `Score` fields of a list of results. -/
def scoreSum (results : List RuleResult) : Int := (results.map (fun result => result.Score)).sum

/-- A rule result carrying the given score; the other fields are fixed. -/
def resultWithScore (score : Int) : RuleResult :=
  { RuleID := "r"
    RuleName := "R"
    Triggered := true
    Score := score
    Description := "d"
    Details := [] }

/-- Two results with non-negative scores whose sum leaves the range of `int`. -/
def overflowResults : List RuleResult :=
  [resultWithScore 9223372036854775807, resultWithScore 1]

/-- An engine without rules. -/
def emptyEngine : RuleEngine := { rules := [] }

/-- The entry the in-memory blacklist store holds for the pair `(entryType, value)`,
if any: the two map reads of `IsBlacklisted`. -/
def InMemoryBlacklistStore.lookup (s : InMemoryBlacklistStore) (entryType value : String) :
    Option BlacklistEntry :=
  match s.entries entryType with
  | none => none
  | some typeEntries => typeEntries value

/-- The store holds, for exactly the pair `(entryType, value)`, an entry that is active
and that has no expiry or an expiry not earlier than `now`. -/
def InMemoryBlacklistStore.holdsActiveEntry (s : InMemoryBlacklistStore) (now : Time)
    (entryType value : String) : Prop :=
  ∃ entry, s.lookup entryType value = some entry ∧ entry.IsActive = true ∧
    (entry.ExpiresAt = none ∨ ∃ expiresAt, entry.ExpiresAt = some expiresAt ∧
      now.nanos ≤ expiresAt.nanos)

/-- The lookup condition as the specification words it: an entry for exactly the pair,
active, with no expiry or an expiry strictly later than the query time. -/
def InMemoryBlacklistStore.holdsActiveEntrySpec (s : InMemoryBlacklistStore) (now : Time)
    (entryType value : String) : Prop :=
  ∃ entry, s.lookup entryType value = some entry ∧ entry.IsActive = true ∧
    (entry.ExpiresAt = none ∨ ∃ expiresAt, entry.ExpiresAt = some expiresAt ∧
      now.nanos < expiresAt.nanos)

/-- Instant 2024-01-01 12:00:00 UTC. -/
def noon : Time := { nanos := 63839707200000000000, zoneOffset := 0 }

/-- Instant 2024-01-01 02:00:00 UTC. -/
def twoAM : Time := { nanos := 63839671200000000000, zoneOffset := 0 }

/-- A clock all of whose readings are the instant `t`. -/
def clockAt (t : Time) : Clock :=
  { start := t
    stamp := t
    lookupUser := t
    lookupCard := t
    lookupIP := t
    lookupDevice := t
    since := t
    analyzedAt := t
    finish := t }

/-- A concrete `math` parameter for the example runs below; none of them reaches
`calculateDistance` (their profiles are absent). -/
def exampleMath : MathFuncs Float64 :=
  { Sin := fun _ => 0
    Cos := fun _ => 1
    Sqrt := fun x => x
    Atan2 := fun _ _ => 0
    Pi := 355 / 113 }

/-- Location of the example transactions. -/
def exampleLocation : Location :=
  { Country := "BR"
    City := "São Paulo"
    Latitude := -23.5505
    Longitude := -46.6333
    IPAddress := "" }

/-- Go zero value `DeviceInfo{}`. -/
def DeviceInfo.zeroValue : DeviceInfo :=
  { DeviceID := ""
    DeviceType := ""
    OS := ""
    Browser := ""
    UserAgent := ""
    Fingerprint := "" }

/-- An example transaction: user `USER999`, amount 3500, at noon, without card,
IP address or device. -/
def exampleTransaction : Transaction :=
  { ID := "TXN-1"
    UserID := "USER999"
    Amount := 3500
    Currency := "BRL"
    Merchant := "Amazon"
    Location := exampleLocation
    DeviceInfo := DeviceInfo.zeroValue
    Timestamp := noon
    CardLast4 := ""
    CardType := ""
    Description := "" }

/-- An active blacklist entry without expiry, of type `card`, for the empty value. -/
def emptyCardEntry : BlacklistEntry :=
  { ID := "bl-7"
    EntryType := "card"
    Value := ""
    Reason := "Cartão reportado como roubado"
    AddedAt := twoAM
    ExpiresAt := none
    IsActive := true }

/-- The blacklist store after adding `emptyCardEntry` to an empty store. -/
def emptyCardStore : InMemoryBlacklistStore := (NewInMemoryBlacklistStore.Add emptyCardEntry).1

/-- An active blacklist entry for user `USER999` that expires exactly at `noon`. -/
def expiringEntry : BlacklistEntry :=
  { ID := "bl-8"
    EntryType := "user"
    Value := "USER999"
    Reason := "Suspeita de fraude"
    AddedAt := twoAM
    ExpiresAt := some noon
    IsActive := true }

/-- The blacklist store after adding `expiringEntry` to an empty store. -/
def expiringStore : InMemoryBlacklistStore := (NewInMemoryBlacklistStore.Add expiringEntry).1

/-- Go `(*InMemoryBlacklistStore).AddSampleBlacklist`, with `now` the reading of
`time.Now()` used for `AddedAt`. -/
def InMemoryBlacklistStore.AddSampleBlacklist (s : InMemoryBlacklistStore) (now : Time) :
    InMemoryBlacklistStore :=
  let s := (s.Add
    { ID := "bl-1"
      EntryType := "user"
      Value := "BLOCKED_USER_123"
      Reason := "Múltiplas tentativas de fraude confirmadas"
      AddedAt := now
      ExpiresAt := none
      IsActive := true }).1
  let s := (s.Add
    { ID := "bl-2"
      EntryType := "card"
      Value := "4567"
      Reason := "Cartão reportado como roubado"
      AddedAt := now
      ExpiresAt := none
      IsActive := true }).1
  (s.Add
    { ID := "bl-3"
      EntryType := "ip"
      Value := "192.168.1.100"
      Reason := "IP associado a atividade fraudulenta"
      AddedAt := now
      ExpiresAt := none
      IsActive := true }).1

/-- The blacklist store as `main` seeds it. -/
def sampleBlacklist : InMemoryBlacklistStore := NewInMemoryBlacklistStore.AddSampleBlacklist twoAM

/-- The example transaction issued by the blacklisted user `BLOCKED_USER_123`. -/
def blockedTransaction : Transaction := { exampleTransaction with UserID := "BLOCKED_USER_123" }

/-- A profile store whose read fails with a storage error for every user. -/
def unavailableProfileStore : ProfileStore :=
  { GetUserProfile := fun _ => (none, some "profile store unavailable: connection refused") }

/-- A profile whose timestamps were never set: Go zero values for both. -/
def unsetProfile : UserProfile :=
  { UserID := "USER999"
    AvgTransactionValue := 0
    TotalTransactions := 0
    FirstTransactionAt := Time.zero
    LastTransactionAt := Time.zero
    CommonLocations := []
    CommonMerchants := []
    FraudHistory := []
    TrustedDevices := [] }

/-- Instant 0001-01-01 00:01:00 UTC, one minute after the zero time. -/
def oneMinutePastZero : Time := { nanos := 60000000000, zoneOffset := 0 }

/-- The example transaction with its timestamp one minute after the zero time. -/
def earlyTransaction : Transaction := { exampleTransaction with Timestamp := oneMinutePastZero }

/-- The fields of a `FraudAnalysisResult` other than `AnalyzedAt` and `ProcessingTime`. -/
structure DecisionFields where
  TransactionID : String
  RiskScore : Int
  RiskLevel : RiskLevel
  Decision : Decision
  Reasons : List String
  RulesTriggered : List String
  Details : Details
deriving DecidableEq

/-- Projection of a result to its fields other than `AnalyzedAt` and `ProcessingTime`. -/
def decisionFields (r : FraudAnalysisResult) : DecisionFields :=
  { TransactionID := r.TransactionID
    RiskScore := r.RiskScore
    RiskLevel := r.RiskLevel
    Decision := r.Decision
    Reasons := r.Reasons
    RulesTriggered := r.RulesTriggered
    Details := r.Details }

/-- Instant 2024-01-01 15:00:00 UTC. -/
def threePM : Time := { nanos := 63839718000000000000, zoneOffset := 0 }

/-- The example transaction with timestamp 02:00. -/
def nightTransaction : Transaction := { exampleTransaction with Timestamp := twoAM }

/-- The exact special values of Go's `math` functions that `calculateDistance` meets
when both points coincide: `Sin(0) = 0`, `Sqrt(0) = 0`, `Sqrt(1) = 1`, `Atan2(0, 1) = 0`. -/
def MathFuncs.exactAtZero {F : Type} [Field F] (m : MathFuncs F) : Prop :=
  m.Sin 0 = 0 ∧ m.Sqrt 0 = 0 ∧ m.Sqrt 1 = 1 ∧ m.Atan2 0 1 = 0

/-- A profile of user `USER456`, as `main` seeds it: first transaction about six months
and last transaction ten days before `twoAM`, last location `exampleLocation`. -/
def establishedProfile : UserProfile :=
  { UserID := "USER456"
    AvgTransactionValue := 500
    TotalTransactions := 150
    FirstTransactionAt := ⟨63824119200000000000, 0⟩
    LastTransactionAt := ⟨63838807200000000000, 0⟩
    CommonLocations := [exampleLocation]
    CommonMerchants := ["Amazon", "Mercado Livre", "Magazine Luiza"]
    FraudHistory := []
    TrustedDevices := ["device-123"] }

/-- The profile store holding `establishedProfile` only. -/
def establishedStore : InMemoryProfileStore :=
  (NewInMemoryProfileStore.UpdateUserProfile establishedProfile).1

/-- Scenario B: user `USER456`, amount 15000, at 02:00, at `exampleLocation`. -/
def scenarioBTransaction : Transaction :=
  { exampleTransaction with UserID := "USER456", Amount := 15000, Timestamp := twoAM }

/-- Instant 2024-01-01 14:00:00 UTC. -/
def twoPM : Time := { nanos := 63839714400000000000, zoneOffset := 0 }

/-- Scenario A: the unknown user `USER999`, amount 3500, at 14:00. -/
def scenarioATransaction : Transaction := { exampleTransaction with Timestamp := twoPM }

/-- The in-memory profile store after a sequence of `UpdateUserProfile` calls, in the
order of the list. -/
def InMemoryProfileStore.applyUpdates (s : InMemoryProfileStore) (writes : List UserProfile) :
    InMemoryProfileStore :=
  writes.foldl (fun store profile => (store.UpdateUserProfile profile).1) s

/-- A fraud incident of the example profiles. -/
def exampleIncident : FraudIncident :=
  { IncidentID := "inc-1"
    TransactionID := "TXN-0"
    DetectedAt := twoAM
    ConfirmedFraud := true
    Amount := 900
    Description := "chargeback" }

/-- A profile of user `USER777` whose total transaction count is negative and whose
fraud history has one entry. -/
def negativeTotalProfile : UserProfile :=
  { UserID := "USER777"
    AvgTransactionValue := 120
    TotalTransactions := -1
    FirstTransactionAt := twoAM
    LastTransactionAt := noon
    CommonLocations := []
    CommonMerchants := []
    FraudHistory := [exampleIncident]
    TrustedDevices := [] }

/-- A profile of user `USER777` with four transactions, one of them a fraud incident. -/
def quarterFraudProfile : UserProfile := { negativeTotalProfile with TotalTransactions := 4 }

/-- A profile of user `USER777` with three transactions, one of them a fraud incident. -/
def thirdFraudProfile : UserProfile := { negativeTotalProfile with TotalTransactions := 3 }

/-- An inactive entry for the same pair `("user", "USER999")` as `expiringEntry`. -/
def inactiveEntry : BlacklistEntry :=
  { ID := "bl-9"
    EntryType := "user"
    Value := "USER999"
    Reason := "Revisão concluída"
    AddedAt := noon
    ExpiresAt := none
    IsActive := false }

/-- A later version of `negativeTotalProfile`'s user with 9 transactions and no fraud
history. -/
def cleanProfile : UserProfile :=
  { negativeTotalProfile with TotalTransactions := 9, FraudHistory := [] }

/-- The blacklist lookups a transaction calls for, as the specification lists them: type
`user` with the user id, then `card`, `ip` and `device` with their field, each only when
the field is non-empty.  Each lookup is the triple of its clock reading, type and value. -/
def blacklistLookups (clk : Clock) (transaction : Transaction) : List (Time × String × String) :=
  [(clk.lookupUser, "user", transaction.UserID)] ++
  (if transaction.CardLast4 ≠ "" then [(clk.lookupCard, "card", transaction.CardLast4)]
    else []) ++
  (if transaction.Location.IPAddress ≠ "" then
    [(clk.lookupIP, "ip", transaction.Location.IPAddress)] else []) ++
  (if transaction.DeviceInfo.DeviceID ≠ "" then
    [(clk.lookupDevice, "device", transaction.DeviceInfo.DeviceID)] else [])

/-- The outcome of consulting a list of lookups in order and stopping at the first one
that fails (error) or hits (true): the lookups after it are not consulted. -/
def firstDecisive (store : BlacklistStore) : List (Time × String × String) → Bool × Option Error
  | [] => (false, none)
  | (now, entryType, value) :: rest =>
    match store.IsBlacklisted now entryType value with
    | (_, some err) => (false, some err)
    | (true, none) => (true, none)
    | (false, none) => firstDecisive store rest

/-- A blacklist store that hits for type `user` and fails for every other type. -/
def hitThenFailStore : BlacklistStore :=
  { IsBlacklisted := fun _ entryType _ =>
      if entryType = "user" then (true, none) else (false, some "blacklist store unavailable") }

/-- A blacklist store that misses for type `user` and fails for every other type. -/
def missThenFailStore : BlacklistStore :=
  { IsBlacklisted := fun _ entryType _ =>
      if entryType = "user" then (false, none) else (false, some "blacklist store unavailable") }

/-- The example transaction with a card-last-4. -/
def cardTransaction : Transaction := { exampleTransaction with CardLast4 := "4242" }

/-- Real-number `atan2`, the function Go's `math.Atan2(y, x)` approximates: the argument
of the complex number `x + y i`, in `(-π, π]`, with value 0 at the origin. -/
noncomputable def realAtan2 (y x : ℝ) : ℝ := Complex.arg ⟨x, y⟩

/-- The exact real functions that Go's `math` package approximates. -/
noncomputable def realMath : MathFuncs ℝ :=
  { Sin := Real.sin
    Cos := Real.cos
    Sqrt := Real.sqrt
    Atan2 := realAtan2
    Pi := Real.pi }

/-- The inner term `a` of `calculateDistance`, under its own name. -/
def haversineA {F : Type} [Field F] (m : MathFuncs F) (lat1 lon1 lat2 lon2 : F) : F :=
  let dLat := degToRad m (lat2 - lat1)
  let dLon := degToRad m (lon2 - lon1)
  m.Sin (dLat / 2) * m.Sin (dLat / 2) +
    m.Cos (degToRad m lat1) * m.Cos (degToRad m lat2) *
      m.Sin (dLon / 2) * m.Sin (dLon / 2)

/-! ## Theorems -/

theorem wrapInt64_of_inRange (x : Int) (hlo : -(2 ^ 63) ≤ x) (hhi : x < 2 ^ 63) :
    wrapInt64 x = x := by
  unfold wrapInt64
  omega

theorem wrapInt64_add_left (a b : Int) : wrapInt64 (wrapInt64 a + b) = wrapInt64 (a + b) := by
  unfold wrapInt64
  omega

theorem foldl_wrap_scores (results : List RuleResult) (a : Int) :
    results.foldl (fun totalScore result => wrapInt64 (totalScore + result.Score)) (wrapInt64 a)
      = wrapInt64 (a + scoreSum results) := by
  induction results generalizing a with
  | nil => simp [scoreSum]
  | cons r rs ih =>
    simp only [List.foldl_cons]
    rw [wrapInt64_add_left, ih]
    simp only [scoreSum, List.map_cons, List.sum_cons]
    congr 1
    ring

theorem CalculateTotalScore_eq_min_wrap (e : RuleEngine) (results : List RuleResult) :
    e.CalculateTotalScore results = min (wrapInt64 (scoreSum results)) 100 := by
  have h := foldl_wrap_scores results 0
  have h0 : wrapInt64 0 = 0 := by decide
  rw [h0, zero_add] at h
  unfold RuleEngine.CalculateTotalScore
  simp only [h]
  split
  · omega
  · omega

theorem Evaluate_foldl_append (rules : List FraudRule) (now : Time) (transaction : Transaction)
    (profile : Option UserProfile) (acc : List RuleResult) :
    rules.foldl
      (fun results rule =>
        if !rule.IsEnabled then results
        else
          let result := rule.Evaluate now transaction profile
          if result.Triggered then results ++ [result] else results)
      acc
      = acc ++ EvaluateSpec { rules := rules } now transaction profile := by
  induction rules generalizing acc with
  | nil => simp [EvaluateSpec]
  | cons rule rest ih =>
    simp only [List.foldl_cons]
    rw [ih]
    cases hen : rule.IsEnabled
    · simp [EvaluateSpec, List.filter_cons, hen]
    · cases htr : (rule.Evaluate now transaction profile).Triggered
      · simp [EvaluateSpec, List.filter_cons, hen, htr]
      · simp [EvaluateSpec, List.filter_cons, hen, htr]

theorem Evaluate_eq_EvaluateSpec (e : RuleEngine) (now : Time) (transaction : Transaction)
    (profile : Option UserProfile) :
    e.Evaluate now transaction profile = EvaluateSpec e now transaction profile := by
  unfold RuleEngine.Evaluate
  rw [Evaluate_foldl_append]
  simp

theorem NewRuleEngine_rules (m : MathFuncs Float64) :
    (NewRuleEngine m).rules =
      [HighAmountRule.zeroValue.toFraudRule, VelocityRule.toFraudRule,
       GeoVelocityRule.toFraudRule m, UnusualHourRule.toFraudRule, NewUserRule.toFraudRule,
       RoundAmountRule.toFraudRule, MultipleFailedAttemptsRule.toFraudRule] := by
  simp [NewRuleEngine, RuleEngine.RegisterRule]

/-- C3: for every integer score `s` the total functions `GetRiskLevel` and `GetDecision`
follow the table: `s ≤ 30` gives LOW and APPROVED, `31 ≤ s ≤ 70` gives MEDIUM and REVIEW,
`s > 70` gives HIGH and BLOCKED; in particular 30 is LOW/APPROVED, 31 and 70 are
MEDIUM/REVIEW and 71 is HIGH/BLOCKED; `GetDecision` answers every level string (its
default case gives REVIEW). -/
theorem GetRiskLevel_GetDecision_table (s : Int) :
    (s ≤ 30 → GetRiskLevel s = "LOW" ∧ GetDecision (GetRiskLevel s) = "APPROVED") ∧
    (31 ≤ s ∧ s ≤ 70 → GetRiskLevel s = "MEDIUM" ∧ GetDecision (GetRiskLevel s) = "REVIEW") ∧
    (s > 70 → GetRiskLevel s = "HIGH" ∧ GetDecision (GetRiskLevel s) = "BLOCKED") ∧
    (GetRiskLevel 30 = "LOW" ∧ GetDecision (GetRiskLevel 30) = "APPROVED") ∧
    (GetRiskLevel 31 = "MEDIUM" ∧ GetDecision (GetRiskLevel 31) = "REVIEW") ∧
    (GetRiskLevel 70 = "MEDIUM" ∧ GetDecision (GetRiskLevel 70) = "REVIEW") ∧
    (GetRiskLevel 71 = "HIGH" ∧ GetDecision (GetRiskLevel 71) = "BLOCKED") ∧
    (∀ level : RiskLevel, GetDecision level = "APPROVED" ∨ GetDecision level = "REVIEW" ∨
      GetDecision level = "BLOCKED") := by
  refine ⟨?_, ?_, ?_, by decide, by decide, by decide, by decide, ?_⟩
  · intro h
    have h1 : GetRiskLevel s = "LOW" := by simp [GetRiskLevel, h, RiskLevelLow]
    rw [h1]
    exact ⟨rfl, by decide⟩
  · rintro ⟨h31, h70⟩
    have h1 : GetRiskLevel s = "MEDIUM" := by
      have hn : ¬ s ≤ 30 := by omega
      simp [GetRiskLevel, hn, h70, RiskLevelMedium]
    rw [h1]
    exact ⟨rfl, by decide⟩
  · intro h
    have h1 : GetRiskLevel s = "HIGH" := by
      have hn : ¬ s ≤ 30 := by omega
      have hn2 : ¬ s ≤ 70 := by omega
      simp [GetRiskLevel, hn, hn2, RiskLevelHigh]
    rw [h1]
    exact ⟨rfl, by decide⟩
  · intro level
    unfold GetDecision
    split_ifs
    · exact Or.inl rfl
    · exact Or.inr (Or.inl rfl)
    · exact Or.inr (Or.inr rfl)
    · exact Or.inr (Or.inl rfl)

/-- Witness for C3: the table applied at the boundary score 30. -/
theorem GetRiskLevel_GetDecision_table_witness :
    GetRiskLevel 30 = "LOW" ∧ GetDecision (GetRiskLevel 30) = "APPROVED" :=
  (GetRiskLevel_GetDecision_table 30).1 (by decide)

/-- C4, counterexample: the two results of `overflowResults` have non-negative scores
summing to `2 ^ 63`; the 64-bit accumulation wraps, so `CalculateTotalScore` returns
`-2 ^ 63`, which is neither `min (sum) 100 = 100` nor inside `[0, 100]`. -/
theorem CalculateTotalScore_overflow_counterexample :
    (∀ r ∈ overflowResults, 0 ≤ r.Score ∧ r.Score ≤ 9223372036854775807) ∧
    emptyEngine.CalculateTotalScore overflowResults = -9223372036854775808 ∧
    min (scoreSum overflowResults) 100 = 100 ∧
    emptyEngine.CalculateTotalScore overflowResults ≠ min (scoreSum overflowResults) 100 ∧
    ¬ (0 ≤ emptyEngine.CalculateTotalScore overflowResults) := by
  decide

/-- C4, amended: for every list of rule results, `CalculateTotalScore` returns
`min (wrap64 (sum of the scores)) 100`, the running total being 64-bit addition; whenever
the sum of the `Score` fields lies inside the range of the 64-bit `int` this is
`min (sum of the scores) 100`, hence when moreover every score is non-negative the value
lies in `[0, 100]`, and every such list summing to 100 or more yields exactly 100. -/
theorem CalculateTotalScore_eq_min_sum (e : RuleEngine) (results : List RuleResult) :
    e.CalculateTotalScore results = min (wrapInt64 (scoreSum results)) 100 ∧
    (-(2 ^ 63) ≤ scoreSum results → scoreSum results < 2 ^ 63 →
      e.CalculateTotalScore results = min (scoreSum results) 100 ∧
      ((∀ r ∈ results, 0 ≤ r.Score) →
        0 ≤ e.CalculateTotalScore results ∧ e.CalculateTotalScore results ≤ 100) ∧
      (100 ≤ scoreSum results → e.CalculateTotalScore results = 100)) := by
  refine ⟨CalculateTotalScore_eq_min_wrap e results, ?_⟩
  intro hlo hhi
  have hmin : e.CalculateTotalScore results = min (scoreSum results) 100 := by
    rw [CalculateTotalScore_eq_min_wrap, wrapInt64_of_inRange _ hlo hhi]
  refine ⟨hmin, ?_, ?_⟩
  · intro hnonneg
    have hsum : 0 ≤ scoreSum results := by
      unfold scoreSum
      apply List.sum_nonneg
      intro x hx
      obtain ⟨r, hr, rfl⟩ := List.mem_map.mp hx
      exact hnonneg r hr
    rw [hmin]
    omega
  · intro h100
    rw [hmin]
    omega

/-- Witness for C4: scores 60 and 70 sum to 130, inside the `int` range, and the total
is clamped to 100. -/
theorem CalculateTotalScore_eq_min_sum_witness :
    emptyEngine.CalculateTotalScore [resultWithScore 60, resultWithScore 70]
      = min (scoreSum [resultWithScore 60, resultWithScore 70]) 100 ∧
    emptyEngine.CalculateTotalScore [resultWithScore 60, resultWithScore 70] = 100 :=
  ⟨((CalculateTotalScore_eq_min_sum emptyEngine [resultWithScore 60, resultWithScore 70]).2
      (by decide) (by decide)).1,
   ((CalculateTotalScore_eq_min_sum emptyEngine [resultWithScore 60, resultWithScore 70]).2
      (by decide) (by decide)).2.2 (by decide)⟩

/-- C5: for every rule engine, transaction and profile (present or absent), `Evaluate`
returns exactly the results of the enabled rules whose `Triggered` flag is true, each
once and in registration order (the filter of the per-rule results of the enabled
rules); the engine of `NewRuleEngine` registers, in this order and all enabled, High
Amount, Transaction Velocity, Geographical Velocity, Unusual Hour, New User, Round
Amount, Multiple Failed Attempts. -/
theorem Evaluate_filters_in_registration_order (m : MathFuncs Float64) (e : RuleEngine)
    (now : Time) (transaction : Transaction) (profile : Option UserProfile) :
    e.Evaluate now transaction profile = EvaluateSpec e now transaction profile ∧
    (NewRuleEngine m).rules =
      [HighAmountRule.zeroValue.toFraudRule, VelocityRule.toFraudRule,
       GeoVelocityRule.toFraudRule m, UnusualHourRule.toFraudRule, NewUserRule.toFraudRule,
       RoundAmountRule.toFraudRule, MultipleFailedAttemptsRule.toFraudRule] ∧
    (NewRuleEngine m).rules.map (fun rule => rule.GetName) =
      ["High Amount Transaction", "Transaction Velocity", "Geographical Velocity",
       "Unusual Hour Transaction", "New User High Transaction", "Suspicious Round Amount",
       "Multiple Failed Attempts"] ∧
    (∀ rule ∈ (NewRuleEngine m).rules, rule.IsEnabled = true) := by
  refine ⟨Evaluate_eq_EvaluateSpec e now transaction profile, NewRuleEngine_rules m, ?_, ?_⟩
  · rw [NewRuleEngine_rules]
    rfl
  · rw [NewRuleEngine_rules]
    intro rule hrule
    simp only [List.mem_cons, List.mem_singleton, List.not_mem_nil, or_false] at hrule
    rcases hrule with h | h | h | h | h | h | h <;> rw [h] <;> rfl

theorem IsBlacklisted_snd (s : InMemoryBlacklistStore) (now : Time) (entryType value : String) :
    (s.IsBlacklisted now entryType value).2 = none := by
  unfold InMemoryBlacklistStore.IsBlacklisted
  repeat' split
  all_goals rfl

theorem IsBlacklisted_fst_iff (s : InMemoryBlacklistStore) (now : Time)
    (entryType value : String) :
    (s.IsBlacklisted now entryType value).1 = true ↔
      s.holdsActiveEntry now entryType value := by
  unfold InMemoryBlacklistStore.IsBlacklisted InMemoryBlacklistStore.holdsActiveEntry
    InMemoryBlacklistStore.lookup
  cases h1 : s.entries entryType with
  | none => simp
  | some typeEntries =>
    cases h2 : typeEntries value with
    | none => simp [h2]
    | some entry =>
      cases h3 : entry.IsActive with
      | false => simp [h2, h3]
      | true =>
        cases h4 : entry.ExpiresAt with
        | none => simp [h2, h3, h4]
        | some expiresAt =>
          by_cases h5 : now.nanos ≤ expiresAt.nanos
          · have h6 : ¬ expiresAt.nanos < now.nanos := by omega
            simp [h2, h3, h4, Time.After, h5, h6]
          · have h6 : expiresAt.nanos < now.nanos := by omega
            simp [h2, h3, h4, Time.After, h5, h6]

theorem IsBlacklisted_eq (s : InMemoryBlacklistStore) (now : Time) (entryType value : String) :
    s.IsBlacklisted now entryType value = ((s.IsBlacklisted now entryType value).1, none) := by
  have h := IsBlacklisted_snd s now entryType value
  rw [← h]

/-- C6, counterexample: `expiringStore` holds an active entry for `("user", "USER999")`
whose expiry is exactly `noon`; queried at `noon` the expiry is not later than the query
time, yet `IsBlacklisted` returns true. -/
theorem IsBlacklisted_at_expiry_instant_counterexample :
    expiringStore.IsBlacklisted noon "user" "USER999" = (true, none) ∧
    expiringStore.lookup "user" "USER999" = some expiringEntry ∧
    expiringEntry.ExpiresAt = some noon ∧
    ¬ expiringStore.holdsActiveEntrySpec noon "user" "USER999" := by
  refine ⟨by decide, by decide, rfl, ?_⟩
  rintro ⟨entry, hentry, -, hexp⟩
  have hlook : expiringStore.lookup "user" "USER999" = some expiringEntry := by decide
  rw [hlook] at hentry
  injection hentry with hentry
  subst hentry
  rcases hexp with hnone | ⟨expiresAt, hsome, hlt⟩
  · simp [expiringEntry] at hnone
  · simp only [expiringEntry, Option.some.injEq] at hsome
    subst hsome
    simp [noon] at hlt

/-- C6, amended: for every blacklist-store state, entity type, value and query time,
`IsBlacklisted` returns no error and returns true if and only if the store holds an entry
for exactly that (type, value) pair, the entry's active flag is true, and either the entry
has no expiry or its expiry is not earlier than the query time (the entry still counts at
the very instant of its expiry). -/
theorem IsBlacklisted_true_iff_holdsActiveEntry (s : InMemoryBlacklistStore) (now : Time)
    (entryType value : String) :
    (s.IsBlacklisted now entryType value).2 = none ∧
    ((s.IsBlacklisted now entryType value).1 = true ↔
      ∃ entry, s.lookup entryType value = some entry ∧ entry.IsActive = true ∧
        (entry.ExpiresAt = none ∨ ∃ expiresAt, entry.ExpiresAt = some expiresAt ∧
          now.nanos ≤ expiresAt.nanos)) :=
  ⟨IsBlacklisted_snd s now entryType value, IsBlacklisted_fst_iff s now entryType value⟩

theorem checkBlacklist_stampTimestamp (s : FraudDetectionService) (clk : Clock)
    (transaction : Transaction) :
    s.checkBlacklist clk (stampTimestamp clk transaction) = s.checkBlacklist clk transaction := by
  unfold stampTimestamp
  split
  · rfl
  · rfl

theorem checkBlacklist_inMemory_hit (ruleEngine : RuleEngine) (profileStore : ProfileStore)
    (bs : InMemoryBlacklistStore) (clk : Clock) (transaction : Transaction)
    (h : bs.holdsActiveEntry clk.lookupUser "user" transaction.UserID ∨
      (transaction.CardLast4 ≠ "" ∧
        bs.holdsActiveEntry clk.lookupCard "card" transaction.CardLast4) ∨
      (transaction.Location.IPAddress ≠ "" ∧
        bs.holdsActiveEntry clk.lookupIP "ip" transaction.Location.IPAddress) ∨
      (transaction.DeviceInfo.DeviceID ≠ "" ∧
        bs.holdsActiveEntry clk.lookupDevice "device" transaction.DeviceInfo.DeviceID)) :
    FraudDetectionService.checkBlacklist
      { ruleEngine := ruleEngine, profileStore := profileStore,
        blacklistStore := bs.toBlacklistStore } clk transaction = (true, none) := by
  obtain ⟨bU, hU⟩ : ∃ b, bs.IsBlacklisted clk.lookupUser "user" transaction.UserID = (b, none) :=
    ⟨_, IsBlacklisted_eq _ _ _ _⟩
  obtain ⟨bC, hC⟩ : ∃ b, bs.IsBlacklisted clk.lookupCard "card" transaction.CardLast4
      = (b, none) := ⟨_, IsBlacklisted_eq _ _ _ _⟩
  obtain ⟨bI, hI⟩ : ∃ b, bs.IsBlacklisted clk.lookupIP "ip" transaction.Location.IPAddress
      = (b, none) := ⟨_, IsBlacklisted_eq _ _ _ _⟩
  obtain ⟨bD, hD⟩ : ∃ b, bs.IsBlacklisted clk.lookupDevice "device"
      transaction.DeviceInfo.DeviceID = (b, none) := ⟨_, IsBlacklisted_eq _ _ _ _⟩
  have hU1 := IsBlacklisted_fst_iff bs clk.lookupUser "user" transaction.UserID
  have hC1 := IsBlacklisted_fst_iff bs clk.lookupCard "card" transaction.CardLast4
  have hI1 := IsBlacklisted_fst_iff bs clk.lookupIP "ip" transaction.Location.IPAddress
  have hD1 := IsBlacklisted_fst_iff bs clk.lookupDevice "device" transaction.DeviceInfo.DeviceID
  rw [hU] at hU1
  rw [hC] at hC1
  rw [hI] at hI1
  rw [hD] at hD1
  rw [← hU1, ← hC1, ← hI1, ← hD1] at h
  simp only [FraudDetectionService.checkBlacklist, InMemoryBlacklistStore.toBlacklistStore,
    hU, hC, hI, hD]
  by_cases hc : transaction.CardLast4 = "" <;>
    by_cases hi : transaction.Location.IPAddress = "" <;>
    by_cases hd : transaction.DeviceInfo.DeviceID = "" <;>
    cases bU <;> cases bC <;> cases bI <;> cases bD <;> simp_all

/-- C1, counterexample: `emptyCardStore` holds an active entry without expiry of type
`card` for the empty string, which is the card-last-4 of `exampleTransaction`; the card
lookup is skipped for an empty card-last-4, and the transaction is approved with score 15
instead of being blocked. -/
theorem AnalyzeTransaction_empty_card_counterexample :
    emptyCardStore.lookup "card" exampleTransaction.CardLast4 = some emptyCardEntry ∧
    emptyCardEntry.IsActive = true ∧ emptyCardEntry.ExpiresAt = none ∧
    ((NewFraudDetectionService exampleMath NewInMemoryProfileStore.toProfileStore
        emptyCardStore.toBlacklistStore).AnalyzeTransaction (clockAt noon)
        exampleTransaction).2 = none ∧
    ((NewFraudDetectionService exampleMath NewInMemoryProfileStore.toProfileStore
        emptyCardStore.toBlacklistStore).AnalyzeTransaction (clockAt noon)
        exampleTransaction).1.map (fun r => (r.RiskScore, r.RiskLevel, r.Decision, r.RulesTriggered))
      = some (15, "LOW", "APPROVED", ["New User High Transaction"]) := by
  decide!

/-- C1, amended: for every transaction and every state of the in-memory blacklist store,
if the store holds an active entry, not expired at the time of its lookup, of type `user`
for the transaction's user id, or of type `card` for its non-empty card-last-4, or of
type `ip` for its non-empty IP address, or of type `device` for its non-empty device id,
then `AnalyzeTransaction` returns no error and a result with risk score exactly 100, risk
level HIGH, decision BLOCKED, exactly one reason, and `RulesTriggered` equal to
`["Blacklist Check"]`. -/
theorem AnalyzeTransaction_blacklisted_is_blocked (m : MathFuncs Float64)
    (profileStore : ProfileStore) (bs : InMemoryBlacklistStore) (clk : Clock)
    (transaction : Transaction)
    (h : bs.holdsActiveEntry clk.lookupUser "user" transaction.UserID ∨
      (transaction.CardLast4 ≠ "" ∧
        bs.holdsActiveEntry clk.lookupCard "card" transaction.CardLast4) ∨
      (transaction.Location.IPAddress ≠ "" ∧
        bs.holdsActiveEntry clk.lookupIP "ip" transaction.Location.IPAddress) ∨
      (transaction.DeviceInfo.DeviceID ≠ "" ∧
        bs.holdsActiveEntry clk.lookupDevice "device" transaction.DeviceInfo.DeviceID)) :
    ∃ r, (NewFraudDetectionService m profileStore bs.toBlacklistStore).AnalyzeTransaction clk
        transaction = (some r, none) ∧
      r.RiskScore = 100 ∧ r.RiskLevel = "HIGH" ∧ r.Decision = "BLOCKED" ∧
      r.Reasons = ["Entidade na lista negra"] ∧ r.Reasons.length = 1 ∧
      r.RulesTriggered = ["Blacklist Check"] := by
  have hcheck := checkBlacklist_inMemory_hit (NewRuleEngine m) profileStore bs clk transaction h
  refine ⟨(NewFraudDetectionService m profileStore bs.toBlacklistStore).createBlockedResult clk
    (stampTimestamp clk transaction) "Entidade na lista negra" clk.start, ?_, rfl, rfl, rfl, rfl,
    rfl, rfl⟩
  unfold FraudDetectionService.AnalyzeTransaction
  simp only [checkBlacklist_stampTimestamp]
  unfold NewFraudDetectionService
  rw [hcheck]

/-- Witness for C1: the seeded blacklist holds an active entry without expiry for user
`BLOCKED_USER_123`, and a transaction of that user is blocked with score 100. -/
theorem AnalyzeTransaction_blacklisted_is_blocked_witness :
    sampleBlacklist.holdsActiveEntry (clockAt noon).lookupUser "user" blockedTransaction.UserID ∧
    ∃ r, (NewFraudDetectionService exampleMath NewInMemoryProfileStore.toProfileStore
        sampleBlacklist.toBlacklistStore).AnalyzeTransaction (clockAt noon)
        blockedTransaction = (some r, none) ∧
      r.RiskScore = 100 ∧ r.RiskLevel = "HIGH" ∧ r.Decision = "BLOCKED" ∧
      r.Reasons = ["Entidade na lista negra"] ∧ r.Reasons.length = 1 ∧
      r.RulesTriggered = ["Blacklist Check"] :=
  have hentry : sampleBlacklist.holdsActiveEntry (clockAt noon).lookupUser "user"
      blockedTransaction.UserID :=
    ⟨{ ID := "bl-1"
       EntryType := "user"
       Value := "BLOCKED_USER_123"
       Reason := "Múltiplas tentativas de fraude confirmadas"
       AddedAt := twoAM
       ExpiresAt := none
       IsActive := true }, by decide, rfl, Or.inl rfl⟩
  ⟨hentry, AnalyzeTransaction_blacklisted_is_blocked exampleMath
    NewInMemoryProfileStore.toProfileStore sampleBlacklist (clockAt noon) blockedTransaction
    (Or.inl hentry)⟩

theorem truncToInt_weight_high : truncToInt (((25 : Int) : ℚ) * 0.8) = 20 := by
  decide!

theorem truncToInt_weight_low : truncToInt (((25 : Int) : ℚ) * 0.6) = 15 := by
  decide!

theorem HighAmountRule_zeroValue_GetWeight : HighAmountRule.zeroValue.GetWeight = 25 := by
  decide

theorem HighAmountRule_default_score (transaction : Transaction) (profile : Option UserProfile) :
    (HighAmountRule.zeroValue.Evaluate transaction profile).Score =
      if transaction.Amount > 10000 then
        (if transaction.Amount / 10000 > 5 then 25
         else if transaction.Amount / 10000 > 3 then 20 else 15)
      else 0 := by
  simp only [HighAmountRule.Evaluate, HighAmountRule_zeroValue_GetWeight]
  have hthr : (if HighAmountRule.zeroValue.Threshold > 0 then HighAmountRule.zeroValue.Threshold
      else (10000 : ℚ)) = 10000 := by
    simp [HighAmountRule.zeroValue]
  rw [hthr, truncToInt_weight_high, truncToInt_weight_low]
  by_cases h : transaction.Amount > 10000
  · simp [h]
  · simp [h]

theorem NewRuleEngine_rule_score_bounds (m : MathFuncs Float64) (now : Time)
    (transaction : Transaction) (profile : Option UserProfile) :
    ∀ rule ∈ (NewRuleEngine m).rules,
      0 ≤ (rule.Evaluate now transaction profile).Score ∧
      (rule.Evaluate now transaction profile).Score ≤ 30 := by
  rw [NewRuleEngine_rules]
  intro rule hrule
  simp only [List.mem_cons, List.mem_singleton, List.not_mem_nil, or_false] at hrule
  rcases hrule with h | h | h | h | h | h | h <;> subst h
  · simp only [HighAmountRule.toFraudRule, HighAmountRule_default_score]
    split_ifs <;> omega
  · simp only [VelocityRule.toFraudRule, VelocityRule.Evaluate, VelocityRule.GetWeight]
    split_ifs <;> omega
  · simp only [GeoVelocityRule.toFraudRule, GeoVelocityRule.Evaluate, GeoVelocityRule.GetWeight]
    split_ifs <;> omega
  · simp only [UnusualHourRule.toFraudRule, UnusualHourRule.Evaluate, UnusualHourRule.GetWeight]
    split_ifs <;> omega
  · simp only [NewUserRule.toFraudRule, NewUserRule.Evaluate, NewUserRule.GetWeight]
    split_ifs <;> omega
  · simp only [RoundAmountRule.toFraudRule, RoundAmountRule.Evaluate, RoundAmountRule.GetWeight]
    split_ifs <;> omega
  · simp only [MultipleFailedAttemptsRule.toFraudRule, MultipleFailedAttemptsRule.Evaluate]
    omega

theorem Evaluate_mem (e : RuleEngine) (now : Time) (transaction : Transaction)
    (profile : Option UserProfile) (r : RuleResult) :
    r ∈ e.Evaluate now transaction profile ↔
      r.Triggered = true ∧
        ∃ rule ∈ e.rules, rule.IsEnabled = true ∧ rule.Evaluate now transaction profile = r := by
  rw [Evaluate_eq_EvaluateSpec]
  unfold EvaluateSpec
  simp only [List.mem_filter, List.mem_map]
  constructor
  · rintro ⟨⟨rule, ⟨hmem, hen⟩, heq⟩, htr⟩
    exact ⟨htr, rule, hmem, hen, heq⟩
  · rintro ⟨htr, rule, hmem, hen, heq⟩
    exact ⟨⟨rule, ⟨hmem, hen⟩, heq⟩, htr⟩

theorem Evaluate_length_le (e : RuleEngine) (now : Time) (transaction : Transaction)
    (profile : Option UserProfile) :
    (e.Evaluate now transaction profile).length ≤ e.rules.length := by
  rw [Evaluate_eq_EvaluateSpec]
  unfold EvaluateSpec
  calc (List.filter (fun result => result.Triggered)
          (List.map (fun rule => rule.Evaluate now transaction profile)
            (List.filter (fun rule => rule.IsEnabled) e.rules))).length
      ≤ (List.map (fun rule => rule.Evaluate now transaction profile)
            (List.filter (fun rule => rule.IsEnabled) e.rules)).length :=
        List.length_filter_le _ _
    _ = (List.filter (fun rule => rule.IsEnabled) e.rules).length := List.length_map _ _
    _ ≤ e.rules.length := List.length_filter_le _ _

theorem scoreSum_bounds (results : List RuleResult)
    (h : ∀ r ∈ results, 0 ≤ r.Score ∧ r.Score ≤ 30) :
    0 ≤ scoreSum results ∧ scoreSum results ≤ 30 * (results.length : Int) := by
  induction results with
  | nil => simp [scoreSum]
  | cons r rs ih =>
    have hr := h r (List.mem_cons_self r rs)
    have hrs := ih (fun x hx => h x (List.mem_cons_of_mem r hx))
    simp only [scoreSum, List.map_cons, List.sum_cons, List.length_cons] at *
    push_cast
    omega

theorem CalculateTotalScore_NewRuleEngine_bounds (m : MathFuncs Float64) (e : RuleEngine)
    (now : Time) (transaction : Transaction) (profile : Option UserProfile) :
    0 ≤ e.CalculateTotalScore ((NewRuleEngine m).Evaluate now transaction profile) ∧
    e.CalculateTotalScore ((NewRuleEngine m).Evaluate now transaction profile) ≤ 100 := by
  have hscores : ∀ r ∈ (NewRuleEngine m).Evaluate now transaction profile,
      0 ≤ r.Score ∧ r.Score ≤ 30 := by
    intro r hr
    obtain ⟨-, rule, hmem, -, heq⟩ := (Evaluate_mem _ _ _ _ _).mp hr
    rw [← heq]
    exact NewRuleEngine_rule_score_bounds m now transaction profile rule hmem
  have hlen := Evaluate_length_le (NewRuleEngine m) now transaction profile
  have hlen7 : (NewRuleEngine m).rules.length = 7 := by
    rw [NewRuleEngine_rules]
    rfl
  have hsum := scoreSum_bounds _ hscores
  have hlenInt : (((NewRuleEngine m).Evaluate now transaction profile).length : Int) ≤ 7 := by
    omega
  rw [CalculateTotalScore_eq_min_wrap, wrapInt64_of_inRange _ (by omega) (by omega)]
  omega

theorem checkBlacklist_inMemory_snd (ruleEngine : RuleEngine) (profileStore : ProfileStore)
    (bs : InMemoryBlacklistStore) (clk : Clock) (transaction : Transaction) :
    (FraudDetectionService.checkBlacklist
      { ruleEngine := ruleEngine, profileStore := profileStore,
        blacklistStore := bs.toBlacklistStore } clk transaction).2 = none := by
  obtain ⟨bU, hU⟩ : ∃ b, bs.IsBlacklisted clk.lookupUser "user" transaction.UserID = (b, none) :=
    ⟨_, IsBlacklisted_eq _ _ _ _⟩
  obtain ⟨bC, hC⟩ : ∃ b, bs.IsBlacklisted clk.lookupCard "card" transaction.CardLast4
      = (b, none) := ⟨_, IsBlacklisted_eq _ _ _ _⟩
  obtain ⟨bI, hI⟩ : ∃ b, bs.IsBlacklisted clk.lookupIP "ip" transaction.Location.IPAddress
      = (b, none) := ⟨_, IsBlacklisted_eq _ _ _ _⟩
  obtain ⟨bD, hD⟩ : ∃ b, bs.IsBlacklisted clk.lookupDevice "device"
      transaction.DeviceInfo.DeviceID = (b, none) := ⟨_, IsBlacklisted_eq _ _ _ _⟩
  simp only [FraudDetectionService.checkBlacklist, InMemoryBlacklistStore.toBlacklistStore,
    hU, hC, hI, hD]
  by_cases hc : transaction.CardLast4 = "" <;>
    by_cases hi : transaction.Location.IPAddress = "" <;>
    by_cases hd : transaction.DeviceInfo.DeviceID = "" <;>
    cases bU <;> cases bC <;> cases bI <;> cases bD <;> simp_all

theorem AnalyzeTransaction_of_error (s : FraudDetectionService) (clk : Clock)
    (transaction : Transaction) (b : Bool) (err : Error)
    (h : s.checkBlacklist clk transaction = (b, some err)) :
    s.AnalyzeTransaction clk transaction = (none, some err) := by
  simp only [FraudDetectionService.AnalyzeTransaction, checkBlacklist_stampTimestamp, h]

theorem AnalyzeTransaction_of_hit (s : FraudDetectionService) (clk : Clock)
    (transaction : Transaction) (h : s.checkBlacklist clk transaction = (true, none)) :
    s.AnalyzeTransaction clk transaction =
      (some (s.createBlockedResult clk (stampTimestamp clk transaction)
        "Entidade na lista negra" clk.start), none) := by
  simp only [FraudDetectionService.AnalyzeTransaction, checkBlacklist_stampTimestamp, h]

theorem AnalyzeTransaction_of_miss (s : FraudDetectionService) (clk : Clock)
    (transaction : Transaction) (h : s.checkBlacklist clk transaction = (false, none)) :
    s.AnalyzeTransaction clk transaction =
      (some
        { TransactionID := (stampTimestamp clk transaction).ID
          RiskScore := s.ruleEngine.CalculateTotalScore
            (s.ruleEngine.Evaluate clk.since (stampTimestamp clk transaction)
              (match s.profileStore.GetUserProfile (stampTimestamp clk transaction).UserID with
                | (_, some _) => none
                | (profile, none) => profile))
          RiskLevel := GetRiskLevel (s.ruleEngine.CalculateTotalScore
            (s.ruleEngine.Evaluate clk.since (stampTimestamp clk transaction)
              (match s.profileStore.GetUserProfile (stampTimestamp clk transaction).UserID with
                | (_, some _) => none
                | (profile, none) => profile)))
          Decision := GetDecision (GetRiskLevel (s.ruleEngine.CalculateTotalScore
            (s.ruleEngine.Evaluate clk.since (stampTimestamp clk transaction)
              (match s.profileStore.GetUserProfile (stampTimestamp clk transaction).UserID with
                | (_, some _) => none
                | (profile, none) => profile))))
          Reasons := (extractReasons
            (s.ruleEngine.Evaluate clk.since (stampTimestamp clk transaction)
              (match s.profileStore.GetUserProfile (stampTimestamp clk transaction).UserID with
                | (_, some _) => none
                | (profile, none) => profile))).1
          RulesTriggered := (extractReasons
            (s.ruleEngine.Evaluate clk.since (stampTimestamp clk transaction)
              (match s.profileStore.GetUserProfile (stampTimestamp clk transaction).UserID with
                | (_, some _) => none
                | (profile, none) => profile))).2
          AnalyzedAt := clk.analyzedAt
          ProcessingTime := (timeSince clk.finish clk.start).Milliseconds
          Details := [("user_id", DetailValue.str (stampTimestamp clk transaction).UserID),
                      ("amount", DetailValue.float (stampTimestamp clk transaction).Amount),
                      ("merchant", DetailValue.str (stampTimestamp clk transaction).Merchant)] },
        none) := by
  simp only [FraudDetectionService.AnalyzeTransaction, checkBlacklist_stampTimestamp, h]

theorem AnalyzeTransaction_score_of_result (m : MathFuncs Float64) (profileStore : ProfileStore)
    (blacklistStore : BlacklistStore) (clk : Clock) (transaction : Transaction)
    (r : FraudAnalysisResult)
    (h : ((NewFraudDetectionService m profileStore blacklistStore).AnalyzeTransaction clk
      transaction).1 = some r) :
    0 ≤ r.RiskScore ∧ r.RiskScore ≤ 100 := by
  rcases hcb : (NewFraudDetectionService m profileStore blacklistStore).checkBlacklist clk
      transaction with ⟨b, err⟩
  cases err with
  | some e =>
    rw [AnalyzeTransaction_of_error _ _ _ _ _ hcb] at h
    simp at h
  | none =>
    cases b with
    | true =>
      rw [AnalyzeTransaction_of_hit _ _ _ hcb] at h
      simp only [Option.some.injEq] at h
      rw [← h]
      simp [FraudDetectionService.createBlockedResult]
    | false =>
      rw [AnalyzeTransaction_of_miss _ _ _ hcb] at h
      simp only [Option.some.injEq] at h
      rw [← h]
      exact CalculateTotalScore_NewRuleEngine_bounds m (NewRuleEngine m) clk.since
        (stampTimestamp clk transaction) _

/-- C2: for every transaction, every profile store and every blacklist store (any
implementation of the two interfaces, in any state), whenever `AnalyzeTransaction` returns
a result its `RiskScore` satisfies `0 ≤ RiskScore ≤ 100`; and with the in-memory stores,
in every state, it does return a result (and no error). -/
theorem AnalyzeTransaction_riskScore_bounds (m : MathFuncs Float64) (clk : Clock)
    (transaction : Transaction) :
    (∀ (profileStore : ProfileStore) (blacklistStore : BlacklistStore)
        (r : FraudAnalysisResult),
      ((NewFraudDetectionService m profileStore blacklistStore).AnalyzeTransaction clk
        transaction).1 = some r → 0 ≤ r.RiskScore ∧ r.RiskScore ≤ 100) ∧
    (∀ (ps : InMemoryProfileStore) (bs : InMemoryBlacklistStore),
      ∃ r, (NewFraudDetectionService m ps.toProfileStore bs.toBlacklistStore).AnalyzeTransaction
        clk transaction = (some r, none) ∧ 0 ≤ r.RiskScore ∧ r.RiskScore ≤ 100) := by
  refine ⟨fun profileStore blacklistStore r h =>
    AnalyzeTransaction_score_of_result m profileStore blacklistStore clk transaction r h, ?_⟩
  intro ps bs
  have hsnd := checkBlacklist_inMemory_snd (NewRuleEngine m) ps.toProfileStore bs clk transaction
  have hret : ∃ r, (NewFraudDetectionService m ps.toProfileStore
      bs.toBlacklistStore).AnalyzeTransaction clk transaction = (some r, none) := by
    rcases hcb : (NewFraudDetectionService m ps.toProfileStore
        bs.toBlacklistStore).checkBlacklist clk transaction with ⟨b, err⟩
    have herr : err = none := by
      have h2 := hsnd
      unfold NewFraudDetectionService at hcb
      rw [hcb] at h2
      exact h2
    subst herr
    cases b with
    | true => exact ⟨_, AnalyzeTransaction_of_hit _ _ _ hcb⟩
    | false => exact ⟨_, AnalyzeTransaction_of_miss _ _ _ hcb⟩
  obtain ⟨r, hr⟩ := hret
  refine ⟨r, hr, ?_⟩
  apply AnalyzeTransaction_score_of_result m ps.toProfileStore bs.toBlacklistStore clk
    transaction r
  rw [hr]

/-- Witness for C2: the run of `exampleTransaction` against empty in-memory stores returns
a result, whose score lies in `[0, 100]`. -/
theorem AnalyzeTransaction_riskScore_bounds_witness :
    ∃ r, ((NewFraudDetectionService exampleMath NewInMemoryProfileStore.toProfileStore
        NewInMemoryBlacklistStore.toBlacklistStore).AnalyzeTransaction (clockAt noon)
        exampleTransaction).1 = some r ∧ 0 ≤ r.RiskScore ∧ r.RiskScore ≤ 100 :=
  match h : ((NewFraudDetectionService exampleMath NewInMemoryProfileStore.toProfileStore
        NewInMemoryBlacklistStore.toBlacklistStore).AnalyzeTransaction (clockAt noon)
        exampleTransaction).1 with
  | some r =>
    ⟨r, rfl, (AnalyzeTransaction_riskScore_bounds exampleMath (clockAt noon)
      exampleTransaction).1 _ _ r h⟩
  | none => absurd h (by decide!)

theorem stampTimestamp_UserID (clk : Clock) (transaction : Transaction) :
    (stampTimestamp clk transaction).UserID = transaction.UserID := by
  unfold stampTimestamp
  split <;> rfl

theorem stampTimestamp_of_not_IsZero (clk : Clock) (transaction : Transaction)
    (h : transaction.Timestamp.IsZero = false) : stampTimestamp clk transaction = transaction := by
  simp [stampTimestamp, h]

theorem extractReasons_foldl (results : List RuleResult) (acc : List String × List String) :
    results.foldl
      (fun acc result =>
        if result.Triggered then (acc.1 ++ [result.Description], acc.2 ++ [result.RuleName])
        else acc)
      acc
      = (acc.1 ++ (results.filter (fun r => r.Triggered)).map (fun r => r.Description),
         acc.2 ++ (results.filter (fun r => r.Triggered)).map (fun r => r.RuleName)) := by
  induction results generalizing acc with
  | nil => simp
  | cons r rs ih =>
    simp only [List.foldl_cons]
    rw [ih]
    cases htr : r.Triggered
    · simp [List.filter_cons, htr]
    · simp [List.filter_cons, htr]

theorem extractReasons_eq (results : List RuleResult) :
    extractReasons results =
      ((results.filter (fun r => r.Triggered)).map (fun r => r.Description),
       (results.filter (fun r => r.Triggered)).map (fun r => r.RuleName)) := by
  unfold extractReasons
  rw [extractReasons_foldl]
  simp

theorem extractReasons_Evaluate (e : RuleEngine) (now : Time) (transaction : Transaction)
    (profile : Option UserProfile) :
    extractReasons (e.Evaluate now transaction profile) =
      ((e.Evaluate now transaction profile).map (fun r => r.Description),
       (e.Evaluate now transaction profile).map (fun r => r.RuleName)) := by
  have hall : (e.Evaluate now transaction profile).filter (fun r => r.Triggered)
      = e.Evaluate now transaction profile := by
    rw [List.filter_eq_self]
    intro r hr
    exact ((Evaluate_mem e now transaction profile r).mp hr).1
  rw [extractReasons_eq, hall]

/-- C7, the code at the failing input: for every state of the in-memory profile store and
every user id without a stored profile, `GetUserProfile` reports the absence as an error,
and `GetTransactionAnalytics` returns that error and no analytics. -/
theorem GetTransactionAnalytics_missing_profile_is_error (m : MathFuncs Float64)
    (ps : InMemoryProfileStore) (blacklistStore : BlacklistStore) (userID : String)
    (h : ps.profiles userID = none) :
    (NewFraudDetectionService m ps.toProfileStore blacklistStore).GetTransactionAnalytics userID
      = (none, some ("profile not found for user " ++ userID)) := by
  simp [FraudDetectionService.GetTransactionAnalytics, NewFraudDetectionService,
    InMemoryProfileStore.toProfileStore, InMemoryProfileStore.GetUserProfile, h]

/-- Witness for C7: user `USER999` on a freshly created profile store. -/
theorem GetTransactionAnalytics_missing_profile_is_error_witness :
    NewInMemoryProfileStore.profiles "USER999" = none ∧
    (NewFraudDetectionService exampleMath NewInMemoryProfileStore.toProfileStore
        NewInMemoryBlacklistStore.toBlacklistStore).GetTransactionAnalytics "USER999"
      = (none, some "profile not found for user USER999") :=
  ⟨rfl, GetTransactionAnalytics_missing_profile_is_error exampleMath NewInMemoryProfileStore
    NewInMemoryBlacklistStore.toBlacklistStore "USER999" rfl⟩

/-- C8, the code at the failing input: whenever no blacklist lookup hits or fails and
`GetUserProfile` fails with any error, `AnalyzeTransaction` drops the error, evaluates the
rules with the profile absent and returns a result with no error. -/
theorem AnalyzeTransaction_drops_profile_error (m : MathFuncs Float64)
    (profileStore : ProfileStore) (blacklistStore : BlacklistStore) (clk : Clock)
    (transaction : Transaction) (p : Option UserProfile) (err : Error)
    (hmiss : (NewFraudDetectionService m profileStore blacklistStore).checkBlacklist clk
      transaction = (false, none))
    (hfail : profileStore.GetUserProfile transaction.UserID = (p, some err)) :
    ∃ r, (NewFraudDetectionService m profileStore blacklistStore).AnalyzeTransaction clk
        transaction = (some r, none) ∧
      r.RiskScore = (NewRuleEngine m).CalculateTotalScore
        ((NewRuleEngine m).Evaluate clk.since (stampTimestamp clk transaction) none) ∧
      r.RulesTriggered = ((NewRuleEngine m).Evaluate clk.since
        (stampTimestamp clk transaction) none).map (fun x => x.RuleName) := by
  refine ⟨_, AnalyzeTransaction_of_miss _ _ _ hmiss, ?_, ?_⟩
  · simp only [NewFraudDetectionService, stampTimestamp_UserID, hfail]
  · simp only [NewFraudDetectionService, stampTimestamp_UserID, hfail, extractReasons_Evaluate]

/-- Witness for C8: with a profile store that is unavailable, the example transaction is
scored as a new user (score 15) and no error is returned. -/
theorem AnalyzeTransaction_drops_profile_error_witness :
    unavailableProfileStore.GetUserProfile exampleTransaction.UserID
      = (none, some "profile store unavailable: connection refused") ∧
    (NewFraudDetectionService exampleMath unavailableProfileStore
        NewInMemoryBlacklistStore.toBlacklistStore).AnalyzeTransaction (clockAt noon)
        exampleTransaction
      = (some
          { TransactionID := "TXN-1"
            RiskScore := 15
            RiskLevel := "LOW"
            Decision := "APPROVED"
            Reasons := ["Novo usuário com transação de valor elevado"]
            RulesTriggered := ["New User High Transaction"]
            Details := [("user_id", DetailValue.str "USER999"),
                        ("amount", DetailValue.float 3500),
                        ("merchant", DetailValue.str "Amazon")]
            AnalyzedAt := noon
            ProcessingTime := 0 }, none) ∧
    ∃ r, (NewFraudDetectionService exampleMath unavailableProfileStore
        NewInMemoryBlacklistStore.toBlacklistStore).AnalyzeTransaction (clockAt noon)
        exampleTransaction = (some r, none) ∧
      r.RiskScore = (NewRuleEngine exampleMath).CalculateTotalScore
        ((NewRuleEngine exampleMath).Evaluate (clockAt noon).since
          (stampTimestamp (clockAt noon) exampleTransaction) none) ∧
      r.RulesTriggered = ((NewRuleEngine exampleMath).Evaluate (clockAt noon).since
        (stampTimestamp (clockAt noon) exampleTransaction) none).map (fun x => x.RuleName) :=
  ⟨rfl, by decide!,
    AnalyzeTransaction_drops_profile_error exampleMath unavailableProfileStore
      NewInMemoryBlacklistStore.toBlacklistStore (clockAt noon) exampleTransaction none
      "profile store unavailable: connection refused" (by decide!) rfl⟩

/-- C9: for every transaction for which no blacklist check hits (or fails) and the
in-memory profile store has no profile for the transaction's user id, `AnalyzeTransaction`
returns no error, and its score, risk level, decision, reasons and triggered rule names
are exactly those of the rule engine evaluated on the transaction (its timestamp set to the
current time when it was unset) with the profile absent. -/
theorem AnalyzeTransaction_without_profile (m : MathFuncs Float64) (ps : InMemoryProfileStore)
    (blacklistStore : BlacklistStore) (clk : Clock) (transaction : Transaction)
    (hmiss : (NewFraudDetectionService m ps.toProfileStore blacklistStore).checkBlacklist clk
      transaction = (false, none))
    (hnone : ps.profiles transaction.UserID = none) :
    ∃ r, (NewFraudDetectionService m ps.toProfileStore blacklistStore).AnalyzeTransaction clk
        transaction = (some r, none) ∧
      r.RiskScore = (NewRuleEngine m).CalculateTotalScore
        ((NewRuleEngine m).Evaluate clk.since (stampTimestamp clk transaction) none) ∧
      r.RiskLevel = GetRiskLevel r.RiskScore ∧
      r.Decision = GetDecision r.RiskLevel ∧
      r.Reasons = ((NewRuleEngine m).Evaluate clk.since
        (stampTimestamp clk transaction) none).map (fun x => x.Description) ∧
      r.RulesTriggered = ((NewRuleEngine m).Evaluate clk.since
        (stampTimestamp clk transaction) none).map (fun x => x.RuleName) ∧
      (transaction.Timestamp.IsZero = false → stampTimestamp clk transaction = transaction) := by
  have hget : ps.toProfileStore.GetUserProfile transaction.UserID
      = (none, some ("profile not found for user " ++ transaction.UserID)) := by
    simp [InMemoryProfileStore.toProfileStore, InMemoryProfileStore.GetUserProfile, hnone]
  refine ⟨_, AnalyzeTransaction_of_miss _ _ _ hmiss, ?_, ?_, ?_, ?_, ?_,
    stampTimestamp_of_not_IsZero clk transaction⟩
  · simp only [NewFraudDetectionService, stampTimestamp_UserID, hget]
  · rfl
  · rfl
  · simp only [NewFraudDetectionService, stampTimestamp_UserID, hget, extractReasons_Evaluate]
  · simp only [NewFraudDetectionService, stampTimestamp_UserID, hget, extractReasons_Evaluate]

/-- Witness for C9: the example transaction of the unknown user `USER999` against empty
in-memory stores. -/
theorem AnalyzeTransaction_without_profile_witness :
    (NewFraudDetectionService exampleMath NewInMemoryProfileStore.toProfileStore
        NewInMemoryBlacklistStore.toBlacklistStore).checkBlacklist (clockAt noon)
        exampleTransaction = (false, none) ∧
    NewInMemoryProfileStore.profiles exampleTransaction.UserID = none ∧
    ∃ r, (NewFraudDetectionService exampleMath NewInMemoryProfileStore.toProfileStore
        NewInMemoryBlacklistStore.toBlacklistStore).AnalyzeTransaction (clockAt noon)
        exampleTransaction = (some r, none) ∧
      r.RiskScore = (NewRuleEngine exampleMath).CalculateTotalScore
        ((NewRuleEngine exampleMath).Evaluate (clockAt noon).since
          (stampTimestamp (clockAt noon) exampleTransaction) none) ∧
      r.RiskLevel = GetRiskLevel r.RiskScore ∧
      r.Decision = GetDecision r.RiskLevel ∧
      r.Reasons = ((NewRuleEngine exampleMath).Evaluate (clockAt noon).since
        (stampTimestamp (clockAt noon) exampleTransaction) none).map (fun x => x.Description) ∧
      r.RulesTriggered = ((NewRuleEngine exampleMath).Evaluate (clockAt noon).since
        (stampTimestamp (clockAt noon) exampleTransaction) none).map (fun x => x.RuleName) ∧
      (exampleTransaction.Timestamp.IsZero = false →
        stampTimestamp (clockAt noon) exampleTransaction = exampleTransaction) :=
  ⟨by decide, rfl,
    AnalyzeTransaction_without_profile exampleMath NewInMemoryProfileStore
      NewInMemoryBlacklistStore.toBlacklistStore (clockAt noon) exampleTransaction
      (by decide) rfl⟩

theorem HighAmountRule_default_triggered (transaction : Transaction)
    (profile : Option UserProfile) :
    (HighAmountRule.zeroValue.Evaluate transaction profile).Triggered = true ↔
      transaction.Amount > 10000 := by
  simp [HighAmountRule.Evaluate, HighAmountRule.zeroValue]

/-- C10: for the default-configured High Amount rule and every transaction and profile,
the rule is triggered if and only if `amount > 10000` (amount 10000 does not trigger,
10000.01 does); when triggered, with `factor = amount / 10000`, the score is 25 if
`factor > 5`, 20 (`0.8 × 25` truncated) if `3 < factor ≤ 5`, and 15 (`0.6 × 25`
truncated) otherwise; when not triggered the score is 0. -/
theorem HighAmountRule_default_semantics (transaction : Transaction)
    (profile : Option UserProfile) :
    ((HighAmountRule.zeroValue.Evaluate transaction profile).Triggered = true ↔
      transaction.Amount > 10000) ∧
    (transaction.Amount > 10000 → transaction.Amount / 10000 > 5 →
      (HighAmountRule.zeroValue.Evaluate transaction profile).Score = 25) ∧
    (transaction.Amount > 10000 → 3 < transaction.Amount / 10000 →
      transaction.Amount / 10000 ≤ 5 →
      (HighAmountRule.zeroValue.Evaluate transaction profile).Score = 20) ∧
    (transaction.Amount > 10000 → transaction.Amount / 10000 ≤ 3 →
      (HighAmountRule.zeroValue.Evaluate transaction profile).Score = 15) ∧
    (¬ transaction.Amount > 10000 →
      (HighAmountRule.zeroValue.Evaluate transaction profile).Triggered = false ∧
      (HighAmountRule.zeroValue.Evaluate transaction profile).Score = 0) ∧
    truncToInt ((HighAmountRule.zeroValue.GetWeight : ℚ) * 0.8) = 20 ∧
    truncToInt ((HighAmountRule.zeroValue.GetWeight : ℚ) * 0.6) = 15 ∧
    (HighAmountRule.zeroValue.Evaluate { transaction with Amount := 10000 } profile).Triggered
      = false ∧
    (HighAmountRule.zeroValue.Evaluate { transaction with Amount := 10000.01 } profile).Triggered
      = true := by
  have htrig := HighAmountRule_default_triggered transaction profile
  have hscore := HighAmountRule_default_score transaction profile
  refine ⟨htrig, ?_, ?_, ?_, ?_, ?_, ?_, ?_, ?_⟩
  · intro h1 h2
    rw [hscore, if_pos h1, if_pos h2]
  · intro h1 h2 h3
    rw [hscore, if_pos h1, if_neg (not_lt.mpr h3), if_pos h2]
  · intro h1 h2
    have h3 : ¬ transaction.Amount / 10000 > 5 := by
      intro h
      linarith
    have h4 : ¬ transaction.Amount / 10000 > 3 := not_lt.mpr h2
    rw [hscore, if_pos h1, if_neg h3, if_neg h4]
  · intro h1
    constructor
    · cases hb : (HighAmountRule.zeroValue.Evaluate transaction profile).Triggered
      · rfl
      · exact absurd (htrig.mp hb) h1
    · rw [hscore, if_neg h1]
  · rw [HighAmountRule_zeroValue_GetWeight]
    exact truncToInt_weight_high
  · rw [HighAmountRule_zeroValue_GetWeight]
    exact truncToInt_weight_low
  · cases hb : (HighAmountRule.zeroValue.Evaluate
        { transaction with Amount := 10000 } profile).Triggered
    · rfl
    · have h := (HighAmountRule_default_triggered { transaction with Amount := 10000 }
        profile).mp hb
      simp at h
  · rw [HighAmountRule_default_triggered]
    norm_num

/-- Witness for C10: amount 40000 gives factor 4, hence the triggered score 20. -/
theorem HighAmountRule_default_semantics_witness :
    (HighAmountRule.zeroValue.Evaluate { exampleTransaction with Amount := 40000 } none).Score
      = 20 :=
  (HighAmountRule_default_semantics { exampleTransaction with Amount := 40000 } none).2.2.1
    (by decide!) (by decide!) (by decide!)

theorem Time_Hour_range (t : Time) : 0 ≤ t.Hour ∧ t.Hour ≤ 23 := by
  unfold Time.Hour
  omega

/-- C15: for every transaction and profile, the Unusual Hour rule is triggered, with score
10, if and only if the hour of day `h` of the transaction timestamp (always in `0..23`)
satisfies `h ≥ 23` or `h ≤ 5`; for every `h` in `6..22` it is not triggered and scores
0. -/
theorem UnusualHourRule_semantics (transaction : Transaction) (profile : Option UserProfile) :
    (0 ≤ transaction.Timestamp.Hour ∧ transaction.Timestamp.Hour ≤ 23) ∧
    ((UnusualHourRule.Evaluate transaction profile).Triggered = true ↔
      (transaction.Timestamp.Hour ≥ 23 ∨ transaction.Timestamp.Hour ≤ 5)) ∧
    ((UnusualHourRule.Evaluate transaction profile).Triggered = true →
      (UnusualHourRule.Evaluate transaction profile).Score = 10) ∧
    (6 ≤ transaction.Timestamp.Hour ∧ transaction.Timestamp.Hour ≤ 22 →
      (UnusualHourRule.Evaluate transaction profile).Triggered = false ∧
      (UnusualHourRule.Evaluate transaction profile).Score = 0) := by
  refine ⟨Time_Hour_range _, ?_, ?_, ?_⟩
  · simp [UnusualHourRule.Evaluate]
  · intro h
    simp only [UnusualHourRule.Evaluate] at h ⊢
    rw [if_pos h]
    rfl
  · rintro ⟨h6, h22⟩
    have hno : ¬ (transaction.Timestamp.Hour ≥ 23 ∨ transaction.Timestamp.Hour ≤ 5) := by omega
    simp [UnusualHourRule.Evaluate, hno]

/-- Witness for C15: at 12:00 the hour lies in `6..22`, so the rule is silent. -/
theorem UnusualHourRule_semantics_witness :
    (UnusualHourRule.Evaluate exampleTransaction none).Triggered = false ∧
    (UnusualHourRule.Evaluate exampleTransaction none).Score = 0 :=
  (UnusualHourRule_semantics exampleTransaction none).2.2.2 (by decide)

theorem truncToInt_intCast (k : Int) : truncToInt (k : ℚ) = k := by
  simp [truncToInt]

theorem mathMod_thousand_eq_zero_iff (x : Float64) :
    mathMod x 1000 = 0 ↔ ∃ k : Int, x = 1000 * (k : ℚ) := by
  unfold mathMod
  constructor
  · intro h
    exact ⟨truncToInt (x / 1000), by linarith⟩
  · rintro ⟨k, rfl⟩
    have hq : (1000 * (k : ℚ)) / 1000 = (k : ℚ) := by
      field_simp
    rw [hq, truncToInt_intCast]
    ring

/-- C14: for every transaction and profile, the Round Amount rule is triggered, with score
5, if and only if `amount ≥ 5000` and the amount is an exact multiple of 1000; otherwise
its score is 0.  Amount 5000 triggers, 4000 and 5500 do not. -/
theorem RoundAmountRule_semantics (transaction : Transaction) (profile : Option UserProfile) :
    ((RoundAmountRule.Evaluate transaction profile).Triggered = true ↔
      (transaction.Amount ≥ 5000 ∧ ∃ k : Int, transaction.Amount = 1000 * (k : ℚ))) ∧
    (RoundAmountRule.Evaluate transaction profile).Score =
      (if (RoundAmountRule.Evaluate transaction profile).Triggered then 5 else 0) ∧
    (RoundAmountRule.Evaluate { transaction with Amount := 5000 } profile).Triggered = true ∧
    (RoundAmountRule.Evaluate { transaction with Amount := 4000 } profile).Triggered = false ∧
    (RoundAmountRule.Evaluate { transaction with Amount := 5500 } profile).Triggered = false := by
  have key : ∀ t : Transaction, (RoundAmountRule.Evaluate t profile).Triggered = true ↔
      (t.Amount ≥ 5000 ∧ ∃ k : Int, t.Amount = 1000 * (k : ℚ)) := by
    intro t
    simp only [RoundAmountRule.Evaluate, decide_eq_true_eq, mathMod_thousand_eq_zero_iff]
  refine ⟨key transaction, rfl, ?_, ?_, ?_⟩
  · rw [key]
    exact ⟨by norm_num, 5, by norm_num⟩
  · cases hb : (RoundAmountRule.Evaluate { transaction with Amount := 4000 } profile).Triggered
    · rfl
    · have h := ((key _).mp hb).1
      norm_num at h
  · cases hb : (RoundAmountRule.Evaluate { transaction with Amount := 5500 } profile).Triggered
    · rfl
    · obtain ⟨-, k, hk⟩ := (key _).mp hb
      have hk2 : (11 : ℚ) = ((2 * k : Int) : ℚ) := by
        push_cast
        simp only at hk
        linarith
      have hk3 : (11 : Int) = 2 * k := by exact_mod_cast hk2
      omega

theorem minDuration_eq : minDuration = -9223372036854775808 := by decide

theorem maxDuration_eq : maxDuration = 9223372036854775807 := by decide

theorem Time_Sub_cases (t u : Time) :
    (t.nanos - u.nanos < -9223372036854775808 ∧ @Eq Int (t.Sub u) (-9223372036854775808)) ∨
    (9223372036854775807 < t.nanos - u.nanos ∧ @Eq Int (t.Sub u) 9223372036854775807) ∨
    (-9223372036854775808 ≤ t.nanos - u.nanos ∧ t.nanos - u.nanos ≤ 9223372036854775807 ∧
      @Eq Int (t.Sub u) (t.nanos - u.nanos)) := by
  unfold Time.Sub
  rw [minDuration_eq, maxDuration_eq]
  by_cases h1 : t.nanos - u.nanos < -9223372036854775808
  · left
    exact ⟨h1, if_pos h1⟩
  · by_cases h2 : t.nanos - u.nanos > 9223372036854775807
    · right
      left
      refine ⟨h2, ?_⟩
      rw [if_neg h1, if_pos h2]
    · right
      right
      refine ⟨by omega, by omega, ?_⟩
      rw [if_neg h1, if_neg h2]

theorem Time_Sub_lt_iff (t u : Time) (k : Int) (hlo : -9223372036854775808 < k)
    (hhi : k ≤ 9223372036854775807) :
    t.Sub u < k ↔ t.nanos - u.nanos < k := by
  show @LT.lt Int _ (t.Sub u) k ↔ t.nanos - u.nanos < k
  rcases Time_Sub_cases t u with ⟨h, e⟩ | ⟨h, e⟩ | ⟨h1, h2, e⟩ <;> rw [e] <;> omega

theorem Time_Sub_pos_iff (t u : Time) : 0 < t.Sub u ↔ u.nanos < t.nanos := by
  show @LT.lt Int _ 0 (t.Sub u) ↔ u.nanos < t.nanos
  rcases Time_Sub_cases t u with ⟨h, e⟩ | ⟨h, e⟩ | ⟨h1, h2, e⟩ <;> rw [e] <;> omega

theorem VelocityRule_triggered_iff (transaction : Transaction) (profile : Option UserProfile) :
    (VelocityRule.Evaluate transaction profile).Triggered = true ↔
      ∃ p, profile = some p ∧ 0 < p.LastTransactionAt.nanos ∧
        transaction.Timestamp.nanos - p.LastTransactionAt.nanos < 300000000000 := by
  have hk := fun (p : UserProfile) =>
    Time_Sub_lt_iff transaction.Timestamp p.LastTransactionAt 300000000000 (by decide) (by decide)
  cases profile with
  | none => simp [VelocityRule.Evaluate]
  | some p =>
    have h5 : (5 : Int) * Minute = 300000000000 := by decide
    simp only [VelocityRule.Evaluate, Time.After, Time.zero, h5, Option.some.injEq,
      exists_eq_left']
    by_cases hpos : 0 < p.LastTransactionAt.nanos
    · simp [hpos, hk p]
    · simp [hpos]

/-- C12, counterexample: `unsetProfile` is present and its last-transaction timestamp is
the zero time; the timestamp of `earlyTransaction` is one minute later, so the difference
is less than 5 minutes, yet the Transaction Velocity rule is not triggered. -/
theorem VelocityRule_unset_last_transaction_counterexample :
    earlyTransaction.Timestamp.Sub unsetProfile.LastTransactionAt = 1 * Minute ∧
    earlyTransaction.Timestamp.Sub unsetProfile.LastTransactionAt < 5 * Minute ∧
    (VelocityRule.Evaluate earlyTransaction (some unsetProfile)).Triggered = false ∧
    (VelocityRule.Evaluate earlyTransaction (some unsetProfile)).Score = 0 := by
  decide

/-- C12, amended: for every transaction and profile, the Transaction Velocity rule is
triggered, with score 20, if and only if the profile is present, its last-transaction
timestamp is set (strictly after the zero time) and (transaction timestamp − profile
last-transaction timestamp) is less than 5 minutes; otherwise it is not triggered and its
score is 0. -/
theorem VelocityRule_semantics (transaction : Transaction) (profile : Option UserProfile) :
    ((VelocityRule.Evaluate transaction profile).Triggered = true ↔
      ∃ p, profile = some p ∧ p.LastTransactionAt.After Time.zero = true ∧
        transaction.Timestamp.nanos - p.LastTransactionAt.nanos < 5 * Minute) ∧
    (VelocityRule.Evaluate transaction profile).Score =
      (if (VelocityRule.Evaluate transaction profile).Triggered then 20 else 0) ∧
    (∀ p, profile = some p → p.LastTransactionAt.After Time.zero = true →
      (transaction.Timestamp.Sub p.LastTransactionAt < 5 * Minute ↔
        transaction.Timestamp.nanos - p.LastTransactionAt.nanos < 5 * Minute)) := by
  have h5 : (5 : Int) * Minute = 300000000000 := by decide
  refine ⟨?_, rfl, ?_⟩
  · rw [VelocityRule_triggered_iff, h5]
    simp [Time.After, Time.zero]
  · intro p _ _
    rw [h5]
    exact Time_Sub_lt_iff _ _ _ (by decide) (by decide)

theorem accountAge_lt_seven_iff (now first : Time) :
    (timeSince now first).Hours / 24 < 7 ↔ now.nanos - first.nanos < 604800000000000 := by
  have h1 := Time_Sub_lt_iff now first 604800000000000 (by decide) (by decide)
  rw [← h1]
  unfold timeSince Duration.Hours
  constructor
  · intro h
    have h2 : ((now.Sub first : Int) : ℚ) < ((604800000000000 : Int) : ℚ) := by
      push_cast
      linarith
    exact_mod_cast h2
  · intro h
    have h2 : ((now.Sub first : Int) : ℚ) < ((604800000000000 : Int) : ℚ) := by
      exact_mod_cast h
    push_cast at h2
    linarith

/-- C13: for every transaction, profile and reading of the clock, the New User High Value
rule is triggered, with score 15, if and only if either the profile is absent and
`amount > 3000`, or the profile is present, the account age (time elapsed from the
profile's first transaction to the current time) is less than 7 days and `amount > 5000`;
an absent profile with amount exactly 3000, or a young account with amount exactly 5000,
does not trigger. -/
theorem NewUserRule_semantics (now : Time) (transaction : Transaction)
    (profile : Option UserProfile) :
    ((NewUserRule.Evaluate now transaction profile).Triggered = true ↔
      ((profile = none ∧ transaction.Amount > 3000) ∨
       (∃ p, profile = some p ∧ now.nanos - p.FirstTransactionAt.nanos < 7 * 24 * Hour ∧
         transaction.Amount > 5000))) ∧
    (NewUserRule.Evaluate now transaction profile).Score =
      (if (NewUserRule.Evaluate now transaction profile).Triggered then 15 else 0) ∧
    (NewUserRule.Evaluate now { transaction with Amount := 3000 } none).Triggered = false ∧
    (∀ p, (NewUserRule.Evaluate now { transaction with Amount := 5000 } (some p)).Triggered
      = false) := by
  have h7 : (7 : Int) * 24 * Hour = 604800000000000 := by decide
  refine ⟨?_, rfl, ?_, ?_⟩
  · cases profile with
    | none => simp [NewUserRule.Evaluate]
    | some p =>
      simp only [NewUserRule.Evaluate, decide_eq_true_eq, accountAge_lt_seven_iff, h7]
      simp
  · simp [NewUserRule.Evaluate]
  · intro p
    simp [NewUserRule.Evaluate]

/-- Witness for C12: a profile whose last transaction lies one minute before the
transaction timestamp triggers the rule with score 20. -/
theorem VelocityRule_semantics_witness :
    (VelocityRule.Evaluate exampleTransaction
      (some { unsetProfile with LastTransactionAt := ⟨noon.nanos - 60000000000, 0⟩ })).Triggered
      = true ∧
    (VelocityRule.Evaluate exampleTransaction
      (some { unsetProfile with LastTransactionAt := ⟨noon.nanos - 60000000000, 0⟩ })).Score
      = 20 :=
  have htrig := (VelocityRule_semantics exampleTransaction
    (some { unsetProfile with LastTransactionAt := ⟨noon.nanos - 60000000000, 0⟩ })).1.mpr
    ⟨_, rfl, by decide, by decide⟩
  ⟨htrig, by
    rw [(VelocityRule_semantics exampleTransaction
      (some { unsetProfile with LastTransactionAt := ⟨noon.nanos - 60000000000, 0⟩ })).2.1,
      if_pos htrig]⟩

theorem Duration_Hours_pos_iff (d : Duration) : 0 < d.Hours ↔ 0 < d := by
  unfold Duration.Hours
  constructor
  · intro h
    have h2 : (0 : ℚ) < (d : ℚ) := by
      by_contra hneg
      have h3 : (d : ℚ) ≤ 0 := not_lt.mp hneg
      have h4 : (d : ℚ) / 3600000000000 ≤ 0 := div_nonpos_of_nonpos_of_nonneg h3 (by norm_num)
      linarith
    exact_mod_cast h2
  · intro h
    have h2 : (0 : ℚ) < (d : ℚ) := by exact_mod_cast h
    positivity

theorem getLast?_eq_get (l : List Location) (h : l.length > 0) :
    l.getLast? = some (l.get ⟨l.length - 1, by omega⟩) := by
  have hne : l ≠ [] := by
    intro hnil
    rw [hnil] at h
    simp at h
  rw [List.getLast?_eq_getLast l hne, List.getLast_eq_getElem]
  rfl

theorem GeoVelocityRule_triggered_iff (m : MathFuncs Float64) (transaction : Transaction)
    (profile : Option UserProfile) :
    (GeoVelocityRule.Evaluate m transaction profile).Triggered = true ↔
      ∃ p last, profile = some p ∧ p.CommonLocations.getLast? = some last ∧
        p.LastTransactionAt.nanos < transaction.Timestamp.nanos ∧
        calculateDistance m last.Latitude last.Longitude transaction.Location.Latitude
          transaction.Location.Longitude > 100 ∧
        calculateDistance m last.Latitude last.Longitude transaction.Location.Latitude
          transaction.Location.Longitude /
            (transaction.Timestamp.Sub p.LastTransactionAt).Hours > 900 := by
  cases profile with
  | none => simp [GeoVelocityRule.Evaluate]
  | some p =>
    by_cases hlen : p.CommonLocations.length > 0
    · have hlast := getLast?_eq_get p.CommonLocations hlen
      have hpos := Duration_Hours_pos_iff (transaction.Timestamp.Sub p.LastTransactionAt)
      rw [Time_Sub_pos_iff] at hpos
      simp only [GeoVelocityRule.Evaluate, dif_pos hlen]
      constructor
      · intro h
        by_cases ht : (transaction.Timestamp.Sub p.LastTransactionAt).Hours > 0
        · rw [if_pos ht] at h
          have h2 := of_decide_eq_true h
          exact ⟨p, _, rfl, hlast, hpos.mp ht, h2.2, h2.1⟩
        · rw [if_neg ht] at h
          exact absurd h (by decide)
      · rintro ⟨p', last, hp, hl, hnanos, hd, hs⟩
        simp only [Option.some.injEq] at hp
        subst hp
        rw [hlast] at hl
        simp only [Option.some.injEq] at hl
        subst hl
        rw [if_pos (hpos.mpr hnanos)]
        exact decide_eq_true ⟨hs, hd⟩
    · have hnil : p.CommonLocations = [] := by
        cases hc : p.CommonLocations with
        | nil => rfl
        | cons a l =>
          rw [hc] at hlen
          simp at hlen
      simp only [GeoVelocityRule.Evaluate, dif_neg hlen]
      constructor
      · intro h
        exact absurd h (by decide)
      · rintro ⟨p', last, hp, hl, -⟩
        simp only [Option.some.injEq] at hp
        subst hp
        rw [hnil] at hl
        simp at hl

theorem scoreSum_insert (l₁ l₂ : List RuleResult) (r : RuleResult) :
    scoreSum (l₁ ++ r :: l₂) = scoreSum (l₁ ++ l₂) + r.Score := by
  simp only [scoreSum, List.map_append, List.map_cons, List.sum_append, List.sum_cons]
  ring

/-- C17, counterexample: the single result with score `2 ^ 63 - 1` totals 100 (clamped);
after appending a result with the non-negative score 1 the 64-bit total wraps and the
function returns `-2 ^ 63`, which is smaller. -/
theorem CalculateTotalScore_monotonicity_overflow_counterexample :
    0 ≤ (resultWithScore 1).Score ∧
    emptyEngine.CalculateTotalScore [resultWithScore 9223372036854775807] = 100 ∧
    emptyEngine.CalculateTotalScore ([resultWithScore 9223372036854775807] ++
      resultWithScore 1 :: []) = -9223372036854775808 ∧
    ¬ (emptyEngine.CalculateTotalScore ([resultWithScore 9223372036854775807] ++
        resultWithScore 1 :: [])
      ≥ emptyEngine.CalculateTotalScore ([resultWithScore 9223372036854775807] ++ [])) := by
  decide

/-- C17, amended: for every list of rule results and every additional rule result with a
non-negative score, inserted at any position, if the sum of the scores stays inside the
range of the 64-bit `int` both without and with the additional result, then
`CalculateTotalScore` of the extended list is greater than or equal to
`CalculateTotalScore` of the original list. -/
theorem CalculateTotalScore_monotone (e : RuleEngine) (l₁ l₂ : List RuleResult) (r : RuleResult)
    (hr : 0 ≤ r.Score) (hlo : -(2 ^ 63) ≤ scoreSum (l₁ ++ l₂))
    (hhi : scoreSum (l₁ ++ l₂) + r.Score < 2 ^ 63) :
    e.CalculateTotalScore (l₁ ++ r :: l₂) ≥ e.CalculateTotalScore (l₁ ++ l₂) := by
  rw [CalculateTotalScore_eq_min_wrap, CalculateTotalScore_eq_min_wrap, scoreSum_insert,
    wrapInt64_of_inRange _ (by omega) (by omega), wrapInt64_of_inRange _ hlo (by omega)]
  omega

/-- Witness for C17: inserting a result of score 20 between results of scores 60 and 30
raises the total from 90 to 100. -/
theorem CalculateTotalScore_monotone_witness :
    emptyEngine.CalculateTotalScore
        ([resultWithScore 60] ++ resultWithScore 20 :: [resultWithScore 30])
      ≥ emptyEngine.CalculateTotalScore ([resultWithScore 60] ++ [resultWithScore 30]) :=
  CalculateTotalScore_monotone emptyEngine [resultWithScore 60] [resultWithScore 30]
    (resultWithScore 20) (by decide) (by decide) (by decide)

theorem Evaluate_all_triggered (e : RuleEngine) (now : Time) (transaction : Transaction)
    (profile : Option UserProfile) :
    ∀ x ∈ e.Evaluate now transaction profile, x.Triggered = true :=
  fun x hx => ((Evaluate_mem e now transaction profile x).mp hx).1

/-- C18: for every result returned by `AnalyzeTransaction`, `Reasons` and `RulesTriggered`
have the same length.  On the blacklist path both have length exactly 1; on the
non-blacklist path both have the length of the list of triggered rule results (the
results of the enabled rules, in registration order, whose `Triggered` flag is true) and
their `i`-th elements are the `Description` and the `RuleName` of the `i`-th triggered
result. -/
theorem AnalyzeTransaction_reasons_parallel (s : FraudDetectionService) (clk : Clock)
    (transaction : Transaction) (r : FraudAnalysisResult)
    (h : (s.AnalyzeTransaction clk transaction).1 = some r) :
    r.Reasons.length = r.RulesTriggered.length ∧
    ((s.checkBlacklist clk transaction = (true, none) ∧
        r.Reasons.length = 1 ∧ r.RulesTriggered.length = 1) ∨
     (s.checkBlacklist clk transaction = (false, none) ∧
        ∃ profile results,
          results = s.ruleEngine.Evaluate clk.since (stampTimestamp clk transaction) profile ∧
          results = EvaluateSpec s.ruleEngine clk.since (stampTimestamp clk transaction)
            profile ∧
          (∀ x ∈ results, x.Triggered = true) ∧
          r.Reasons.length = results.length ∧ r.RulesTriggered.length = results.length ∧
          (∀ i : Nat, r.Reasons[i]? = results[i]?.map (fun x => x.Description)) ∧
          (∀ i : Nat, r.RulesTriggered[i]? = results[i]?.map (fun x => x.RuleName)))) := by
  rcases hcb : s.checkBlacklist clk transaction with ⟨b, err⟩
  cases err with
  | some e =>
    rw [AnalyzeTransaction_of_error _ _ _ _ _ hcb] at h
    simp at h
  | none =>
    cases b with
    | true =>
      rw [AnalyzeTransaction_of_hit _ _ _ hcb] at h
      simp only [Option.some.injEq] at h
      rw [← h]
      exact ⟨rfl, Or.inl ⟨rfl, rfl, rfl⟩⟩
    | false =>
      rw [AnalyzeTransaction_of_miss _ _ _ hcb] at h
      simp only [Option.some.injEq] at h
      rw [← h]
      dsimp only
      rw [extractReasons_Evaluate]
      generalize (match s.profileStore.GetUserProfile (stampTimestamp clk transaction).UserID with
        | (_, some _) => none
        | (profile, none) => profile) = profile
      refine ⟨by simp, Or.inr ⟨rfl, profile,
        s.ruleEngine.Evaluate clk.since (stampTimestamp clk transaction) profile, rfl,
        Evaluate_eq_EvaluateSpec _ _ _ _, Evaluate_all_triggered _ _ _ _, by simp, by simp,
        ?_, ?_⟩⟩
      · intro i
        exact List.getElem?_map _ _ _
      · intro i
        exact List.getElem?_map _ _ _

/-- Witness for C18: the run of `exampleTransaction` against empty in-memory stores returns
a result whose two lists have the same length. -/
theorem AnalyzeTransaction_reasons_parallel_witness :
    ∃ r, ((NewFraudDetectionService exampleMath NewInMemoryProfileStore.toProfileStore
        NewInMemoryBlacklistStore.toBlacklistStore).AnalyzeTransaction (clockAt noon)
        exampleTransaction).1 = some r ∧ r.Reasons.length = r.RulesTriggered.length :=
  match h : ((NewFraudDetectionService exampleMath NewInMemoryProfileStore.toProfileStore
        NewInMemoryBlacklistStore.toBlacklistStore).AnalyzeTransaction (clockAt noon)
        exampleTransaction).1 with
  | some r =>
    ⟨r, rfl, (AnalyzeTransaction_reasons_parallel _ (clockAt noon) exampleTransaction r h).1⟩
  | none => absurd h (by decide!)

theorem stampTimestamp_congr (clk₁ clk₂ : Clock) (transaction : Transaction)
    (h : transaction.Timestamp.IsZero = true → clk₁.stamp = clk₂.stamp) :
    stampTimestamp clk₁ transaction = stampTimestamp clk₂ transaction := by
  unfold stampTimestamp
  cases hz : transaction.Timestamp.IsZero
  · simp
  · simp [h hz]

theorem Evaluate_NewRuleEngine_eq_filter (m : MathFuncs Float64) (now : Time)
    (transaction : Transaction) (profile : Option UserProfile) :
    (NewRuleEngine m).Evaluate now transaction profile =
      List.filter (fun result => result.Triggered)
        [HighAmountRule.zeroValue.Evaluate transaction profile,
         VelocityRule.Evaluate transaction profile,
         GeoVelocityRule.Evaluate m transaction profile,
         UnusualHourRule.Evaluate transaction profile,
         NewUserRule.Evaluate now transaction profile,
         RoundAmountRule.Evaluate transaction profile,
         MultipleFailedAttemptsRule.Evaluate transaction profile] := by
  rw [Evaluate_eq_EvaluateSpec]
  unfold EvaluateSpec
  rw [NewRuleEngine_rules]
  rfl

theorem Evaluate_NewRuleEngine_absent_profile (m : MathFuncs Float64) (now₁ now₂ : Time)
    (transaction : Transaction) :
    (NewRuleEngine m).Evaluate now₁ transaction none =
      (NewRuleEngine m).Evaluate now₂ transaction none := by
  rw [Evaluate_NewRuleEngine_eq_filter, Evaluate_NewRuleEngine_eq_filter]
  rfl

theorem AnalyzeTransaction_profile_eq (profileStore : ProfileStore) (userID : String)
    (h : (profileStore.GetUserProfile userID).2 ≠ none ∨
      (profileStore.GetUserProfile userID).1 = none) :
    (match profileStore.GetUserProfile userID with
      | (_, some _) => none
      | (profile, none) => profile) = none := by
  rcases hg : profileStore.GetUserProfile userID with ⟨p, err⟩
  rw [hg] at h
  cases err with
  | some e => rfl
  | none =>
    rcases h with h | h
    · exact absurd rfl h
    · exact h

/-- C16, counterexample: `expiringStore` blacklists user `USER999` until `noon`.  The same
transaction, against the same stores, is blocked with score 100 when the clock reads 02:00
and approved with score 25 when the clock reads 15:00. -/
theorem AnalyzeTransaction_clock_dependent_counterexample :
    ((NewFraudDetectionService exampleMath NewInMemoryProfileStore.toProfileStore
        expiringStore.toBlacklistStore).AnalyzeTransaction (clockAt twoAM)
        nightTransaction).1.map decisionFields
      = some
          { TransactionID := "TXN-1"
            RiskScore := 100
            RiskLevel := "HIGH"
            Decision := "BLOCKED"
            Reasons := ["Entidade na lista negra"]
            RulesTriggered := ["Blacklist Check"]
            Details := [("blocked_reason", DetailValue.str "Entidade na lista negra")] } ∧
    ((NewFraudDetectionService exampleMath NewInMemoryProfileStore.toProfileStore
        expiringStore.toBlacklistStore).AnalyzeTransaction (clockAt threePM)
        nightTransaction).1.map decisionFields
      = some
          { TransactionID := "TXN-1"
            RiskScore := 25
            RiskLevel := "LOW"
            Decision := "APPROVED"
            Reasons := ["Transação realizada em horário incomum",
                        "Novo usuário com transação de valor elevado"]
            RulesTriggered := ["Unusual Hour Transaction", "New User High Transaction"]
            Details := [("user_id", DetailValue.str "USER999"),
                        ("amount", DetailValue.float 3500),
                        ("merchant", DetailValue.str "Amazon")] } ∧
    ((NewFraudDetectionService exampleMath NewInMemoryProfileStore.toProfileStore
        expiringStore.toBlacklistStore).AnalyzeTransaction (clockAt twoAM)
        nightTransaction).1.map decisionFields
      ≠ ((NewFraudDetectionService exampleMath NewInMemoryProfileStore.toProfileStore
        expiringStore.toBlacklistStore).AnalyzeTransaction (clockAt threePM)
        nightTransaction).1.map decisionFields := by
  have h₁ : ((NewFraudDetectionService exampleMath NewInMemoryProfileStore.toProfileStore
        expiringStore.toBlacklistStore).AnalyzeTransaction (clockAt twoAM)
        nightTransaction).1.map decisionFields
      = some
          { TransactionID := "TXN-1"
            RiskScore := 100
            RiskLevel := "HIGH"
            Decision := "BLOCKED"
            Reasons := ["Entidade na lista negra"]
            RulesTriggered := ["Blacklist Check"]
            Details := [("blocked_reason", DetailValue.str "Entidade na lista negra")] } := by
    decide!
  have h₂ : ((NewFraudDetectionService exampleMath NewInMemoryProfileStore.toProfileStore
        expiringStore.toBlacklistStore).AnalyzeTransaction (clockAt threePM)
        nightTransaction).1.map decisionFields
      = some
          { TransactionID := "TXN-1"
            RiskScore := 25
            RiskLevel := "LOW"
            Decision := "APPROVED"
            Reasons := ["Transação realizada em horário incomum",
                        "Novo usuário com transação de valor elevado"]
            RulesTriggered := ["Unusual Hour Transaction", "New User High Transaction"]
            Details := [("user_id", DetailValue.str "USER999"),
                        ("amount", DetailValue.float 3500),
                        ("merchant", DetailValue.str "Amazon")] } := by
    decide!
  refine ⟨h₁, h₂, ?_⟩
  rw [h₁, h₂]
  decide

/-- C16, amended: for any two runs of `AnalyzeTransaction` on identical transaction,
identical profile store and identical blacklist store, if the clock readings agree where
the decision consults the clock, that is (a) the transaction's timestamp is set or both
runs read the same time for the timestamp default, (b) the blacklist check has the same
outcome in both runs, and (c) the profile lookup yields no profile or both runs read the
same time in the account-age test of the New User rule, then both runs return the same
error and results equal in every field other than `AnalyzedAt` and `ProcessingTime`,
whatever the remaining clock readings. -/
theorem AnalyzeTransaction_deterministic (m : MathFuncs Float64) (profileStore : ProfileStore)
    (blacklistStore : BlacklistStore) (clk₁ clk₂ : Clock) (transaction : Transaction)
    (hstamp : transaction.Timestamp.IsZero = true → clk₁.stamp = clk₂.stamp)
    (hcheck : (NewFraudDetectionService m profileStore blacklistStore).checkBlacklist clk₁
        transaction
      = (NewFraudDetectionService m profileStore blacklistStore).checkBlacklist clk₂ transaction)
    (hsince : (profileStore.GetUserProfile transaction.UserID).2 ≠ none ∨
      (profileStore.GetUserProfile transaction.UserID).1 = none ∨ clk₁.since = clk₂.since) :
    ((NewFraudDetectionService m profileStore blacklistStore).AnalyzeTransaction clk₁
        transaction).2
      = ((NewFraudDetectionService m profileStore blacklistStore).AnalyzeTransaction clk₂
        transaction).2 ∧
    ((NewFraudDetectionService m profileStore blacklistStore).AnalyzeTransaction clk₁
        transaction).1.map decisionFields
      = ((NewFraudDetectionService m profileStore blacklistStore).AnalyzeTransaction clk₂
        transaction).1.map decisionFields := by
  have hst := stampTimestamp_congr clk₁ clk₂ transaction hstamp
  rcases hcb : (NewFraudDetectionService m profileStore blacklistStore).checkBlacklist clk₂
      transaction with ⟨b, err⟩
  rw [hcb] at hcheck
  cases err with
  | some e =>
    rw [AnalyzeTransaction_of_error _ _ _ _ _ hcheck, AnalyzeTransaction_of_error _ _ _ _ _ hcb]
    exact ⟨rfl, rfl⟩
  | none =>
    cases b with
    | true =>
      rw [AnalyzeTransaction_of_hit _ _ _ hcheck, AnalyzeTransaction_of_hit _ _ _ hcb, hst]
      exact ⟨rfl, rfl⟩
    | false =>
      rw [AnalyzeTransaction_of_miss _ _ _ hcheck, AnalyzeTransaction_of_miss _ _ _ hcb, hst]
      refine ⟨rfl, ?_⟩
      have hev : (NewFraudDetectionService m profileStore blacklistStore).ruleEngine.Evaluate
          clk₁.since (stampTimestamp clk₂ transaction)
          (match (NewFraudDetectionService m profileStore blacklistStore).profileStore.GetUserProfile
              (stampTimestamp clk₂ transaction).UserID with
            | (_, some _) => none
            | (profile, none) => profile)
          = (NewFraudDetectionService m profileStore blacklistStore).ruleEngine.Evaluate
          clk₂.since (stampTimestamp clk₂ transaction)
          (match (NewFraudDetectionService m profileStore blacklistStore).profileStore.GetUserProfile
              (stampTimestamp clk₂ transaction).UserID with
            | (_, some _) => none
            | (profile, none) => profile) := by
        rcases hsince with h | h | h
        · simp only [NewFraudDetectionService, stampTimestamp_UserID,
            AnalyzeTransaction_profile_eq profileStore transaction.UserID (Or.inl h)]
          exact Evaluate_NewRuleEngine_absent_profile m _ _ _
        · simp only [NewFraudDetectionService, stampTimestamp_UserID,
            AnalyzeTransaction_profile_eq profileStore transaction.UserID (Or.inr h)]
          exact Evaluate_NewRuleEngine_absent_profile m _ _ _
        · rw [h]
      simp only [Option.map_some', decisionFields, hev]

/-- Witness for C16: with the seeded blacklist (no entry expires), a set timestamp and no
stored profile, the runs at 02:00 and at 15:00 give the same decision fields. -/
theorem AnalyzeTransaction_deterministic_witness :
    ((NewFraudDetectionService exampleMath NewInMemoryProfileStore.toProfileStore
        sampleBlacklist.toBlacklistStore).AnalyzeTransaction (clockAt twoAM)
        exampleTransaction).1.map decisionFields
      = ((NewFraudDetectionService exampleMath NewInMemoryProfileStore.toProfileStore
        sampleBlacklist.toBlacklistStore).AnalyzeTransaction (clockAt threePM)
        exampleTransaction).1.map decisionFields :=
  (AnalyzeTransaction_deterministic exampleMath NewInMemoryProfileStore.toProfileStore
    sampleBlacklist.toBlacklistStore (clockAt twoAM) (clockAt threePM) exampleTransaction
    (fun h => absurd h (by decide)) (by decide) (Or.inl (by decide))).2

theorem calculateDistance_self {F : Type} [Field F] (m : MathFuncs F) (hm : m.exactAtZero)
    (lat lon : F) : calculateDistance m lat lon lat lon = 0 := by
  obtain ⟨hsin, hsqrt0, hsqrt1, hatan⟩ := hm
  simp [calculateDistance, degToRad, hsin, hsqrt0, hsqrt1, hatan]

theorem stampTimestamp_Amount (clk : Clock) (transaction : Transaction) :
    (stampTimestamp clk transaction).Amount = transaction.Amount := by
  unfold stampTimestamp
  split <;> rfl

theorem stampTimestamp_Location (clk : Clock) (transaction : Transaction) :
    (stampTimestamp clk transaction).Location = transaction.Location := by
  unfold stampTimestamp
  split <;> rfl

theorem Bool_eq_false_of_not {b : Bool} (h : ¬ (b = true)) : b = false := by
  cases b
  · rfl
  · exact absurd rfl h

theorem CalculateTotalScore_small (e : RuleEngine) (results : List RuleResult)
    (hlo : 0 ≤ scoreSum results) (hhi : scoreSum results ≤ 100) :
    e.CalculateTotalScore results = scoreSum results := by
  rw [CalculateTotalScore_eq_min_wrap, wrapInt64_of_inRange _ (by omega) (by omega)]
  omega

theorem ruleScenarioB (m : MathFuncs Float64) (hm : m.exactAtZero) (now : Time)
    (t : Transaction) (p : UserProfile) (last : Location)
    (hfirst : now.nanos - p.FirstTransactionAt.nanos ≥ 604800000000000)
    (hlastTx : t.Timestamp.nanos - p.LastTransactionAt.nanos ≥ 300000000000)
    (hloc : p.CommonLocations.getLast? = some last)
    (hlat : last.Latitude = t.Location.Latitude) (hlon : last.Longitude = t.Location.Longitude)
    (hgt : 10000 < t.Amount) (hle : t.Amount ≤ 30000) (hmult : ∃ k : Int, t.Amount = 1000 * (k : ℚ))
    (hhour : t.Timestamp.Hour ≤ 5 ∨ t.Timestamp.Hour ≥ 23) :
    (NewRuleEngine m).Evaluate now t (some p) =
      [HighAmountRule.zeroValue.Evaluate t (some p), UnusualHourRule.Evaluate t (some p),
       RoundAmountRule.Evaluate t (some p)] ∧
    (HighAmountRule.zeroValue.Evaluate t (some p)).Score = 15 ∧
    (UnusualHourRule.Evaluate t (some p)).Score = 10 ∧
    (RoundAmountRule.Evaluate t (some p)).Score = 5 := by
  have h1 : (HighAmountRule.zeroValue.Evaluate t (some p)).Triggered = true :=
    (HighAmountRule_default_triggered t (some p)).mpr hgt
  have h2 : (VelocityRule.Evaluate t (some p)).Triggered = false := by
    apply Bool_eq_false_of_not
    rw [VelocityRule_triggered_iff]
    rintro ⟨p', hp, -, hlt⟩
    simp only [Option.some.injEq] at hp
    subst hp
    omega
  have h3 : (GeoVelocityRule.Evaluate m t (some p)).Triggered = false := by
    apply Bool_eq_false_of_not
    rw [GeoVelocityRule_triggered_iff]
    rintro ⟨p', last', hp, hl, -, hd, -⟩
    simp only [Option.some.injEq] at hp
    subst hp
    rw [hloc] at hl
    simp only [Option.some.injEq] at hl
    subst hl
    rw [hlat, hlon, calculateDistance_self m hm] at hd
    norm_num at hd
  have h4 : (UnusualHourRule.Evaluate t (some p)).Triggered = true := by
    simp only [UnusualHourRule.Evaluate, decide_eq_true_eq]
    omega
  have h5 : (NewUserRule.Evaluate now t (some p)).Triggered = false := by
    apply Bool_eq_false_of_not
    simp only [NewUserRule.Evaluate, decide_eq_true_eq, accountAge_lt_seven_iff]
    omega
  have h6 : (RoundAmountRule.Evaluate t (some p)).Triggered = true := by
    simp only [RoundAmountRule.Evaluate, decide_eq_true_eq, mathMod_thousand_eq_zero_iff]
    exact ⟨by linarith, hmult⟩
  have h7 : (MultipleFailedAttemptsRule.Evaluate t (some p)).Triggered = false := rfl
  refine ⟨?_, ?_, ?_, ?_⟩
  · rw [Evaluate_NewRuleEngine_eq_filter]
    simp [List.filter_cons, h1, h2, h3, h4, h5, h6, h7]
  · rw [HighAmountRule_default_score, if_pos hgt]
    have hf5 : ¬ t.Amount / 10000 > 5 := by
      rw [gt_iff_lt, lt_div_iff₀ (by norm_num)]
      linarith
    have hf3 : ¬ t.Amount / 10000 > 3 := by
      rw [gt_iff_lt, lt_div_iff₀ (by norm_num)]
      linarith
    rw [if_neg hf5, if_neg hf3]
  · simp only [UnusualHourRule.Evaluate] at h4 ⊢
    rw [if_pos h4]
    rfl
  · simp only [RoundAmountRule.Evaluate] at h6 ⊢
    rw [if_pos h6]
    rfl

/-- C19 (scenario B generalised): for every transaction that no blacklist check hits, whose
user has a stored profile with first transaction at least 7 days before the current time,
last transaction at least 5 minutes before the transaction timestamp and last recorded
location at the coordinates of the transaction location, with amount a multiple of 1000
satisfying `10000 < amount ≤ 30000` and hour of day `≤ 5` or `≥ 23`, `AnalyzeTransaction`
returns score exactly 30 (High Amount 15 + Unusual Hour 10 + Round Amount 5), risk level
LOW, decision APPROVED, and `RulesTriggered` listing exactly those three rules in that
order.  The transaction timestamp is the one the code uses (the current time when unset);
the `math` functions are assumed exact at `Sin 0`, `Sqrt 0`, `Sqrt 1`, `Atan2 0 1`. -/
theorem AnalyzeTransaction_scenarioB (m : MathFuncs Float64) (hm : m.exactAtZero)
    (ps : InMemoryProfileStore) (blacklistStore : BlacklistStore) (clk : Clock)
    (transaction : Transaction) (p : UserProfile) (last : Location)
    (hmiss : (NewFraudDetectionService m ps.toProfileStore blacklistStore).checkBlacklist clk
      transaction = (false, none))
    (hprofile : ps.profiles transaction.UserID = some p)
    (hfirst : clk.since.nanos - p.FirstTransactionAt.nanos ≥ 7 * 24 * Hour)
    (hlastTx : (stampTimestamp clk transaction).Timestamp.nanos - p.LastTransactionAt.nanos
      ≥ 5 * Minute)
    (hloc : p.CommonLocations.getLast? = some last)
    (hlat : last.Latitude = transaction.Location.Latitude)
    (hlon : last.Longitude = transaction.Location.Longitude)
    (hgt : 10000 < transaction.Amount) (hle : transaction.Amount ≤ 30000)
    (hmult : ∃ k : Int, transaction.Amount = 1000 * (k : ℚ))
    (hhour : (stampTimestamp clk transaction).Timestamp.Hour ≤ 5 ∨
      (stampTimestamp clk transaction).Timestamp.Hour ≥ 23) :
    ∃ r, (NewFraudDetectionService m ps.toProfileStore blacklistStore).AnalyzeTransaction clk
        transaction = (some r, none) ∧
      r.RiskScore = 30 ∧ r.RiskLevel = "LOW" ∧ r.Decision = "APPROVED" ∧
      r.RulesTriggered = ["High Amount Transaction", "Unusual Hour Transaction",
        "Suspicious Round Amount"] := by
  have h7 : (7 : Int) * 24 * Hour = 604800000000000 := by decide
  have h5 : (5 : Int) * Minute = 300000000000 := by decide
  rw [h7] at hfirst
  rw [h5] at hlastTx
  have hget : ps.toProfileStore.GetUserProfile transaction.UserID = (some p, none) := by
    simp [InMemoryProfileStore.toProfileStore, InMemoryProfileStore.GetUserProfile, hprofile]
  obtain ⟨hev, hs1, hs2, hs3⟩ := ruleScenarioB m hm clk.since (stampTimestamp clk transaction) p
    last hfirst hlastTx hloc
    (by rw [stampTimestamp_Location]; exact hlat) (by rw [stampTimestamp_Location]; exact hlon)
    (by rw [stampTimestamp_Amount]; exact hgt) (by rw [stampTimestamp_Amount]; exact hle)
    (by rw [stampTimestamp_Amount]; exact hmult) hhour
  have hscore : (NewRuleEngine m).CalculateTotalScore
      ((NewRuleEngine m).Evaluate clk.since (stampTimestamp clk transaction) (some p)) = 30 := by
    have hsum : scoreSum ((NewRuleEngine m).Evaluate clk.since
        (stampTimestamp clk transaction) (some p)) = 30 := by
      rw [hev]
      simp only [scoreSum, List.map_cons, List.map_nil, List.sum_cons, List.sum_nil, hs1, hs2,
        hs3]
      rfl
    rw [CalculateTotalScore_small _ _ (by omega) (by omega), hsum]
  refine ⟨_, AnalyzeTransaction_of_miss _ _ _ hmiss, ?_, ?_, ?_, ?_⟩
  · simp only [NewFraudDetectionService, stampTimestamp_UserID, hget, hscore]
  · simp only [NewFraudDetectionService, stampTimestamp_UserID, hget, hscore]
    decide
  · simp only [NewFraudDetectionService, stampTimestamp_UserID, hget, hscore]
    decide
  · simp only [NewFraudDetectionService, stampTimestamp_UserID, hget, extractReasons_Evaluate]
    rw [hev]
    rfl

/-- Witness for C19: amount 15000 at 02:00, profile with last transaction 10 days old at
the same location. -/
theorem AnalyzeTransaction_scenarioB_witness :
    ∃ r, (NewFraudDetectionService exampleMath establishedStore.toProfileStore
        sampleBlacklist.toBlacklistStore).AnalyzeTransaction (clockAt twoAM)
        scenarioBTransaction = (some r, none) ∧
      r.RiskScore = 30 ∧ r.RiskLevel = "LOW" ∧ r.Decision = "APPROVED" ∧
      r.RulesTriggered = ["High Amount Transaction", "Unusual Hour Transaction",
        "Suspicious Round Amount"] :=
  AnalyzeTransaction_scenarioB exampleMath ⟨rfl, rfl, rfl, rfl⟩ establishedStore
    sampleBlacklist.toBlacklistStore (clockAt twoAM) scenarioBTransaction establishedProfile
    exampleLocation (by decide) (by decide!) (by decide) (by decide) rfl rfl rfl (by decide!)
    (by decide!) ⟨15, by decide!⟩ (by decide)

theorem ruleScenarioA (m : MathFuncs Float64) (now : Time) (t : Transaction)
    (hgt : 3000 < t.Amount) (hle : t.Amount ≤ 10000)
    (hmult : ¬ ∃ k : Int, t.Amount = 1000 * (k : ℚ))
    (hhour : 6 ≤ t.Timestamp.Hour ∧ t.Timestamp.Hour ≤ 22) :
    (NewRuleEngine m).Evaluate now t none = [NewUserRule.Evaluate now t none] ∧
    (NewUserRule.Evaluate now t none).Score = 15 := by
  have h1 : (HighAmountRule.zeroValue.Evaluate t none).Triggered = false := by
    apply Bool_eq_false_of_not
    rw [HighAmountRule_default_triggered]
    exact not_lt.mpr hle
  have h2 : (VelocityRule.Evaluate t none).Triggered = false := rfl
  have h3 : (GeoVelocityRule.Evaluate m t none).Triggered = false := rfl
  have h4 : (UnusualHourRule.Evaluate t none).Triggered = false := by
    apply Bool_eq_false_of_not
    simp only [UnusualHourRule.Evaluate, decide_eq_true_eq]
    omega
  have h5 : (NewUserRule.Evaluate now t none).Triggered = true := by
    simp only [NewUserRule.Evaluate, decide_eq_true_eq]
    exact hgt
  have h6 : (RoundAmountRule.Evaluate t none).Triggered = false := by
    apply Bool_eq_false_of_not
    simp only [RoundAmountRule.Evaluate, decide_eq_true_eq, mathMod_thousand_eq_zero_iff]
    exact fun h => hmult h.2
  have h7 : (MultipleFailedAttemptsRule.Evaluate t none).Triggered = false := rfl
  refine ⟨?_, ?_⟩
  · rw [Evaluate_NewRuleEngine_eq_filter]
    simp [List.filter_cons, h1, h2, h3, h4, h5, h6, h7]
  · simp only [NewUserRule.Evaluate] at h5 ⊢
    rw [if_pos h5]
    rfl

/-- C20 (scenario A generalised): for every transaction that no blacklist check hits, whose
user has no stored profile, with `3000 < amount ≤ 10000`, amount not a multiple of 1000
and hour of day in `6..22`, `AnalyzeTransaction` returns score exactly 15, risk level LOW,
decision APPROVED, and `RulesTriggered` containing exactly the New User rule.  The hour
is that of the timestamp the code uses (the current time when unset). -/
theorem AnalyzeTransaction_scenarioA (m : MathFuncs Float64) (ps : InMemoryProfileStore)
    (blacklistStore : BlacklistStore) (clk : Clock) (transaction : Transaction)
    (hmiss : (NewFraudDetectionService m ps.toProfileStore blacklistStore).checkBlacklist clk
      transaction = (false, none))
    (hprofile : ps.profiles transaction.UserID = none)
    (hgt : 3000 < transaction.Amount) (hle : transaction.Amount ≤ 10000)
    (hmult : ¬ ∃ k : Int, transaction.Amount = 1000 * (k : ℚ))
    (hhour : 6 ≤ (stampTimestamp clk transaction).Timestamp.Hour ∧
      (stampTimestamp clk transaction).Timestamp.Hour ≤ 22) :
    ∃ r, (NewFraudDetectionService m ps.toProfileStore blacklistStore).AnalyzeTransaction clk
        transaction = (some r, none) ∧
      r.RiskScore = 15 ∧ r.RiskLevel = "LOW" ∧ r.Decision = "APPROVED" ∧
      r.RulesTriggered = ["New User High Transaction"] := by
  have hget : ps.toProfileStore.GetUserProfile transaction.UserID
      = (none, some ("profile not found for user " ++ transaction.UserID)) := by
    simp [InMemoryProfileStore.toProfileStore, InMemoryProfileStore.GetUserProfile, hprofile]
  obtain ⟨hev, hs⟩ := ruleScenarioA m clk.since (stampTimestamp clk transaction)
    (by rw [stampTimestamp_Amount]; exact hgt) (by rw [stampTimestamp_Amount]; exact hle)
    (by rw [stampTimestamp_Amount]; exact hmult) hhour
  have hscore : (NewRuleEngine m).CalculateTotalScore
      ((NewRuleEngine m).Evaluate clk.since (stampTimestamp clk transaction) none) = 15 := by
    have hsum : scoreSum ((NewRuleEngine m).Evaluate clk.since
        (stampTimestamp clk transaction) none) = 15 := by
      rw [hev]
      simp only [scoreSum, List.map_cons, List.map_nil, List.sum_cons, List.sum_nil, hs]
      rfl
    rw [CalculateTotalScore_small _ _ (by omega) (by omega), hsum]
  refine ⟨_, AnalyzeTransaction_of_miss _ _ _ hmiss, ?_, ?_, ?_, ?_⟩
  · simp only [NewFraudDetectionService, stampTimestamp_UserID, hget, hscore]
  · simp only [NewFraudDetectionService, stampTimestamp_UserID, hget, hscore]
    decide
  · simp only [NewFraudDetectionService, stampTimestamp_UserID, hget, hscore]
    decide
  · simp only [NewFraudDetectionService, stampTimestamp_UserID, hget, extractReasons_Evaluate]
    rw [hev]
    rfl

theorem not_multiple_3500 : ¬ ∃ k : Int, (3500 : ℚ) = 1000 * (k : ℚ) := by
  rintro ⟨k, hk⟩
  have hk2 : ((7 : Int) : ℚ) = ((2 * k : Int) : ℚ) := by
    push_cast
    linarith
  have hk3 : (7 : Int) = 2 * k := by exact_mod_cast hk2
  omega

/-- Witness for C20: amount 3500 at 14:00, unknown user. -/
theorem AnalyzeTransaction_scenarioA_witness :
    ∃ r, (NewFraudDetectionService exampleMath NewInMemoryProfileStore.toProfileStore
        sampleBlacklist.toBlacklistStore).AnalyzeTransaction (clockAt twoPM)
        scenarioATransaction = (some r, none) ∧
      r.RiskScore = 15 ∧ r.RiskLevel = "LOW" ∧ r.Decision = "APPROVED" ∧
      r.RulesTriggered = ["New User High Transaction"] :=
  AnalyzeTransaction_scenarioA exampleMath NewInMemoryProfileStore
    sampleBlacklist.toBlacklistStore (clockAt twoPM) scenarioATransaction (by decide) rfl
    (by decide!) (by decide!) not_multiple_3500 (by decide)

theorem applyUpdates_profiles (s : InMemoryProfileStore) (writes : List UserProfile)
    (u : String) :
    (s.applyUpdates writes).profiles u =
      match (writes.filter (fun p => decide (p.UserID = u))).getLast? with
      | some p => some p
      | none => s.profiles u := by
  induction writes generalizing s with
  | nil => simp [InMemoryProfileStore.applyUpdates]
  | cons w ws ih =>
    have hstep : s.applyUpdates (w :: ws) = (s.UpdateUserProfile w).1.applyUpdates ws := rfl
    rw [hstep, ih]
    by_cases hw : w.UserID = u
    · have hf : List.filter (fun p => decide (p.UserID = u)) (w :: ws)
          = w :: List.filter (fun p => decide (p.UserID = u)) ws :=
        List.filter_cons_of_pos (by simpa using hw)
      rw [hf]
      cases hfil : List.filter (fun p => decide (p.UserID = u)) ws with
      | nil =>
        have hprof : (s.UpdateUserProfile w).1.profiles u = some w := by
          simp [InMemoryProfileStore.UpdateUserProfile, hw]
        simp only [List.getLast?_nil, List.getLast?_singleton, hprof]
      | cons a l =>
        rw [List.getLast?_cons_cons, List.getLast?_eq_getLast (a :: l) (by simp)]
    · have hf : List.filter (fun p => decide (p.UserID = u)) (w :: ws)
          = List.filter (fun p => decide (p.UserID = u)) ws :=
        List.filter_cons_of_neg (by simpa using hw)
      rw [hf]
      cases (List.filter (fun p => decide (p.UserID = u)) ws).getLast? with
      | none =>
        have hne : ¬ (u = w.UserID) := fun h => hw h.symm
        simp [InMemoryProfileStore.UpdateUserProfile, hne]
      | some q => rfl

theorem applyUpdates_key (writes : List UserProfile) (u : String) (p : UserProfile)
    (h : (NewInMemoryProfileStore.applyUpdates writes).profiles u = some p) : p.UserID = u := by
  rw [applyUpdates_profiles] at h
  cases hfil : (List.filter (fun p => decide (p.UserID = u)) writes).getLast? with
  | none =>
    rw [hfil] at h
    simp [NewInMemoryProfileStore] at h
  | some q =>
    rw [hfil] at h
    simp only [Option.some.injEq] at h
    subst h
    have hmem := List.mem_of_getLast?_eq_some hfil
    simpa using (List.mem_filter.mp hmem).2

theorem log2Fuel_spec : ∀ (fuel n : Nat), 1 ≤ n → n ≤ fuel →
    2 ^ log2Fuel fuel n ≤ n ∧ n < 2 ^ (log2Fuel fuel n + 1) := by
  intro fuel
  induction fuel with
  | zero => intro n h1 h2; omega
  | succ k ih =>
    intro n h1 h2
    by_cases h : 2 ≤ n
    · obtain ⟨a, b⟩ := ih (n / 2) (by omega) (by omega)
      simp only [log2Fuel, h, if_true]
      rw [pow_succ] at b
      rw [pow_succ, pow_succ, pow_succ]
      constructor <;> omega
    · simp only [log2Fuel, h, if_false]
      constructor <;> simp <;> omega

theorem pow2_eq_zpow (e : Int) : pow2 e = (2 : ℚ) ^ e := by
  unfold pow2
  split_ifs with h
  · obtain ⟨n, rfl⟩ := Int.eq_ofNat_of_zero_le h
    simp
  · push_neg at h
    obtain ⟨n, hn⟩ := Int.exists_eq_neg_ofNat (le_of_lt h)
    subst hn
    simp [zpow_neg]

theorem floorLog2_spec (a : ℚ) (ha : 0 < a) :
    (2 : ℚ) ^ floorLog2 a ≤ a ∧ a < (2 : ℚ) ^ (floorLog2 a + 1) := by
  have hnum : 0 < a.num := Rat.num_pos.mpr ha
  have hn1 : 1 ≤ a.num.natAbs := by omega
  have hd1 : 1 ≤ a.den := a.den_pos
  obtain ⟨hL1, hL2⟩ := log2Fuel_spec a.num.natAbs a.num.natAbs hn1 le_rfl
  obtain ⟨hM1, hM2⟩ := log2Fuel_spec a.den a.den hd1 le_rfl
  have hN : ((a.num.natAbs : Nat) : ℚ) = (a.num : ℚ) := by
    rw [← Int.cast_natCast, Int.natAbs_of_nonneg (le_of_lt hnum)]
  have ha_eq : a = ((a.num.natAbs : Nat) : ℚ) / ((a.den : Nat) : ℚ) := by
    rw [hN]; exact (Rat.num_div_den a).symm
  unfold floorLog2
  simp only [pow2_eq_zpow]
  generalize log2Fuel a.num.natAbs a.num.natAbs = L at hL1 hL2 ⊢
  generalize log2Fuel a.den a.den = M at hM1 hM2 ⊢
  generalize a.num.natAbs = N at hL1 hL2 hn1 ha_eq
  generalize a.den = D at hM1 hM2 hd1 ha_eq
  have hL1q : (2 : ℚ) ^ L ≤ (N : ℚ) := by exact_mod_cast hL1
  have hL2q : (N : ℚ) < (2 : ℚ) ^ (L + 1) := by exact_mod_cast hL2
  have hM1q : (2 : ℚ) ^ M ≤ (D : ℚ) := by exact_mod_cast hM1
  have hM2q : (D : ℚ) < (2 : ℚ) ^ (M + 1) := by exact_mod_cast hM2
  have hDpos : (0 : ℚ) < (D : ℚ) := by exact_mod_cast hd1
  have hNpos : (0 : ℚ) < (N : ℚ) := by exact_mod_cast hn1
  have h2L : (0 : ℚ) < (2 : ℚ) ^ L := by positivity
  have h2M : (0 : ℚ) < (2 : ℚ) ^ M := by positivity
  have h2L1 : (0 : ℚ) < (2 : ℚ) ^ (L + 1) := by positivity
  have h2M1 : (0 : ℚ) < (2 : ℚ) ^ (M + 1) := by positivity
  have two_ne : (2 : ℚ) ≠ 0 := by norm_num
  have lo : (2 : ℚ) ^ ((L : Int) - (M : Int) - 1) < a := by
    have e : (2 : ℚ) ^ ((L : Int) - (M : Int) - 1) = (2 : ℚ) ^ L / (2 : ℚ) ^ (M + 1) := by
      have : (L : Int) - (M : Int) - 1 = (L : Int) - ((M + 1 : Nat) : Int) := by push_cast; ring
      rw [this, zpow_sub₀ two_ne, zpow_natCast, zpow_natCast]
    rw [e, ha_eq, div_lt_div_iff₀ h2M1 hDpos]
    calc (2 : ℚ) ^ L * (D : ℚ) < (2 : ℚ) ^ L * (2 : ℚ) ^ (M + 1) :=
          mul_lt_mul_of_pos_left hM2q h2L
      _ ≤ (N : ℚ) * (2 : ℚ) ^ (M + 1) := mul_le_mul_of_nonneg_right hL1q (le_of_lt h2M1)
  have hi : a < (2 : ℚ) ^ ((L : Int) - (M : Int) + 1) := by
    have e : (2 : ℚ) ^ ((L : Int) - (M : Int) + 1) = (2 : ℚ) ^ (L + 1) / (2 : ℚ) ^ M := by
      have : (L : Int) - (M : Int) + 1 = ((L + 1 : Nat) : Int) - (M : Int) := by push_cast; ring
      rw [this, zpow_sub₀ two_ne, zpow_natCast, zpow_natCast]
    rw [e, ha_eq, div_lt_div_iff₀ hDpos h2M]
    calc (N : ℚ) * (2 : ℚ) ^ M < (2 : ℚ) ^ (L + 1) * (2 : ℚ) ^ M :=
          mul_lt_mul_of_pos_right hL2q h2M
      _ ≤ (2 : ℚ) ^ (L + 1) * (D : ℚ) := mul_le_mul_of_nonneg_left hM1q (le_of_lt h2L1)
  split_ifs with hc
  · exact ⟨hc, hi⟩
  · push_neg at hc
    refine ⟨le_of_lt lo, ?_⟩
    have : (L : Int) - (M : Int) - 1 + 1 = (L : Int) - (M : Int) := by ring
    rw [this]
    exact hc

theorem roundHalfEven_abs_sub_le (y : ℚ) : |(roundHalfEven y : ℚ) - y| ≤ 1 / 2 := by
  have h1 : (⌊y⌋ : ℚ) ≤ y := Int.floor_le y
  have h2 : y < (⌊y⌋ : ℚ) + 1 := Int.lt_floor_add_one y
  unfold roundHalfEven
  rw [abs_le]
  split_ifs with c1 c2 c3
  · constructor <;> linarith
  · push_cast; constructor <;> linarith
  · push_neg at c1 c2; constructor <;> linarith
  · push_neg at c1 c2; push_cast; constructor <;> linarith

theorem floorLog2_ge (a : ℚ) (k : Int) (h : (2 : ℚ) ^ k ≤ a) : k ≤ floorLog2 a := by
  have ha : 0 < a := lt_of_lt_of_le (by positivity) h
  have hlt := lt_of_le_of_lt h (floorLog2_spec a ha).2
  have := (zpow_lt_zpow_iff_right₀ (by norm_num : (1 : ℚ) < 2)).mp hlt
  omega

theorem roundToFloat64_abs_sub_le (x : ℚ) (hx : (2 : ℚ) ^ (-1022 : Int) ≤ |x|) :
    |roundToFloat64 x - x| ≤ |x| / 2 ^ 53 := by
  have hpos : 0 < |x| := lt_of_lt_of_le (by positivity) hx
  have hx0 : x ≠ 0 := abs_pos.mp hpos
  have he := floorLog2_ge |x| (-1022) hx
  have hspec := (floorLog2_spec |x| hpos).1
  unfold roundToFloat64
  rw [if_neg hx0]
  simp only [pow2_eq_zpow]
  have hmax : max (floorLog2 |x| - 52) (-1074) = floorLog2 |x| - 52 := by
    apply max_eq_left; omega
  rw [hmax]
  generalize floorLog2 |x| = e at he hspec
  have hq : (0 : ℚ) < (2 : ℚ) ^ (e - 52) := by positivity
  have hr := roundHalfEven_abs_sub_le (x / (2 : ℚ) ^ (e - 52))
  have heq : (roundHalfEven (x / (2 : ℚ) ^ (e - 52)) : ℚ) * (2 : ℚ) ^ (e - 52) - x
      = ((roundHalfEven (x / (2 : ℚ) ^ (e - 52)) : ℚ) - x / (2 : ℚ) ^ (e - 52))
        * (2 : ℚ) ^ (e - 52) := by
    field_simp
  rw [heq, abs_mul, abs_of_pos hq]
  have hsplit : (2 : ℚ) ^ (e - 52) = (2 : ℚ) ^ e / 2 ^ 52 := by
    rw [zpow_sub₀ (by norm_num : (2 : ℚ) ≠ 0)]; norm_num
  calc |(roundHalfEven (x / (2 : ℚ) ^ (e - 52)) : ℚ) - x / (2 : ℚ) ^ (e - 52)|
        * (2 : ℚ) ^ (e - 52)
      ≤ 1 / 2 * (2 : ℚ) ^ (e - 52) := mul_le_mul_of_nonneg_right hr (le_of_lt hq)
    _ = (2 : ℚ) ^ e / 2 ^ 53 := by rw [hsplit]; ring
    _ ≤ |x| / 2 ^ 53 := by
        apply div_le_div_of_nonneg_right hspec (by positivity)

theorem roundToFloat64_rel (x u : ℚ) (hu : u = 1 / 2 ^ 53) (hx : 1 / 2 ^ 70 ≤ x) :
    x * (1 - u) ≤ roundToFloat64 x ∧ roundToFloat64 x ≤ x * (1 + u) := by
  have hpos : 0 < x := lt_of_lt_of_le (by positivity) hx
  have hs : (2 : ℚ) ^ (-1022 : Int) ≤ |x| := by
    rw [abs_of_pos hpos]
    calc (2 : ℚ) ^ (-1022 : Int) ≤ (2 : ℚ) ^ (-70 : Int) :=
          zpow_le_zpow_right₀ (by norm_num) (by norm_num)
      _ = 1 / 2 ^ 70 := by norm_num [zpow_neg]
      _ ≤ x := hx
  have h := roundToFloat64_abs_sub_le x hs
  rw [abs_of_pos hpos, abs_le] at h
  subst hu
  constructor <;> linarith [h.1, h.2]

theorem quotient_error_bounds (u C T A B : ℚ) (hu1 : u ≤ 1 / 4)
    (hC : 0 < C) (hT : 0 < T)
    (hA1 : C * (1 - u) ≤ A) (hA2 : A ≤ C * (1 + u))
    (hB1 : T * (1 - u) ≤ B) (hB2 : B ≤ T * (1 + u)) :
    C / T * ((1 - u) / (1 + u)) ≤ A / B ∧ A / B ≤ C / T * ((1 + u) / (1 - u)) := by
  have hApos : 0 < A := lt_of_lt_of_le (by nlinarith) hA1
  have hBpos : 0 < B := lt_of_lt_of_le (by nlinarith) hB1
  constructor
  · have : (C * (1 - u)) / (T * (1 + u)) ≤ A / B :=
      div_le_div₀ (le_of_lt hApos) hA1 hBpos hB2
    calc C / T * ((1 - u) / (1 + u)) = (C * (1 - u)) / (T * (1 + u)) := by
          rw [mul_div_mul_comm]
      _ ≤ A / B := this
  · have : A / B ≤ (C * (1 + u)) / (T * (1 - u)) :=
      div_le_div₀ (by nlinarith) hA2 (by nlinarith) hB1
    calc A / B ≤ (C * (1 + u)) / (T * (1 - u)) := this
      _ = C / T * ((1 + u) / (1 - u)) := by
        rw [mul_div_mul_comm]

theorem product_error_bounds (u E Q Q1 R : ℚ) (hu0 : 0 < u) (hu1 : u ≤ 1 / 4) (hE : 0 < E)
    (hQlo : E * ((1 - u) / (1 + u)) ≤ Q) (hQhi : Q ≤ E * ((1 + u) / (1 - u)))
    (hQ1lo : Q * (1 - u) ≤ Q1) (hQ1hi : Q1 ≤ Q * (1 + u))
    (hRlo : Q1 * 100 * (1 - u) ≤ R) (hRhi : R ≤ Q1 * 100 * (1 + u)) :
    E * 100 * (1 - 8 * u) ≤ R ∧ R ≤ E * 100 * (1 + 8 * u) := by
  have hk_hi : (1 + u) / (1 - u) * (1 + u) * (1 + u) ≤ 1 + 8 * u := by
    rw [div_mul_eq_mul_div, div_mul_eq_mul_div, div_le_iff₀ (by linarith)]
    nlinarith [mul_pos hu0 hu0, mul_pos (mul_pos hu0 hu0) hu0]
  have hk_lo : 1 - 8 * u ≤ (1 - u) / (1 + u) * (1 - u) * (1 - u) := by
    rw [div_mul_eq_mul_div, div_mul_eq_mul_div, le_div_iff₀ (by linarith)]
    nlinarith [mul_pos hu0 hu0, mul_pos (mul_pos hu0 hu0) hu0]
  have h1u : 0 ≤ 1 + u := by linarith
  have h1mu : 0 ≤ 1 - u := by linarith
  have hE100 : 0 ≤ E * 100 := by positivity
  constructor
  · calc E * 100 * (1 - 8 * u)
        ≤ E * 100 * ((1 - u) / (1 + u) * (1 - u) * (1 - u)) :=
          mul_le_mul_of_nonneg_left hk_lo hE100
      _ = ((E * ((1 - u) / (1 + u))) * (1 - u)) * 100 * (1 - u) := by ring
      _ ≤ (Q * (1 - u)) * 100 * (1 - u) := by
          have := mul_le_mul_of_nonneg_right hQlo h1mu
          nlinarith
      _ ≤ Q1 * 100 * (1 - u) := by nlinarith
      _ ≤ R := hRlo
  · calc R ≤ Q1 * 100 * (1 + u) := hRhi
      _ ≤ (Q * (1 + u)) * 100 * (1 + u) := by nlinarith
      _ ≤ ((E * ((1 + u) / (1 - u))) * (1 + u)) * 100 * (1 + u) := by
          have := mul_le_mul_of_nonneg_right hQhi h1u
          nlinarith
      _ = E * 100 * ((1 + u) / (1 - u) * (1 + u) * (1 + u)) := by ring
      _ ≤ E * 100 * (1 + 8 * u) := mul_le_mul_of_nonneg_left hk_hi hE100

theorem float64_ratio_times_100_accuracy (c t : Int) (hc : 0 ≤ c) (ht : 0 < t)
    (ht63 : t < 2 ^ 63) :
    |float64Mul (float64Div (float64OfInt c) (float64OfInt t)) 100 - (c : ℚ) / (t : ℚ) * 100|
      ≤ (c : ℚ) / (t : ℚ) * 100 / 2 ^ 50 := by
  unfold float64Mul float64Div float64OfInt
  rcases eq_or_lt_of_le hc with h0 | hcpos
  · subst h0
    simp [roundToFloat64]
  · have hC : (1 : ℚ) ≤ (c : ℚ) := by
      have : (1 : Int) ≤ c := hcpos
      exact_mod_cast this
    have hT1 : (1 : ℚ) ≤ (t : ℚ) := by
      have : (1 : Int) ≤ t := ht
      exact_mod_cast this
    have hT2 : (t : ℚ) ≤ 2 ^ 63 := by
      have : t ≤ 2 ^ 63 := le_of_lt ht63
      exact_mod_cast this
    generalize (c : ℚ) = C at hC ⊢
    generalize (t : ℚ) = T at hT1 hT2 ⊢
    obtain ⟨u, hu⟩ : ∃ u : ℚ, u = 1 / 2 ^ 53 := ⟨_, rfl⟩
    have h8 : 8 * u = 1 / 2 ^ 50 := by rw [hu]; norm_num
    have hu0 : 0 < u := by rw [hu]; positivity
    have hu1 : u ≤ 1 / 4 := by rw [hu]; norm_num
    obtain ⟨hA1, hA2⟩ := roundToFloat64_rel C u hu (le_trans (by norm_num) hC)
    obtain ⟨hB1, hB2⟩ := roundToFloat64_rel T u hu (le_trans (by norm_num) hT1)
    generalize roundToFloat64 C = A at hA1 hA2 ⊢
    generalize roundToFloat64 T = B at hB1 hB2 ⊢
    have hCpos : 0 < C := by linarith
    have hTpos : 0 < T := by linarith
    have hE0 : 0 < C / T := div_pos hCpos hTpos
    obtain ⟨hQlo, hQhi⟩ := quotient_error_bounds u C T A B hu1 hCpos hTpos hA1 hA2 hB1 hB2
    have hratio : (1 : ℚ) / 2 ≤ (1 - u) / (1 + u) := by
      rw [le_div_iff₀ (by linarith)]
      linarith
    have hCT : (1 : ℚ) / 2 ^ 63 ≤ C / T :=
      div_le_div₀ (le_of_lt hCpos) hC hTpos hT2
    have hQ : (1 : ℚ) / 2 ^ 64 ≤ A / B := by
      calc (1 : ℚ) / 2 ^ 64 = 1 / 2 ^ 63 * (1 / 2) := by norm_num
        _ ≤ C / T * ((1 - u) / (1 + u)) :=
          mul_le_mul hCT hratio (by norm_num) (le_of_lt hE0)
        _ ≤ A / B := hQlo
    obtain ⟨hQ1lo, hQ1hi⟩ := roundToFloat64_rel (A / B) u hu (le_trans (by norm_num) hQ)
    generalize roundToFloat64 (A / B) = Q1 at hQ1lo hQ1hi ⊢
    generalize A / B = Q at hQhi hQlo hQ hQ1lo hQ1hi
    have hQpos : 0 < Q := lt_of_lt_of_le (by norm_num) hQ
    have hQ1 : (1 : ℚ) / 2 ^ 65 ≤ Q1 := by
      calc (1 : ℚ) / 2 ^ 65 = 1 / 2 ^ 64 * (1 / 2) := by norm_num
        _ ≤ Q * (1 - u) := mul_le_mul hQ (by linarith) (by norm_num) (le_of_lt hQpos)
        _ ≤ Q1 := hQ1lo
    obtain ⟨hRlo, hRhi⟩ := roundToFloat64_rel (Q1 * 100) u hu (by linarith)
    generalize roundToFloat64 (Q1 * 100) = R at hRlo hRhi ⊢
    obtain ⟨h1, h2⟩ := product_error_bounds u (C / T) Q Q1 R hu0 hu1 hE0 hQlo hQhi hQ1lo hQ1hi
      hRlo hRhi
    rw [abs_le]
    have hE : C / T * 100 * (8 * u) = C / T * 100 / 2 ^ 50 := by rw [h8]; ring
    constructor <;> linarith

/-- C21, counterexample: (1) the stored profile `negativeTotalProfile` has total
transaction count `-1` (not 0) and one fraud-history entry, and the returned fraud rate
is 0, not `(1 / -1) × 100 = -100`; (2) the stored profile `thirdFraudProfile` has total
transaction count 3 and one fraud-history entry, and the returned fraud rate is the
`float64` value `2345624805922133 / 2 ^ 46`, not `(1 / 3) × 100`. -/
theorem GetTransactionAnalytics_fraud_rate_counterexample :
    (negativeTotalProfile.TotalTransactions ≠ 0 ∧
      ((negativeTotalProfile.FraudHistory.length : ℚ) /
        (negativeTotalProfile.TotalTransactions : ℚ) * 100 = -100) ∧
      ((NewFraudDetectionService exampleMath
          (NewInMemoryProfileStore.UpdateUserProfile negativeTotalProfile).1.toProfileStore
          NewInMemoryBlacklistStore.toBlacklistStore).GetTransactionAnalytics "USER777").1.map
          (fun a => (a.FraudCount, a.FraudRate)) = some (1, 0)) ∧
    (thirdFraudProfile.TotalTransactions = 3 ∧
      ((NewFraudDetectionService exampleMath
          (NewInMemoryProfileStore.UpdateUserProfile thirdFraudProfile).1.toProfileStore
          NewInMemoryBlacklistStore.toBlacklistStore).GetTransactionAnalytics "USER777").1.map
          (fun a => (a.FraudCount, a.FraudRate))
        = some (1, 2345624805922133 / 2 ^ 46) ∧
      (2345624805922133 / 2 ^ 46 : ℚ) ≠
        (thirdFraudProfile.FraudHistory.length : ℚ) /
          (thirdFraudProfile.TotalTransactions : ℚ) * 100) := by
  refine ⟨⟨by decide, by decide!, by decide!⟩, by decide, by decide!, by decide!⟩

/-- C21, amended: for every user id with a stored profile, `GetTransactionAnalytics`
returns no error and analytics carrying the requested user id (which is the profile's own
user id in every store built by `UpdateUserProfile` calls), whose total transactions,
average amount and last-transaction timestamp are copied from the profile, whose fraud
count equals the number of fraud-history entries, and whose fraud rate equals 0 when the
total transaction count is zero or negative and, when it is positive, is the `float64`
value of `float64(fraud count) / float64(total transaction count) * 100`, the two
conversions, the quotient and the product each rounded to the nearest `float64`; for a
total transaction count in the range of the 64-bit `int` that value differs from
`(fraud count / total transaction count) × 100` by at most that quantity times
`2 ^ (-50)`. -/
theorem GetTransactionAnalytics_of_profile (m : MathFuncs Float64) (ps : InMemoryProfileStore)
    (blacklistStore : BlacklistStore) (userID : String) (p : UserProfile)
    (h : ps.profiles userID = some p) :
    ∃ a, (NewFraudDetectionService m ps.toProfileStore blacklistStore).GetTransactionAnalytics
        userID = (some a, none) ∧
      a.UserID = userID ∧
      (∀ writes, ps = NewInMemoryProfileStore.applyUpdates writes → a.UserID = p.UserID) ∧
      a.TotalTransactions = p.TotalTransactions ∧
      a.AverageAmount = p.AvgTransactionValue ∧
      a.LastTransactionAt = p.LastTransactionAt ∧
      a.FraudCount = (p.FraudHistory.length : Int) ∧
      (p.TotalTransactions > 0 →
        a.FraudRate = roundToFloat64
          (roundToFloat64
            (roundToFloat64 (p.FraudHistory.length : ℚ) /
              roundToFloat64 (p.TotalTransactions : ℚ)) * 100)) ∧
      (p.TotalTransactions > 0 → p.TotalTransactions < 2 ^ 63 →
        |a.FraudRate - (p.FraudHistory.length : ℚ) / (p.TotalTransactions : ℚ) * 100|
          ≤ (p.FraudHistory.length : ℚ) / (p.TotalTransactions : ℚ) * 100 / 2 ^ 50) ∧
      (p.TotalTransactions ≤ 0 → a.FraudRate = 0) := by
  have hget : ps.toProfileStore.GetUserProfile userID = (some p, none) := by
    simp [InMemoryProfileStore.toProfileStore, InMemoryProfileStore.GetUserProfile, h]
  refine ⟨{ UserID := userID
            TotalTransactions := p.TotalTransactions
            AverageAmount := p.AvgTransactionValue
            FraudCount := (p.FraudHistory.length : Int)
            FraudRate := if p.TotalTransactions > 0 then
              float64Mul
                (float64Div (float64OfInt (p.FraudHistory.length : Int))
                  (float64OfInt p.TotalTransactions)) 100 else 0
            LastTransactionAt := p.LastTransactionAt },
    by simp only [FraudDetectionService.GetTransactionAnalytics, NewFraudDetectionService, hget],
    rfl, ?_, rfl, rfl, rfl, rfl, ?_, ?_, ?_⟩
  · intro writes hw
    rw [hw] at h
    exact (applyUpdates_key writes userID p h).symm
  · intro hpos
    simp only [float64Mul, float64Div, float64OfInt, Int.cast_natCast]
    rw [if_pos hpos]
  · intro hpos h63
    have hacc := float64_ratio_times_100_accuracy (p.FraudHistory.length : Int)
      p.TotalTransactions (Int.natCast_nonneg _) hpos h63
    rw [Int.cast_natCast] at hacc
    show |(if p.TotalTransactions > 0 then _ else (0 : ℚ)) - _| ≤ _
    rw [if_pos hpos]
    exact hacc
  · intro hle
    have hn : ¬ p.TotalTransactions > 0 := by omega
    simp [hn]

/-- Witness for C21: a stored profile with 4 transactions and 1 fraud incident gives a
fraud rate of 25, the rounded quotient and product being exact there. -/
theorem GetTransactionAnalytics_of_profile_witness :
    ∃ a, (NewFraudDetectionService exampleMath
        (NewInMemoryProfileStore.UpdateUserProfile quarterFraudProfile).1.toProfileStore
        NewInMemoryBlacklistStore.toBlacklistStore).GetTransactionAnalytics "USER777"
        = (some a, none) ∧ a.UserID = "USER777" ∧ a.FraudCount = 1 ∧ a.FraudRate = 25 :=
  match GetTransactionAnalytics_of_profile exampleMath
    (NewInMemoryProfileStore.UpdateUserProfile quarterFraudProfile).1
    NewInMemoryBlacklistStore.toBlacklistStore "USER777" quarterFraudProfile (by decide!) with
  | ⟨a, ha, hid, _, _, _, _, hcount, hrate, _, _⟩ =>
    ⟨a, ha, hid, hcount, by rw [hrate (by decide)]; decide!⟩

theorem Add_lookup_same (s : InMemoryBlacklistStore) (e : BlacklistEntry) :
    (s.Add e).1.lookup e.EntryType e.Value = some e := by
  simp [InMemoryBlacklistStore.Add, InMemoryBlacklistStore.lookup]

theorem Add_lookup_other (s : InMemoryBlacklistStore) (e : BlacklistEntry)
    (entryType value : String) (h : entryType ≠ e.EntryType ∨ value ≠ e.Value) :
    (s.Add e).1.lookup entryType value = s.lookup entryType value := by
  by_cases ht : entryType = e.EntryType
  · have hv : value ≠ e.Value := by
      rcases h with h | h
      · exact absurd ht h
      · exact h
    subst ht
    cases hs : s.entries e.EntryType <;>
      simp [InMemoryBlacklistStore.Add, InMemoryBlacklistStore.lookup, hv, hs]
  · simp [InMemoryBlacklistStore.Add, InMemoryBlacklistStore.lookup, ht]

/-- C22: blacklist `Add` is an upsert at the key `(entry.Type, entry.Value)`: for every
store state and entry `e`, `Add e` returns no error; afterwards the entry stored for
`(e.Type, e.Value)` is `e`, whatever was stored there before, so that a later
`IsBlacklisted` for that pair is decided by `e`'s active flag and expiry alone; and the
entry stored for every other (type, value) pair is unchanged. -/
theorem Add_is_upsert (s : InMemoryBlacklistStore) (e : BlacklistEntry) :
    (s.Add e).2 = none ∧
    (s.Add e).1.lookup e.EntryType e.Value = some e ∧
    (∀ now, ((s.Add e).1.IsBlacklisted now e.EntryType e.Value).2 = none ∧
      (((s.Add e).1.IsBlacklisted now e.EntryType e.Value).1 = true ↔
        (e.IsActive = true ∧
          (e.ExpiresAt = none ∨ ∃ expiresAt, e.ExpiresAt = some expiresAt ∧
            now.nanos ≤ expiresAt.nanos)))) ∧
    (∀ entryType value, (entryType ≠ e.EntryType ∨ value ≠ e.Value) →
      (s.Add e).1.lookup entryType value = s.lookup entryType value) ∧
    (∀ now entryType value, (entryType ≠ e.EntryType ∨ value ≠ e.Value) →
      (s.Add e).1.IsBlacklisted now entryType value = s.IsBlacklisted now entryType value) := by
  refine ⟨rfl, Add_lookup_same s e, ?_, Add_lookup_other s e, ?_⟩
  · intro now
    refine ⟨IsBlacklisted_snd _ _ _ _, ?_⟩
    rw [IsBlacklisted_fst_iff]
    unfold InMemoryBlacklistStore.holdsActiveEntry
    rw [Add_lookup_same]
    constructor
    · rintro ⟨entry, hentry, hact, hexp⟩
      simp only [Option.some.injEq] at hentry
      subst hentry
      exact ⟨hact, hexp⟩
    · rintro ⟨hact, hexp⟩
      exact ⟨e, rfl, hact, hexp⟩
  · intro now entryType value h
    have hlook := Add_lookup_other s e entryType value h
    have h1 := IsBlacklisted_fst_iff (s.Add e).1 now entryType value
    have h2 := IsBlacklisted_fst_iff s now entryType value
    unfold InMemoryBlacklistStore.holdsActiveEntry at h1 h2
    rw [hlook] at h1
    have hb : ((s.Add e).1.IsBlacklisted now entryType value).1
        = (s.IsBlacklisted now entryType value).1 := by
      cases hx : ((s.Add e).1.IsBlacklisted now entryType value).1 <;>
        cases hy : (s.IsBlacklisted now entryType value).1
      · rfl
      · exact absurd (h1.mpr (h2.mp hy)) (by simp [hx])
      · exact absurd (h2.mpr (h1.mp hx)) (by simp [hy])
      · rfl
    rw [IsBlacklisted_eq (s.Add e).1, IsBlacklisted_eq s, hb]

/-- Witness for C22: re-adding the pair `("user", "USER999")` with an inactive entry
replaces `expiringEntry`, and the seeded entry of the pair `("card", "4567")` stays. -/
theorem Add_is_upsert_witness :
    ((sampleBlacklist.Add expiringEntry).1.Add inactiveEntry).1.lookup "user" "USER999"
      = some inactiveEntry ∧
    ((sampleBlacklist.Add expiringEntry).1.Add inactiveEntry).1.lookup "card" "4567"
      = (sampleBlacklist.Add expiringEntry).1.lookup "card" "4567" :=
  ⟨(Add_is_upsert (sampleBlacklist.Add expiringEntry).1 inactiveEntry).2.1,
   (Add_is_upsert (sampleBlacklist.Add expiringEntry).1 inactiveEntry).2.2.2.1 "card" "4567"
     (Or.inl (by decide))⟩

/-- C23: for every sequence of `UpdateUserProfile` calls on a fresh in-memory profile
store and every user id `u`, `GetUserProfile u` returns the not-found error exactly when
no profile with user id `u` has been written, and otherwise returns, without error, the
profile most recently written for `u`, in full; every write returns no error, and a write
for another user id does not change what `GetUserProfile u` returns. -/
theorem GetUserProfile_after_updates (writes : List UserProfile) (u : String) :
    ((NewInMemoryProfileStore.applyUpdates writes).GetUserProfile u =
      match (writes.filter (fun p => decide (p.UserID = u))).getLast? with
      | some p => (some p, none)
      | none => (none, some ("profile not found for user " ++ u))) ∧
    (((NewInMemoryProfileStore.applyUpdates writes).GetUserProfile u).2 ≠ none ↔
      ∀ p ∈ writes, p.UserID ≠ u) ∧
    (∀ (s : InMemoryProfileStore) (q : UserProfile),
      (s.UpdateUserProfile q).2 = none ∧
      (s.UpdateUserProfile q).1.GetUserProfile q.UserID = (some q, none) ∧
      (q.UserID ≠ u → (s.UpdateUserProfile q).1.GetUserProfile u = s.GetUserProfile u)) := by
  have hmain : (NewInMemoryProfileStore.applyUpdates writes).GetUserProfile u =
      match (writes.filter (fun p => decide (p.UserID = u))).getLast? with
      | some p => (some p, none)
      | none => (none, some ("profile not found for user " ++ u)) := by
    unfold InMemoryProfileStore.GetUserProfile
    rw [applyUpdates_profiles]
    cases (writes.filter (fun p => decide (p.UserID = u))).getLast? with
    | none => rfl
    | some p => rfl
  refine ⟨hmain, ?_, ?_⟩
  · rw [hmain]
    cases hfil : (writes.filter (fun p => decide (p.UserID = u))).getLast? with
    | none =>
      have hnil := List.getLast?_eq_none_iff.mp hfil
      constructor
      · intro _ p hp hid
        have hmem : p ∈ writes.filter (fun p => decide (p.UserID = u)) :=
          List.mem_filter.mpr ⟨hp, by simpa using hid⟩
        rw [hnil] at hmem
        exact absurd hmem (List.not_mem_nil p)
      · intro _
        simp
    | some p =>
      have hmem := List.mem_of_getLast?_eq_some hfil
      have hp := List.mem_filter.mp hmem
      constructor
      · intro h
        exact absurd rfl h
      · intro h
        exact absurd (by simpa using hp.2) (h p hp.1)
  · intro s q
    refine ⟨rfl, ?_, ?_⟩
    · simp [InMemoryProfileStore.UpdateUserProfile, InMemoryProfileStore.GetUserProfile]
    · intro hne
      have hne2 : ¬ (u = q.UserID) := fun h => hne h.symm
      simp [InMemoryProfileStore.UpdateUserProfile, InMemoryProfileStore.GetUserProfile, hne2]

/-- Witness for C23: after writing `negativeTotalProfile` and then `cleanProfile` for the
same user, the store returns `cleanProfile`; a user never written is not found. -/
theorem GetUserProfile_after_updates_witness :
    (NewInMemoryProfileStore.applyUpdates [negativeTotalProfile, establishedProfile,
      cleanProfile]).GetUserProfile "USER777" = (some cleanProfile, none) ∧
    ((NewInMemoryProfileStore.applyUpdates [negativeTotalProfile, establishedProfile,
      cleanProfile]).GetUserProfile "USER999").2 ≠ none :=
  ⟨by
    rw [(GetUserProfile_after_updates [negativeTotalProfile, establishedProfile, cleanProfile]
      "USER777").1]
    rfl,
   (GetUserProfile_after_updates [negativeTotalProfile, establishedProfile, cleanProfile]
      "USER999").2.1.mpr (by decide)⟩

theorem firstDecisive_optional (store : BlacklistStore) (c : Prop) [Decidable c]
    (x : Time × String × String) (rest : List (Time × String × String)) :
    firstDecisive store ((if c then [x] else []) ++ rest) =
      match (if c then store.IsBlacklisted x.1 x.2.1 x.2.2 else (false, none)) with
      | (_, some err) => (false, some err)
      | (true, none) => (true, none)
      | (false, none) => firstDecisive store rest := by
  by_cases hc : c
  · simp only [if_pos hc, List.singleton_append]
    rfl
  · simp only [if_neg hc, List.nil_append]

theorem checkBlacklist_eq_firstDecisive (s : FraudDetectionService) (clk : Clock)
    (transaction : Transaction) :
    s.checkBlacklist clk transaction =
      firstDecisive s.blacklistStore (blacklistLookups clk transaction) := by
  unfold blacklistLookups
  rw [List.append_assoc, List.append_assoc, List.singleton_append]
  have hdev := firstDecisive_optional s.blacklistStore (transaction.DeviceInfo.DeviceID ≠ "")
    (clk.lookupDevice, "device", transaction.DeviceInfo.DeviceID) []
  rw [List.append_nil] at hdev
  unfold FraudDetectionService.checkBlacklist
  conv_rhs => unfold firstDecisive
  rw [firstDecisive_optional, firstDecisive_optional, hdev]
  rfl

theorem firstDecisive_skip (store : BlacklistStore) (pre rest : List (Time × String × String))
    (h : ∀ y ∈ pre, store.IsBlacklisted y.1 y.2.1 y.2.2 = (false, none)) :
    firstDecisive store (pre ++ rest) = firstDecisive store rest := by
  induction pre with
  | nil => rfl
  | cons y ys ih =>
    have hy := h y (List.mem_cons_self y ys)
    have hys := ih (fun z hz => h z (List.mem_cons_of_mem y hz))
    obtain ⟨now, entryType, value⟩ := y
    simp only [List.cons_append, firstDecisive]
    simp only at hy
    rw [hy]
    exact hys

theorem stampTimestamp_ID (clk : Clock) (transaction : Transaction) :
    (stampTimestamp clk transaction).ID = transaction.ID := by
  unfold stampTimestamp
  split <;> rfl

/-- C24: for every transaction and every blacklist store (whose lookups may hit, miss or
fail), the blacklist check consults, in this fixed order, type `user` with the user id,
then `card` with card-last-4 only if non-empty, then `ip` with the IP address only if
non-empty, then `device` with the device id only if non-empty, and stops at the first
lookup that hits or fails.  A hit preceded by misses yields the blocked result whatever
the later lookups, the profile store and the rule engine are; a failure preceded by misses
makes `AnalyzeTransaction` return that error and no result. -/
theorem checkBlacklist_order_and_short_circuit (s : FraudDetectionService) (clk : Clock)
    (transaction : Transaction) :
    s.checkBlacklist clk transaction =
      firstDecisive s.blacklistStore (blacklistLookups clk transaction) ∧
    (∀ pre x post, blacklistLookups clk transaction = pre ++ x :: post →
      (∀ y ∈ pre, s.blacklistStore.IsBlacklisted y.1 y.2.1 y.2.2 = (false, none)) →
      (s.blacklistStore.IsBlacklisted x.1 x.2.1 x.2.2 = (true, none) →
        s.AnalyzeTransaction clk transaction =
          (some
            { TransactionID := transaction.ID
              RiskScore := 100
              RiskLevel := "HIGH"
              Decision := "BLOCKED"
              Reasons := ["Entidade na lista negra"]
              RulesTriggered := ["Blacklist Check"]
              AnalyzedAt := clk.analyzedAt
              ProcessingTime := (timeSince clk.finish clk.start).Milliseconds
              Details := [("blocked_reason", DetailValue.str "Entidade na lista negra")] },
           none)) ∧
      (∀ b err, s.blacklistStore.IsBlacklisted x.1 x.2.1 x.2.2 = (b, some err) →
        s.AnalyzeTransaction clk transaction = (none, some err))) ∧
    ((∀ y ∈ blacklistLookups clk transaction,
        s.blacklistStore.IsBlacklisted y.1 y.2.1 y.2.2 = (false, none)) →
      s.checkBlacklist clk transaction = (false, none)) := by
  have heq := checkBlacklist_eq_firstDecisive s clk transaction
  refine ⟨heq, ?_, ?_⟩
  · intro pre x post hsplit hpre
    have hskip := firstDecisive_skip s.blacklistStore pre (x :: post) hpre
    rw [← hsplit, ← heq] at hskip
    obtain ⟨now, entryType, value⟩ := x
    constructor
    · intro hhit
      simp only at hhit
      have hcb : s.checkBlacklist clk transaction = (true, none) := by
        rw [hskip]
        simp only [firstDecisive, hhit]
      rw [AnalyzeTransaction_of_hit _ _ _ hcb]
      simp only [FraudDetectionService.createBlockedResult, stampTimestamp_ID]
      rfl
    · intro b err hfail
      simp only at hfail
      have hcb : s.checkBlacklist clk transaction = (false, some err) := by
        rw [hskip]
        simp only [firstDecisive, hfail]
      exact AnalyzeTransaction_of_error _ _ _ _ _ hcb
  · intro hall
    have hskip := firstDecisive_skip s.blacklistStore (blacklistLookups clk transaction) [] hall
    rw [List.append_nil] at hskip
    rw [heq, hskip]
    rfl

/-- Witness for C24: with a store that hits for the user and would fail for the card, the
transaction is blocked and no error is returned; with a store that misses for the user and
fails for the card, the error is returned and no result. -/
theorem checkBlacklist_order_and_short_circuit_witness :
    ((NewFraudDetectionService exampleMath unavailableProfileStore
        hitThenFailStore).AnalyzeTransaction (clockAt noon) cardTransaction).2 = none ∧
    ((NewFraudDetectionService exampleMath unavailableProfileStore
        hitThenFailStore).AnalyzeTransaction (clockAt noon) cardTransaction).1.map
        (fun r => r.Decision) = some "BLOCKED" ∧
    (NewFraudDetectionService exampleMath NewInMemoryProfileStore.toProfileStore
        missThenFailStore).AnalyzeTransaction (clockAt noon) cardTransaction
      = (none, some "blacklist store unavailable") :=
  have hhit := ((checkBlacklist_order_and_short_circuit
    (NewFraudDetectionService exampleMath unavailableProfileStore hitThenFailStore)
    (clockAt noon) cardTransaction).2.1 [] (noon, "user", "USER999")
    [(noon, "card", "4242")] (by decide!) (fun y hy => absurd hy (List.not_mem_nil y))).1 rfl
  ⟨by rw [hhit], by rw [hhit]; rfl,
    ((checkBlacklist_order_and_short_circuit
      (NewFraudDetectionService exampleMath NewInMemoryProfileStore.toProfileStore
        missThenFailStore)
      (clockAt noon) cardTransaction).2.1 [(noon, "user", "USER999")] (noon, "card", "4242")
      [] (by decide!) (fun y hy => by
        rw [List.mem_singleton] at hy
        rw [hy]
        rfl)).2 false "blacklist store unavailable" rfl⟩

theorem NewRuleEngine_rule_score_cases (m : MathFuncs Float64) (now : Time)
    (transaction : Transaction) (profile : Option UserProfile) :
    ∀ rule ∈ (NewRuleEngine m).rules,
      ((rule.Evaluate now transaction profile).Triggered = false →
        (rule.Evaluate now transaction profile).Score = 0) ∧
      ((rule.Evaluate now transaction profile).Triggered = true →
        0 < (rule.Evaluate now transaction profile).Score ∧
        (rule.Evaluate now transaction profile).Score ≤ rule.GetWeight) := by
  rw [NewRuleEngine_rules]
  intro rule hrule
  simp only [List.mem_cons, List.mem_singleton, List.not_mem_nil, or_false] at hrule
  rcases hrule with h | h | h | h | h | h | h <;> subst h
  · have htrig := HighAmountRule_default_triggered transaction profile
    have hscore := HighAmountRule_default_score transaction profile
    have hw : HighAmountRule.zeroValue.toFraudRule.GetWeight = 25 := by decide
    simp only [HighAmountRule.toFraudRule] at hw ⊢
    rw [hw]
    constructor
    · intro hf
      have hn : ¬ transaction.Amount > 10000 := by
        intro hgt
        rw [htrig.mpr hgt] at hf
        exact absurd hf (by decide)
      rw [hscore, if_neg hn]
    · intro ht
      rw [hscore, if_pos (htrig.mp ht)]
      split_ifs <;> decide
  · simp only [VelocityRule.toFraudRule, VelocityRule.Evaluate, VelocityRule.GetWeight]
    constructor
    · intro hf
      rw [hf]
      rfl
    · intro ht
      rw [ht]
      decide
  · simp only [GeoVelocityRule.toFraudRule, GeoVelocityRule.Evaluate, GeoVelocityRule.GetWeight]
    constructor
    · intro hf
      rw [hf]
      rfl
    · intro ht
      rw [ht]
      decide
  · simp only [UnusualHourRule.toFraudRule, UnusualHourRule.Evaluate, UnusualHourRule.GetWeight]
    constructor
    · intro hf
      rw [hf]
      rfl
    · intro ht
      rw [ht]
      decide
  · simp only [NewUserRule.toFraudRule, NewUserRule.Evaluate, NewUserRule.GetWeight]
    constructor
    · intro hf
      rw [hf]
      rfl
    · intro ht
      rw [ht]
      decide
  · simp only [RoundAmountRule.toFraudRule, RoundAmountRule.Evaluate, RoundAmountRule.GetWeight]
    constructor
    · intro hf
      rw [hf]
      rfl
    · intro ht
      rw [ht]
      decide
  · simp only [MultipleFailedAttemptsRule.toFraudRule, MultipleFailedAttemptsRule.Evaluate]
    constructor
    · intro _
      trivial
    · intro ht
      exact absurd ht (by decide)

/-- C25: for each of the seven rules registered by `NewRuleEngine` and for every
transaction and profile (present or absent), the rule's result has `Score = 0` whenever
`Triggered` is false, and `0 < Score ≤` the rule's weight (25, 20, 30, 10, 15, 5, 25
respectively) whenever `Triggered` is true; no rule ever yields a negative score and the
Multiple Failed Attempts rule is never triggered. -/
theorem rule_scores_within_weight (m : MathFuncs Float64) (now : Time)
    (transaction : Transaction) (profile : Option UserProfile) :
    (∀ rule ∈ (NewRuleEngine m).rules,
      ((rule.Evaluate now transaction profile).Triggered = false →
        (rule.Evaluate now transaction profile).Score = 0) ∧
      ((rule.Evaluate now transaction profile).Triggered = true →
        0 < (rule.Evaluate now transaction profile).Score ∧
        (rule.Evaluate now transaction profile).Score ≤ rule.GetWeight) ∧
      0 ≤ (rule.Evaluate now transaction profile).Score) ∧
    (NewRuleEngine m).rules.map (fun rule => rule.GetWeight) = [25, 20, 30, 10, 15, 5, 25] ∧
    (MultipleFailedAttemptsRule.Evaluate transaction profile).Triggered = false ∧
    (MultipleFailedAttemptsRule.toFraudRule.Evaluate now transaction profile).Triggered
      = false := by
  refine ⟨?_, ?_, rfl, rfl⟩
  · intro rule hrule
    have h := NewRuleEngine_rule_score_cases m now transaction profile rule hrule
    refine ⟨h.1, h.2, ?_⟩
    cases hb : (rule.Evaluate now transaction profile).Triggered
    · rw [h.1 hb]
    · exact le_of_lt (h.2 hb).1
  · rw [NewRuleEngine_rules]
    rfl

/-- Witness for C25: the New User rule triggers on `exampleTransaction` without profile,
with a score positive and at most its weight 15. -/
theorem rule_scores_within_weight_witness :
    0 < (NewUserRule.toFraudRule.Evaluate noon exampleTransaction none).Score ∧
    (NewUserRule.toFraudRule.Evaluate noon exampleTransaction none).Score ≤ 15 :=
  ((rule_scores_within_weight exampleMath noon exampleTransaction none).1
    NewUserRule.toFraudRule (by rw [NewRuleEngine_rules]; simp)).2.1 (by decide!)

theorem Evaluate_absent_profile_bounds (m : MathFuncs Float64) (now : Time)
    (t : Transaction) :
    0 ≤ scoreSum ((NewRuleEngine m).Evaluate now t none) ∧
    scoreSum ((NewRuleEngine m).Evaluate now t none) ≤ 55 ∧
    (∀ x ∈ (NewRuleEngine m).Evaluate now t none,
      x.RuleName ≠ "Transaction Velocity" ∧ x.RuleName ≠ "Geographical Velocity") := by
  have hall := NewRuleEngine_rule_score_cases m now t none
  rw [NewRuleEngine_rules] at hall
  have hH := hall HighAmountRule.zeroValue.toFraudRule (by simp)
  have hU := hall UnusualHourRule.toFraudRule (by simp)
  have hN := hall NewUserRule.toFraudRule (by simp)
  have hR := hall RoundAmountRule.toFraudRule (by simp)
  have wH : HighAmountRule.zeroValue.toFraudRule.GetWeight = 25 := by decide
  have wU : UnusualHourRule.toFraudRule.GetWeight = 10 := rfl
  have wN : NewUserRule.toFraudRule.GetWeight = 15 := rfl
  have wR : RoundAmountRule.toFraudRule.GetWeight = 5 := rfl
  rw [wH] at hH
  rw [wU] at hU
  rw [wN] at hN
  rw [wR] at hR
  simp only [HighAmountRule.toFraudRule] at hH
  simp only [UnusualHourRule.toFraudRule] at hU
  simp only [NewUserRule.toFraudRule] at hN
  simp only [RoundAmountRule.toFraudRule] at hR
  have h2 : (VelocityRule.Evaluate t none).Triggered = false := rfl
  have h3 : (GeoVelocityRule.Evaluate m t none).Triggered = false := rfl
  have h7 : (MultipleFailedAttemptsRule.Evaluate t none).Triggered = false := rfl
  have nH : (HighAmountRule.zeroValue.Evaluate t none).RuleName = "High Amount Transaction" :=
    rfl
  have nU : (UnusualHourRule.Evaluate t none).RuleName = "Unusual Hour Transaction" := rfl
  have nN : (NewUserRule.Evaluate now t none).RuleName = "New User High Transaction" := rfl
  have nR : (RoundAmountRule.Evaluate t none).RuleName = "Suspicious Round Amount" := rfl
  rw [Evaluate_NewRuleEngine_eq_filter]
  cases h1 : (HighAmountRule.zeroValue.Evaluate t none).Triggered <;>
    cases h4 : (UnusualHourRule.Evaluate t none).Triggered <;>
    cases h5 : (NewUserRule.Evaluate now t none).Triggered <;>
    cases h6 : (RoundAmountRule.Evaluate t none).Triggered <;>
    simp only [List.filter_cons, List.filter_nil, h1, h2, h3, h4, h5, h6, h7, scoreSum,
      List.map_cons, List.map_nil, List.sum_cons, List.sum_nil, List.mem_cons,
      List.mem_singleton, List.not_mem_nil, forall_eq_or_imp, forall_eq, nH, nU, nN, nR,
      if_true, if_false, Bool.false_eq_true, reduceIte] <;>
    (refine ⟨?_, ?_, ?_⟩ <;> first
      | (have a1 := hH.1; have a2 := hH.2; have b1 := hU.1; have b2 := hU.2
         have c1 := hN.1; have c2 := hN.2; have d1 := hR.1; have d2 := hR.2
         simp only [h1, h4, h5, h6, true_implies, Bool.false_eq_true, false_implies] at *
         omega)
      | decide
      | simp)

/-- C27: for every transaction that no blacklist check hits and whose user has no stored
profile, the Velocity and Geographical Velocity rules do not trigger, the risk score
returned by `AnalyzeTransaction` is at most 55, the risk level is not HIGH and the decision
is not BLOCKED. -/
theorem AnalyzeTransaction_unknown_user_not_blocked (m : MathFuncs Float64)
    (ps : InMemoryProfileStore) (blacklistStore : BlacklistStore) (clk : Clock)
    (transaction : Transaction)
    (hmiss : (NewFraudDetectionService m ps.toProfileStore blacklistStore).checkBlacklist clk
      transaction = (false, none))
    (hnone : ps.profiles transaction.UserID = none) :
    (VelocityRule.Evaluate (stampTimestamp clk transaction) none).Triggered = false ∧
    (GeoVelocityRule.Evaluate m (stampTimestamp clk transaction) none).Triggered = false ∧
    ∃ r, (NewFraudDetectionService m ps.toProfileStore blacklistStore).AnalyzeTransaction clk
        transaction = (some r, none) ∧
      0 ≤ r.RiskScore ∧ r.RiskScore ≤ 55 ∧ r.RiskLevel ≠ "HIGH" ∧ r.Decision ≠ "BLOCKED" ∧
      "Transaction Velocity" ∉ r.RulesTriggered ∧
      "Geographical Velocity" ∉ r.RulesTriggered := by
  have hget : ps.toProfileStore.GetUserProfile transaction.UserID
      = (none, some ("profile not found for user " ++ transaction.UserID)) := by
    simp [InMemoryProfileStore.toProfileStore, InMemoryProfileStore.GetUserProfile, hnone]
  obtain ⟨hlo, hhi, hnames⟩ :=
    Evaluate_absent_profile_bounds m clk.since (stampTimestamp clk transaction)
  have hscore : (NewRuleEngine m).CalculateTotalScore
      ((NewRuleEngine m).Evaluate clk.since (stampTimestamp clk transaction) none)
      = scoreSum ((NewRuleEngine m).Evaluate clk.since (stampTimestamp clk transaction) none) :=
    CalculateTotalScore_small _ _ hlo (by omega)
  have hlevel : ∀ x : Int, x ≤ 55 → GetRiskLevel x ≠ "HIGH" ∧
      GetDecision (GetRiskLevel x) ≠ "BLOCKED" := by
    intro x hx
    by_cases h30 : x ≤ 30
    · have h1 : GetRiskLevel x = "LOW" := by simp [GetRiskLevel, h30, RiskLevelLow]
      rw [h1]
      exact ⟨by decide, by decide⟩
    · have h70 : x ≤ 70 := by omega
      have h1 : GetRiskLevel x = "MEDIUM" := by simp [GetRiskLevel, h30, h70, RiskLevelMedium]
      rw [h1]
      exact ⟨by decide, by decide⟩
  refine ⟨rfl, rfl, _, AnalyzeTransaction_of_miss _ _ _ hmiss, ?_, ?_, ?_, ?_, ?_, ?_⟩
  · simp only [NewFraudDetectionService, stampTimestamp_UserID, hget, hscore]
    exact hlo
  · simp only [NewFraudDetectionService, stampTimestamp_UserID, hget, hscore]
    exact hhi
  · simp only [NewFraudDetectionService, stampTimestamp_UserID, hget, hscore]
    exact (hlevel _ hhi).1
  · simp only [NewFraudDetectionService, stampTimestamp_UserID, hget, hscore]
    exact (hlevel _ hhi).2
  · simp only [NewFraudDetectionService, stampTimestamp_UserID, hget, extractReasons_Evaluate,
      List.mem_map, not_exists, not_and]
    intro x hx heq
    exact (hnames x hx).1 heq
  · simp only [NewFraudDetectionService, stampTimestamp_UserID, hget, extractReasons_Evaluate,
      List.mem_map, not_exists, not_and]
    intro x hx heq
    exact (hnames x hx).2 heq

/-- Witness for C27: the unknown user's example transaction scores 15 and is approved. -/
theorem AnalyzeTransaction_unknown_user_not_blocked_witness :
    ∃ r, (NewFraudDetectionService exampleMath NewInMemoryProfileStore.toProfileStore
        sampleBlacklist.toBlacklistStore).AnalyzeTransaction (clockAt noon)
        exampleTransaction = (some r, none) ∧
      0 ≤ r.RiskScore ∧ r.RiskScore ≤ 55 ∧ r.RiskLevel ≠ "HIGH" ∧ r.Decision ≠ "BLOCKED" ∧
      "Transaction Velocity" ∉ r.RulesTriggered ∧
      "Geographical Velocity" ∉ r.RulesTriggered :=
  (AnalyzeTransaction_unknown_user_not_blocked exampleMath NewInMemoryProfileStore
    sampleBlacklist.toBlacklistStore (clockAt noon) exampleTransaction (by decide) rfl).2.2

theorem realMath_exactAtZero : realMath.exactAtZero := by
  refine ⟨Real.sin_zero, Real.sqrt_zero, Real.sqrt_one, ?_⟩
  show Complex.arg ⟨1, 0⟩ = 0
  have h : (⟨1, 0⟩ : ℂ) = 1 := rfl
  rw [h, Complex.arg_one]

theorem calculateDistance_eq_haversineA {F : Type} [Field F] (m : MathFuncs F)
    (lat1 lon1 lat2 lon2 : F) :
    calculateDistance m lat1 lon1 lat2 lon2 =
      6371 * (2 * m.Atan2 (m.Sqrt (haversineA m lat1 lon1 lat2 lon2))
        (m.Sqrt (1 - haversineA m lat1 lon1 lat2 lon2))) := rfl

theorem sin_half_mul_self (x : ℝ) :
    Real.sin (x / 2) * Real.sin (x / 2) = (1 - Real.cos x) / 2 := by
  have h1 := Real.cos_two_mul (x / 2)
  have h2 := Real.sin_sq_add_cos_sq (x / 2)
  have h3 : 2 * (x / 2) = x := by ring
  rw [h3] at h1
  nlinarith

theorem haversine_core_bounds (s₁ c₁ s₂ c₂ c : ℝ) (h₁ : s₁ ^ 2 + c₁ ^ 2 = 1)
    (h₂ : s₂ ^ 2 + c₂ ^ 2 = 1) (hlo : -1 ≤ c) (hhi : c ≤ 1) :
    -1 ≤ s₁ * s₂ + c₁ * c₂ * c ∧ s₁ * s₂ + c₁ * c₂ * c ≤ 1 := by
  have hp : (0 : ℝ) ≤ 1 + c := by linarith
  have hm : (0 : ℝ) ≤ 1 - c := by linarith
  constructor
  · nlinarith [mul_nonneg hp (add_nonneg (sq_nonneg (s₁ + s₂)) (sq_nonneg (c₁ + c₂))),
      mul_nonneg hm (add_nonneg (sq_nonneg (s₁ + s₂)) (sq_nonneg (c₁ - c₂)))]
  · nlinarith [mul_nonneg hp (add_nonneg (sq_nonneg (s₁ - s₂)) (sq_nonneg (c₁ - c₂))),
      mul_nonneg hm (add_nonneg (sq_nonneg (s₁ - s₂)) (sq_nonneg (c₁ + c₂)))]

theorem haversineA_real_bounds (lat1 lon1 lat2 lon2 : ℝ) :
    0 ≤ haversineA realMath lat1 lon1 lat2 lon2 ∧
    haversineA realMath lat1 lon1 lat2 lon2 ≤ 1 := by
  have hsub : degToRad realMath (lat2 - lat1)
      = degToRad realMath lat2 - degToRad realMath lat1 := by
    unfold degToRad
    ring
  have hcore := haversine_core_bounds (Real.sin (degToRad realMath lat2))
    (Real.cos (degToRad realMath lat2)) (Real.sin (degToRad realMath lat1))
    (Real.cos (degToRad realMath lat1)) (Real.cos (degToRad realMath (lon2 - lon1)))
    (Real.sin_sq_add_cos_sq _) (Real.sin_sq_add_cos_sq _) (Real.neg_one_le_cos _)
    (Real.cos_le_one _)
  have ha : haversineA realMath lat1 lon1 lat2 lon2 =
      (1 - (Real.sin (degToRad realMath lat2) * Real.sin (degToRad realMath lat1) +
        Real.cos (degToRad realMath lat2) * Real.cos (degToRad realMath lat1) *
          Real.cos (degToRad realMath (lon2 - lon1)))) / 2 := by
    show Real.sin (degToRad realMath (lat2 - lat1) / 2) *
        Real.sin (degToRad realMath (lat2 - lat1) / 2) +
      Real.cos (degToRad realMath lat1) * Real.cos (degToRad realMath lat2) *
        Real.sin (degToRad realMath (lon2 - lon1) / 2) *
          Real.sin (degToRad realMath (lon2 - lon1) / 2) = _
    rw [mul_assoc (Real.cos (degToRad realMath lat1) * Real.cos (degToRad realMath lat2)),
      sin_half_mul_self, sin_half_mul_self, hsub, Real.cos_sub]
    ring
  rw [ha]
  constructor <;> linarith [hcore.1, hcore.2]

theorem realAtan2_bounds (y x : ℝ) (hy : 0 ≤ y) (hx : 0 ≤ x) :
    0 ≤ realAtan2 y x ∧ realAtan2 y x ≤ Real.pi / 2 := by
  unfold realAtan2
  exact ⟨Complex.arg_nonneg_iff.mpr hy, Complex.arg_le_pi_div_two_iff.mpr (Or.inl hx)⟩

/-- C26: `calculateDistance` is a total function and, over real-number arithmetic, for
every coordinate pair `(lat, lon)` the distance from the point to itself is 0; the same
holds in the rational model for every `math` parameter exact at `Sin 0`, `Sqrt 0`,
`Sqrt 1` and `Atan2 0 1`. -/
theorem calculateDistance_same_point (lat lon : ℝ) :
    calculateDistance realMath lat lon lat lon = 0 ∧
    (∀ (m : MathFuncs Float64), m.exactAtZero →
      ∀ la lo : Float64, calculateDistance m la lo la lo = 0) :=
  ⟨calculateDistance_self realMath realMath_exactAtZero lat lon,
   fun m hm la lo => calculateDistance_self m hm la lo⟩

/-- Witness for C26: with `exampleMath` the distance from São Paulo to itself is 0. -/
theorem calculateDistance_same_point_witness :
    calculateDistance exampleMath exampleLocation.Latitude exampleLocation.Longitude
      exampleLocation.Latitude exampleLocation.Longitude = 0 :=
  (calculateDistance_same_point 0 0).2 exampleMath ⟨rfl, rfl, rfl, rfl⟩ _ _

/-- C28: over real-number arithmetic, for all real inputs `lat1`, `lon1`, `lat2`, `lon2`
the Haversine inner term `a` computed by `calculateDistance` lies in `[0, 1]`, so that
both `a` and `1 - a` under the square roots are non-negative, and the returned distance
lies in `[0, 6371 π]` km. -/
theorem calculateDistance_real_range (lat1 lon1 lat2 lon2 : ℝ) :
    0 ≤ haversineA realMath lat1 lon1 lat2 lon2 ∧
    haversineA realMath lat1 lon1 lat2 lon2 ≤ 1 ∧
    0 ≤ 1 - haversineA realMath lat1 lon1 lat2 lon2 ∧
    calculateDistance realMath lat1 lon1 lat2 lon2 =
      6371 * (2 * realAtan2 (Real.sqrt (haversineA realMath lat1 lon1 lat2 lon2))
        (Real.sqrt (1 - haversineA realMath lat1 lon1 lat2 lon2))) ∧
    0 ≤ calculateDistance realMath lat1 lon1 lat2 lon2 ∧
    calculateDistance realMath lat1 lon1 lat2 lon2 ≤ 6371 * Real.pi := by
  obtain ⟨h0, h1⟩ := haversineA_real_bounds lat1 lon1 lat2 lon2
  have hat := realAtan2_bounds (Real.sqrt (haversineA realMath lat1 lon1 lat2 lon2))
    (Real.sqrt (1 - haversineA realMath lat1 lon1 lat2 lon2)) (Real.sqrt_nonneg _)
    (Real.sqrt_nonneg _)
  have heq : calculateDistance realMath lat1 lon1 lat2 lon2 =
      6371 * (2 * realAtan2 (Real.sqrt (haversineA realMath lat1 lon1 lat2 lon2))
        (Real.sqrt (1 - haversineA realMath lat1 lon1 lat2 lon2))) := rfl
  refine ⟨h0, h1, by linarith, heq, ?_, ?_⟩
  · rw [heq]
    linarith [hat.1]
  · rw [heq]
    linarith [hat.2]

end AntiFraud
